import Mathlib

/-
Verification of the FPL-Draft-Agent dialogue core (apps/backend/backend/agent.py)
against its natural-language specification.

The Python source is shallowly embedded: each `_method` of `Agent` that the
claims touch becomes a Lean definition of the same name (the `str` of Python is
the `String` of Lean; `re` patterns are hand-compiled into executable matchers;
`dict` argument objects become association lists with Python-dict semantics).
Lowercasing models Python `str.lower` on the ASCII range, which covers every
string that the tables of the agent and the claims mention.
-/

namespace FPLAgent

/-! ## Python string primitives -/

/-- Python whitespace set used by `str.strip` / `str.split`. -/
def pyIsSpace (c : Char) : Bool :=
  c == ' ' || c == '\t' || c == '\n' || c == '\r' || c == '\x0b' || c == '\x0c'

/-- Python `str.lower` (ASCII range). -/
def pyLower (s : String) : String := ⟨s.data.map Char.toLower⟩

/-- Python `str.strip()` (strip whitespace from both ends). -/
def pyStrip (s : String) : String :=
  ⟨((s.data.dropWhile pyIsSpace).reverse.dropWhile pyIsSpace).reverse⟩

/-- Python `str.rstrip(chars)`. -/
def pyRStrip (chars : List Char) (s : String) : String :=
  ⟨(s.data.reverse.dropWhile (fun c => chars.contains c)).reverse⟩

/-- Helper for `pySplit`: accumulate the current word (reversed) while scanning. -/
def pySplitAux : List Char → List Char → List (List Char)
  | [], acc => if acc.isEmpty then [] else [acc.reverse]
  | c :: cs, acc =>
    if pyIsSpace c then
      if acc.isEmpty then pySplitAux cs [] else acc.reverse :: pySplitAux cs []
    else pySplitAux cs (c :: acc)

/-- Python `str.split()` (split on whitespace runs, dropping empty fields). -/
def pySplit (s : String) : List String := (pySplitAux s.data []).map (fun w => ⟨w⟩)

/-- Python `needle in hay` substring containment. -/
def strIn (needle hay : String) : Bool :=
  hay.data.tails.any (fun t => needle.data.isPrefixOf t)

/-- Python `hay.startswith(pre)`. -/
def pyStartsWith (hay pre : String) : Bool := pre.data.isPrefixOf hay.data

/-- Numeric value of a list of ASCII digits (the `int(...)` of a captured group). -/
def digitsToNat (ds : List Char) : Nat :=
  ds.foldl (fun n c => 10 * n + (c.toNat - '0'.toNat)) 0

/-! ## `_normalize_text` (agent.py:781-782)

`re.sub(r"[^a-z0-9 ]+", " ", text.lower())`: each *maximal run* of characters
outside `[a-z0-9 ]` is replaced by a single space (the regex quantifier is `+`).
-/

/-- Character class `[a-z0-9 ]` of the `_normalize_text` pattern. -/
def normAllowed (c : Char) : Bool :=
  ('a' ≤ c && c ≤ 'z') || ('0' ≤ c && c ≤ '9') || c == ' '

/-- Executable model of `re.sub(r"[^a-z0-9 ]+", " ", ·)`: the Boolean state
records whether the scanner is inside a run of disallowed characters (in which
case the single replacement space has already been emitted). -/
def collapseSubAux : Bool → List Char → List Char
  | _, [] => []
  | inRun, c :: cs =>
    if normAllowed c then c :: collapseSubAux false cs
    else if inRun then collapseSubAux true cs
    else ' ' :: collapseSubAux true cs

/-- `Agent._normalize_text` (agent.py:781-782). -/
def normalizeText (s : String) : String := ⟨collapseSubAux false (pyLower s).data⟩

/-- Dropping a prefix never lengthens a list (termination helper). -/
theorem dropWhile_length_le (p : Char → Bool) :
    ∀ l : List Char, (l.dropWhile p).length ≤ l.length := by
  intro l
  induction l with
  | nil => simp [List.dropWhile]
  | cons c cs ih =>
    by_cases h : p c
    · simp [List.dropWhile, h]
      exact Nat.le_succ_of_le ih
    · simp [List.dropWhile, h]

/-- Second definition, written to the amended spec words: lowercase, then
replace each maximal run of one or more characters outside `[a-z0-9 ]` with a
single space. Compared against `normalizeText` in the C7 theorem. -/
def specCollapse : List Char → List Char
  | [] => []
  | c :: cs =>
    if normAllowed c then c :: specCollapse cs
    else ' ' :: specCollapse (cs.dropWhile (fun d => !normAllowed d))
termination_by cs => cs.length
decreasing_by
  · simp_wf
  · simp_wf
    exact Nat.lt_succ_of_le (dropWhile_length_le _ _)

/-! ## Intent classifier (`_INTENT_KEYWORDS`, `_looks_like`, agent.py:92-152) -/

/-- A single quote character, for pattern strings containing apostrophes. -/
def sq : String := ⟨[Char.ofNat 39]⟩

/-- One entry of `_INTENT_KEYWORDS`: a bare keyword (substring match) or a
tuple of keywords that must all be present. -/
inductive KwPattern where
  | one (tok : String)
  | all (toks : List String)

/-- `Agent._INTENT_KEYWORDS` (agent.py:92-141), entry by entry. -/
def intentKeywords : String → List KwPattern
  | "draft_picks" =>
    [.all ["draft", "pick"], .all ["draft", "picks"], .all ["draft", "order"],
     .all ["draft", "history"], .all ["draft", "round"], .all ["draft", "drafted"],
     .all ["draft", "who did"]]
  | "player_gw_stats" =>
    [.one "stats each week", .one "stats per week", .one "weekly stats",
     .one "points each week", .one "points per gameweek", .one "gw points",
     .one "gameweek points", .one "weekly breakdown", .one "each gameweek", .one "per gw"]
  | "transaction_analysis" =>
    [.all ["transaction", "analysis"], .one "most targeted", .one "who added",
     .one "who dropped", .all ["position", "targeted"], .all ["position", "popular"],
     .one "popular adds", .one "popular drops"]
  | "head_to_head" => [.one "head to head", .one "h2h", .one "record against"]
  | "manager_season" =>
    [.one "season stats", .one "season history", .one "season record",
     .one "how have i done", .one "overall record", .one "weekly scores",
     .one "week by week", .one "all season", .one "season breakdown", .one "full season",
     .one "season summary", .one "my record", .one "this season"]
  | "current_roster" =>
    [.one "my team", .one "my roster", .one "my squad", .one "current lineup",
     .one "current roster", .one ("who" ++ sq ++ "s on my team"), .one "show my team",
     .one "show my squad", .one "my players", .one "who do i have",
     .one "my starting", .one "my bench"]
  | "waiver" => [.one "waiver"]
  | "streak" => [.all ["streak", "win"], .all ["in a row", "win"]]
  | "win_list" =>
    [.all ["win", "week"], .all ["win", "gw"], .all ["win", "gameweek"],
     .all ["won", "week"], .all ["won", "gw"], .all ["won", "gameweek"],
     .all ["wins", "week"], .all ["wins", "gw"], .all ["wins", "gameweek"]]
  | "schedule" => [.one "schedule", .all ["who does", "play"]]
  | "fixtures" => [.one "fixtures", .one "fixture list"]
  | "player_form" => [.one "player_form", .one "player form", .one "form table"]
  | "standings" => [.one "standings", .one "table"]
  | "league_summary" => [.one "league summary", .all ["summary", "league"]]
  | "transactions" => [.one "transactions", .one "trades", .all ["waivers", "summary"]]
  | "lineup" => [.one "lineup efficiency", .one "bench points"]
  | "strength" => [.one "strength of schedule", .one "schedule difficulty"]
  | "ownership" => [.one "ownership", .one "scarcity"]
  | "matchup_summary" =>
    [.all [" vs ", "summary"], .all [" vs ", "recap"],
     .all [" vs. ", "summary"], .all [" vs. ", "recap"]]
  | _ => []

/-- `Agent._looks_like` (agent.py:143-152). -/
def looksLike (intent text : String) : Bool :=
  (intentKeywords intent).any fun p =>
    match p with
    | .one kw => strIn kw text
    | .all kws => kws.all fun kw => strIn kw text

/-- The order in which `_try_route` (agent.py:634-673) offers the lowercased
text to the intent detectors; the first detector that fires wins and its
result of that handler is returned immediately. -/
def fastRouteOrder : List String :=
  ["draft_picks", "player_gw_stats", "transaction_analysis", "head_to_head",
   "manager_season", "current_roster", "waiver", "streak", "win_list", "schedule",
   "fixtures", "player_form", "standings", "league_summary", "transactions",
   "lineup", "strength", "ownership", "matchup_summary"]

/-- The intent whose handler `_try_route` dispatches to for a (lowercased,
stripped) message once the pending-disambiguation and greeting short-circuits
have declined: the first intent in `fastRouteOrder` whose patterns match. -/
def classifyIntent (lower : String) : Option String :=
  fastRouteOrder.find? fun i => looksLike i lower

/-! ## Greeting detector (`_GREETING_PATTERNS`, `_is_greeting`, agent.py:598-614) -/

/-- `Agent._GREETING_PATTERNS` (agent.py:598-602). -/
def greetingPatterns : List String :=
  ["hello", "hi", "hey", "howdy", "yo", "sup", "good morning",
   "good afternoon", "good evening", "what" ++ sq ++ "s up", "whats up",
   "how are you", "thanks", "thank you", "cheers", "bye", "goodbye"]

/-- `Agent._is_greeting` (agent.py:604-614). -/
def isGreeting (text : String) : Bool :=
  let lower := pyRStrip ['!', '?', '.', ','] (pyStrip (pyLower text))
  if greetingPatterns.contains lower then true
  else
    let words := pySplit lower
    decide (words.length ≤ 4) && greetingPatterns.any fun g => pyStartsWith lower g

/-! ## Lemmas about the normalizer -/

/-- Inside a disallowed run, the scanner behaves like a fresh scan started
after the run. -/
theorem collapseSubAux_true_eq :
    ∀ cs : List Char,
      collapseSubAux true cs = collapseSubAux false (cs.dropWhile (fun d => !normAllowed d)) := by
  intro cs
  induction cs with
  | nil => rfl
  | cons c cs ih =>
    by_cases h : normAllowed c
    · simp [collapseSubAux, h, List.dropWhile]
    · simp [collapseSubAux, h, List.dropWhile, ih]

/-- The executable scanner agrees with the run-replacement reading. -/
theorem collapseSubAux_eq_specCollapse :
    ∀ (n : Nat) (cs : List Char), cs.length ≤ n → collapseSubAux false cs = specCollapse cs := by
  intro n
  induction n with
  | zero =>
    intro cs h
    have : cs = [] := List.eq_nil_of_length_eq_zero (Nat.le_zero.mp h)
    subst this
    simp [collapseSubAux, specCollapse]
  | succ n ih =>
    intro cs h
    match cs with
    | [] => simp [collapseSubAux, specCollapse]
    | c :: cs =>
      by_cases hc : normAllowed c
      · have hlen : cs.length ≤ n := Nat.le_of_succ_le_succ h
        simp [collapseSubAux, specCollapse, hc, ih cs hlen]
      · have hlen : (cs.dropWhile (fun d => !normAllowed d)).length ≤ n :=
          Nat.le_trans (dropWhile_length_le _ cs) (Nat.le_of_succ_le_succ h)
        simp [collapseSubAux, specCollapse, hc, collapseSubAux_true_eq, ih _ hlen]

/-- The scanner never lengthens its input. -/
theorem collapseSubAux_length_le :
    ∀ (cs : List Char) (b : Bool), (collapseSubAux b cs).length ≤ cs.length := by
  intro cs
  induction cs with
  | nil => intro b; simp [collapseSubAux]
  | cons c cs ih =>
    intro b
    by_cases h : normAllowed c
    · simpa [collapseSubAux, h] using ih false
    · cases b with
      | true => simpa [collapseSubAux, h] using Nat.le_succ_of_le (ih true)
      | false => simpa [collapseSubAux, h] using ih true

/-- Every character the scanner emits lies in `[a-z0-9 ]`. -/
theorem collapseSubAux_allowed :
    ∀ (cs : List Char) (b : Bool) (c : Char), c ∈ collapseSubAux b cs → normAllowed c := by
  intro cs
  induction cs with
  | nil => intro b c h; simp [collapseSubAux] at h
  | cons d cs ih =>
    intro b c h
    by_cases hd : normAllowed d
    · simp [collapseSubAux, hd] at h
      rcases h with h | h
      · subst h; exact hd
      · exact ih false c h
    · cases b with
      | true =>
        simp [collapseSubAux, hd] at h
        exact ih true c h
      | false =>
        simp [collapseSubAux, hd] at h
        rcases h with h | h
        · subst h; rfl
        · exact ih true c h

/-! ## C7 theorems -/

/-- C7 counterexample: the claim says every character outside `[a-z0-9 ]` maps
to exactly one space, so the output length always equals the input length.
On `"a!?b"` the sub call `re.sub(r"[^a-z0-9 ]+", " ", ·)` collapses the run
`"!?"` to a single space: the output is `"a b"`, one character shorter. -/
theorem c7_counterexample :
    normalizeText "a!?b" = "a b" ∧
      (normalizeText "a!?b").length ≠ ("a!?b" : String).length := by
  constructor
  · rfl
  · decide

/-- C7 (amended): `_normalize_text` lowercases and replaces every *maximal run*
of one or more characters outside `[a-z0-9 ]` with a single space; hence the
output is never longer than the input and consists only of `[a-z0-9 ]`
characters. -/
theorem c7_normalize_collapses_runs (s : String) :
    normalizeText s = ⟨specCollapse (pyLower s).data⟩ ∧
      (normalizeText s).length ≤ s.length ∧
      ∀ c ∈ (normalizeText s).data, normAllowed c := by
  refine ⟨?_, ?_, ?_⟩
  · show (⟨collapseSubAux false (pyLower s).data⟩ : String) = _
    rw [collapseSubAux_eq_specCollapse (pyLower s).data.length _ (Nat.le_refl _)]
  · show (collapseSubAux false (pyLower s).data).length ≤ s.data.length
    calc (collapseSubAux false (pyLower s).data).length
        ≤ (pyLower s).data.length := collapseSubAux_length_le _ _
      _ = s.data.length := by simp [pyLower]
  · intro c hc
    exact collapseSubAux_allowed _ _ _ hc

/-! ## C1 theorem -/

/-- C1 (code bug evidence): on `"who won gw27"` the first matching
intent is `win_list` — the `("won", "gw")` tuple pattern fires and `win_list`
is checked before `league_summary` in `_try_route` — while no `league_summary`
pattern matches the text at all and the greeting short-circuit declines.  The
spec and the test of the repository itself, `test_who_won_gw_routes_to_league_summary`
(#85) require the league-recap path instead, so the utterance is dispatched to
`_handle_wins_list`, contradicting them. -/
theorem c1_who_won_gw27_routes_to_win_list :
    classifyIntent "who won gw27" = some "win_list" ∧
      looksLike "league_summary" "who won gw27" = false ∧
      looksLike "win_list" "who won gw27" = true ∧
      isGreeting "who won gw27" = false := by
  refine ⟨?_, ?_, ?_, ?_⟩ <;> decide

/-! ## JSON-like values and Python-dict argument objects

Tool arguments and tool results are Python dicts / JSON values.  A dict is an
association list without duplicate keys; `dset` updates an existing key in
place and appends a fresh one, matching insertion-order semantics.  Container
`repr` (only reachable through `str()` of a malformed argument) is abstracted.
-/

inductive Value where
  | null
  | vInt (i : Int)
  | vStr (s : String)
  | vBool (b : Bool)
  | vList (xs : List Value)
  | vDict (entries : List (String × Value))

/-- Argument/keyword object: ordered key-value pairs, unique keys. -/
abbrev Dict := List (String × Value)

/-- Python `d[k]` / `d.get(k)` lookup (first binding). -/
def dget (d : Dict) (k : String) : Option Value :=
  (d.find? fun e => e.1 == k).map (fun e => e.2)

/-- Python `k in d`. -/
def dmem (d : Dict) (k : String) : Bool := d.any fun e => e.1 == k

/-- Python `d[k] = v`: update in place, else append. -/
def dset (d : Dict) (k : String) (v : Value) : Dict :=
  if dmem d k then d.map (fun e => if e.1 == k then (k, v) else e) else d ++ [(k, v)]

/-- Python `d.setdefault(k, v)`. -/
def dsetdefault (d : Dict) (k : String) (v : Value) : Dict :=
  if dmem d k then d else d ++ [(k, v)]

/-- Python `d.pop(k, None)` (the popped value is never used by the source). -/
def dpop (d : Dict) (k : String) : Dict := d.filter fun e => e.1 != k

/-- Python `{k: v for k, v in d.items() if k in allowed}`. -/
def dkeep (d : Dict) (allowed : List String) : Dict := d.filter fun e => allowed.contains e.1

/-- Python truthiness of a value. -/
def pyTruthy : Value → Bool
  | .null => false
  | .vInt i => i != 0
  | .vStr s => s != ""
  | .vBool b => b
  | .vList xs => !xs.isEmpty
  | .vDict d => !d.isEmpty

/-- Truthiness of `d.get(k)` (absent key is `None`, hence falsy). -/
def optTruthy : Option Value → Bool
  | none => false
  | some v => pyTruthy v

/-- Python `d.get(k)` where a stored `None` and an absent key coincide. -/
def pyGet (d : Dict) (k : String) : Option Value :=
  match dget d k with
  | some .null => none
  | o => o

/-- ASCII digit test (`\d` over the inputs in scope). -/
def isDigitChar (c : Char) : Bool := '0' ≤ c && c ≤ '9'

/-- Python `int(str)`: optional sign, then one or more ASCII digits
(surrounding whitespace stripped); anything else raises. -/
def strToIntOpt (s : String) : Option Int :=
  let t := (pyStrip s).data
  match t with
  | '-' :: ds => if !ds.isEmpty && ds.all isDigitChar then some (-(digitsToNat ds : Int)) else none
  | '+' :: ds => if !ds.isEmpty && ds.all isDigitChar then some ((digitsToNat ds : Int)) else none
  | ds => if !ds.isEmpty && ds.all isDigitChar then some ((digitsToNat ds : Int)) else none

/-- Python `int(value)`: `None`/list/dict raise (`TypeError`), a non-numeric
string raises (`ValueError`); every caller in the source wraps the call in
`try/except`, so `none` models the raise. -/
def toIntOpt : Value → Option Int
  | .vInt i => some i
  | .vBool b => some (if b then 1 else 0)
  | .vStr s => strToIntOpt s
  | _ => none

/-- Python `str(value)`.  Container repr is abstracted to a placeholder: the
source only applies `str()` to scalar name fields. -/
def pyStr : Value → String
  | .null => "None"
  | .vInt i => toString i
  | .vStr s => s
  | .vBool b => if b then "True" else "False"
  | .vList _ => "[...]"
  | .vDict _ => "\x7b...\x7d"

/-! ## Parameter extraction (`_PARAM_PATTERNS`, `_extract_param`, agent.py:860-874)

Each compiled pattern is hand-translated into an executable matcher over
`List Char`; `searchPositions` reproduces the leftmost-match semantics of
`re.search`.  Case-insensitive literals compare through `Char.toLower`.
-/

/-- Try a matcher at every position, leftmost first (`re.search`). -/
def searchPositions {α : Type} (f : List Char → Option α) : List Char → Option α
  | [] => f []
  | c :: cs =>
    match f (c :: cs) with
    | some a => some a
    | none => searchPositions f cs

/-- Consume a case-insensitive literal (pattern side given lowercase). -/
def matchLitCI : List Char → List Char → Option (List Char)
  | [], cs => some cs
  | _ :: _, [] => none
  | l :: ls, c :: cs => if c.toLower == l then matchLitCI ls cs else none

/-- Consume a case-sensitive literal. -/
def matchLitCS : List Char → List Char → Option (List Char)
  | [], cs => some cs
  | _ :: _, [] => none
  | l :: ls, c :: cs => if c == l then matchLitCS ls cs else none

/-- Greedy `\s*` (safe: every following pattern element is non-whitespace). -/
def skipWs (cs : List Char) : List Char := cs.dropWhile pyIsSpace

/-- Greedy `[:=#]?` (safe: the following element is a digit). -/
def optSep (cs : List Char) : List Char :=
  match cs with
  | c :: rest => if c == ':' || c == '=' || c == '#' then rest else cs
  | [] => cs

/-- Tail of every pattern: `\s*[:=#]?\s*(\d{lo,hi})`, returning the captured
digits interpreted with `int(...)`. -/
def sepDigits (lo hi : Nat) (cs : List Char) : Option Nat :=
  let r := skipWs (optSep (skipWs cs))
  let ds := r.takeWhile isDigitChar
  if lo ≤ ds.length then some (digitsToNat (ds.take hi)) else none

/-- `league\s*(?:id)?\s*[:=#]?\s*(\d{4,6})` at one position; the optional
`id` is tried greedily and retried without on failure, as `re` backtracks. -/
def leagueAt (cs : List Char) : Option Nat :=
  match matchLitCI "league".data cs with
  | none => none
  | some r1 =>
    let r2 := skipWs r1
    let withId :=
      match matchLitCI "id".data r2 with
      | some r3 => sepDigits 4 6 r3
      | none => none
    match withId with
    | some n => some n
    | none => sepDigits 4 6 r2

/-- `(?:gw|gameweek|game\s*week|week)\s*[:=#]?\s*(\d{1,2})` at one position
(`GW_PATTERN` of constants.py), alternatives tried in declared order. -/
def gwAt (cs : List Char) : Option Nat :=
  let alt1 := match matchLitCI "gw".data cs with
    | some r => sepDigits 1 2 r
    | none => none
  let alt2 := match matchLitCI "gameweek".data cs with
    | some r => sepDigits 1 2 r
    | none => none
  let alt3 := match matchLitCI "game".data cs with
    | some r =>
      match matchLitCI "week".data (skipWs r) with
      | some r2 => sepDigits 1 2 r2
      | none => none
    | none => none
  let alt4 := match matchLitCI "week".data cs with
    | some r => sepDigits 1 2 r
    | none => none
  (alt1.orElse fun _ => alt2).orElse fun _ => (alt3.orElse fun _ => alt4)

/-- `horizon\s*[:=#]?\s*(\d{1,2})` at one position. -/
def horizonAt (cs : List Char) : Option Nat :=
  match matchLitCI "horizon".data cs with
  | some r => sepDigits 1 2 r
  | none => none

/-- `(?:entry[_\s-]*id|entry)\s*[:=#]?\s*(\d{4,8})` at one position; the
class `[_\s-]*` is consumed greedily (its closure excludes `i`, so maximal
munch is exact). -/
def entryAt (cs : List Char) : Option Nat :=
  match matchLitCI "entry".data cs with
  | none => none
  | some r1 =>
    let r2 := r1.dropWhile fun c => c == '_' || pyIsSpace c || c == '-'
    let alt1 :=
      match matchLitCI "id".data r2 with
      | some r3 => sepDigits 4 8 r3
      | none => none
    match alt1 with
    | some n => some n
    | none => sepDigits 4 8 r1

/-- `Agent._extract_param` (agent.py:868-874) with `_PARAM_PATTERNS`. -/
def extractParam (param : String) (text : String) : Option Nat :=
  match param with
  | "league_id" => searchPositions leagueAt text.data
  | "gw" => searchPositions gwAt text.data
  | "horizon" => searchPositions horizonAt text.data
  | "entry_id" => searchPositions entryAt text.data
  | _ => none

/-- `Agent._extract_league_id` (agent.py:769-770). -/
def extractLeagueId (text : String) : Option Nat := extractParam "league_id" text

/-- `Agent._extract_gw` (agent.py:772-773). -/
def extractGw (text : String) : Option Nat := extractParam "gw" text

/-- `Agent._extract_horizon` (agent.py:775-776). -/
def extractHorizon (text : String) : Option Nat := extractParam "horizon" text

/-- `Agent._extract_entry_id` (agent.py:778-779). -/
def extractEntryId (text : String) : Option Nat := extractParam "entry_id" text

/-! Sanity checks of the extraction matchers against the test-suite facts. -/

example : extractGw "gw 7" = some 7 := by decide
example : extractGw "gameweek 12" = some 12 := by decide
example : extractGw "game week 10" = some 10 := by decide
example : extractGw "gw3" = some 3 := by decide
example : extractGw "who scored most" = none := by decide
example : extractLeagueId "league 14204" = some 14204 := by decide
example : extractLeagueId "league id:99999" = some 99999 := by decide
example : extractEntryId "entry 286192" = some 286192 := by decide
example : extractEntryId "league 14204" = none := by decide
example : extractHorizon "horizon 3" = some 3 := by decide
example : extractParam "nonexistent" "any text" = none := by decide

/-! ## Session state (`AgentSession`, agent.py:14-21, 169-177) -/

/-- Per-conversation session record; every field starts as `None`. -/
structure Session where
  league_id : Option Int
  entry_id : Option Int
  entry_name : Option String
  gw : Option Int
  last_tool : Option Value

/-- The empty session built in `Agent.__init__` (agent.py:169-175). -/
def emptySession : Session := ⟨none, none, none, none, none⟩

/-- Configuration collaborator (`SETTINGS`, config.py): the value that
`int(SETTINGS.league_id)` produces, with the guarded `except` collapsed to
`0` by the caller `_default_league_id`. -/
structure Settings where
  league_id : Int

/-- `Agent._default_league_id` (agent.py:444-454). -/
def defaultLeagueId (cfg : Settings) (s : Session) : Int :=
  match s.league_id with
  | some n => if n ≠ 0 then n else cfg.league_id
  | none => cfg.league_id

/-- `Agent._default_entry_id` (agent.py:456-463). -/
def defaultEntryId (s : Session) : Option Int :=
  match s.entry_id with
  | some n => if n ≠ 0 then some n else none
  | none => none

/-- `Agent._default_entry_name` (agent.py:465-469). -/
def defaultEntryName (s : Session) : Option String :=
  match s.entry_name with
  | some n => if n ≠ "" then some n else none
  | none => none

/-- `Agent._default_gw` (agent.py:471-478); session gameweeks are always
stored as ints, so the `int(gw)` conversion never raises. -/
def defaultGw (s : Session) : Option Int := s.gw

/-- `Agent._update_session_from_context` (agent.py:480-501). -/
def updateSessionFromContext (ctx : Dict) (s : Session) : Session :=
  let s :=
    match dget ctx "league_id" with
    | some v =>
      if pyTruthy v then
        match toIntOpt v with
        | some n => { s with league_id := some n }
        | none => s
      else s
    | none => s
  let s :=
    match dget ctx "entry_id" with
    | some v =>
      if pyTruthy v then
        match toIntOpt v with
        | some n => { s with entry_id := some n }
        | none => s
      else s
    | none => s
  let s :=
    match dget ctx "entry_name" with
    | some v => if pyTruthy v then { s with entry_name := some (pyStr v) } else s
    | none => s
  match dget ctx "gw" with
  | some v =>
    match v with
    | .null => s
    | .vStr "" => s
    | _ =>
      match toIntOpt v with
      | some n => { s with gw := some n }
      | none => s
  | none => s

/-- `Agent._update_session_from_text` (agent.py:503-512); an extracted
`league_id`/`entry_id` of `0` is falsy and therefore ignored, an extracted
gameweek is stored even when `0`. -/
def updateSessionFromText (text : String) (s : Session) : Session :=
  let s :=
    match extractLeagueId text with
    | some n => if n ≠ 0 then { s with league_id := some (n : Int) } else s
    | none => s
  let s :=
    match extractEntryId text with
    | some n => if n ≠ 0 then { s with entry_id := some (n : Int) } else s
    | none => s
  match extractGw text with
  | some n => { s with gw := some (n : Int) }
  | none => s

/-- `Agent._note_tool_use` (agent.py:514-538).  The tool name is the raw
`data.get("name", "")` value of the caller — on the LLM-loop path this can be
any JSON value, `null` included — and line 515 stores it into `last_tool`
unconditionally; a `None` name is stored as `none`, the convention every
session field uses for Python `None`. -/
def noteToolUse (name : Value) (args : Dict) (s : Session) : Session :=
  let s := { s with last_tool := match name with | .null => none | v => some v }
  let s :=
    match dget args "league_id" with
    | some v =>
      if pyTruthy v then
        match toIntOpt v with
        | some n => { s with league_id := some n }
        | none => s
      else s
    | none => s
  let s :=
    match dget args "entry_id" with
    | some v =>
      if pyTruthy v then
        match toIntOpt v with
        | some n => { s with entry_id := some n }
        | none => s
      else s
    | none => s
  let s :=
    match dget args "entry_name" with
    | some v => if pyTruthy v then { s with entry_name := some (pyStr v) } else s
    | none => s
  match (pyGet args "gw").orElse (fun _ => pyGet args "as_of_gw") with
  | some v =>
    match toIntOpt v with
    | some n => { s with gw := some n }
    | none => s
  | none => s

/-! ## Team resolver (`_resolve_team`, `_resolve_team_exact`, agent.py:784-855)

`_resolve_team` scores every team name against the normalized input, sorts the
scored candidates descending by `(score, token-count, length)` with the stable
in-place `list.sort(..., reverse=True)`, keeps the candidates on the single
best score, and deduplicates them by `entry_id` with a dict comprehension.
The backend contract types `entry_id` as int and the name fields as strings;
values outside the contract (which would raise inside the Python loop) are
modelled as absent.
-/

/-- One scored candidate: `(score, len(cand.split()), len(cand), t)`. -/
abbrev Scored := Int × Nat × Nat × Value

/-- Sort key of a scored candidate: the first three tuple components, exactly
the prefix Python compares first when sorting 4-tuples whose team dicts are
never reached (the first three components always discriminate or tie). -/
def scKey (s : Scored) : Int × Nat × Nat := (s.1, s.2.1, s.2.2.1)

/-- Lexicographic `≤` on the sort key, Boolean-valued. -/
def keyLeB (a b : Int × Nat × Nat) : Bool :=
  decide (a.1 < b.1) ||
    (decide (a.1 = b.1) &&
      (decide (a.2.1 < b.2.1) || (decide (a.2.1 = b.2.1) && decide (a.2.2 ≤ b.2.2))))

/-- The relation `insertionSort` uses so that the result is descending and
stable, matching `list.sort(key=..., reverse=True)`. -/
def rScore (x y : Scored) : Prop := keyLeB (scKey y) (scKey x) = true

instance : DecidableRel rScore := fun x y =>
  inferInstanceAs (Decidable (keyLeB (scKey y) (scKey x) = true))

theorem keyLeB_total (a b : Int × Nat × Nat) : keyLeB a b || keyLeB b a := by
  rcases a with ⟨a1, a2, a3⟩
  rcases b with ⟨b1, b2, b3⟩
  simp only [keyLeB, Bool.or_eq_true, Bool.and_eq_true, decide_eq_true_eq]
  omega

theorem keyLeB_trans {a b c : Int × Nat × Nat}
    (h1 : keyLeB a b) (h2 : keyLeB b c) : keyLeB a c := by
  rcases a with ⟨a1, a2, a3⟩
  rcases b with ⟨b1, b2, b3⟩
  rcases c with ⟨c1, c2, c3⟩
  simp only [keyLeB, Bool.or_eq_true, Bool.and_eq_true, decide_eq_true_eq] at h1 h2 ⊢
  omega

instance : IsTotal Scored rScore :=
  ⟨fun x y => by
    have := keyLeB_total (scKey y) (scKey x)
    rcases Bool.or_eq_true_iff.mp this with h | h
    · exact Or.inl h
    · exact Or.inr h⟩

instance : IsTrans Scored rScore :=
  ⟨fun _ _ _ h1 h2 => keyLeB_trans h2 h1⟩

/-- `scored.sort(key=lambda s: (s[0], s[1], s[2]), reverse=True)`. -/
def sortScored (scored : List Scored) : List Scored := List.insertionSort rScore scored

/-- `(t.get(k) or "")` for the string fields of a team dict. -/
def rawStrField (t : Value) (k : String) : String :=
  match t with
  | .vDict d =>
    match dget d k with
    | some (.vStr s) => s
    | _ => ""
  | _ => ""

/-- `t.get("entry_id")` under the int contract. -/
def entryIdOf (t : Value) : Option Int :=
  match t with
  | .vDict d =>
    match dget d "entry_id" with
    | some (.vInt i) => some i
    | _ => none
  | _ => none

/-- `t.get("entry_name")` under the string contract. -/
def entryNameOf (t : Value) : Option String :=
  match t with
  | .vDict d =>
    match dget d "entry_name" with
    | some (.vStr s) => some s
    | _ => none
  | _ => none

/-- `data.get("teams", []) if isinstance(data, dict) else []`. -/
def teamsOf (data : Value) : List Value :=
  match data with
  | .vDict d =>
    match dget d "teams" with
    | some (.vList xs) => xs
    | _ => []
  | _ => []

/-- The scored entries one `(candidate, weight)` pair contributes
(agent.py:798-814): exact whole-string match scores 3, padded substring
2+weight, all-tokens-present 1+weight (skipped for a single candidate token
shorter than 4 characters). -/
def candScores (msg : String) (msgTokens : List String) (cand0 : String)
    (weight : Int) (t : Value) : List Scored :=
  let cand := pyStrip (normalizeText cand0)
  if cand == "" then []
  else if cand == msg then [(3, (pySplit cand).length, cand.length, t)]
  else if strIn (" " ++ cand ++ " ") (" " ++ msg ++ " ") then
    [(2 + weight, (pySplit cand).length, cand.length, t)]
  else
    let candTokens := pySplit cand
    if candTokens.length == 1 && (candTokens.headD "").length < 4 then []
    else if candTokens.all (fun tok => msgTokens.contains tok) then
      [(1 + weight, candTokens.length, cand.length, t)]
    else []

/-- The scoring loop of `_resolve_team` (agent.py:795-814): full name at
weight 0, short name at weight −1, in team order. -/
def scoreTeams (teams : List Value) (msg : String) (msgTokens : List String) : List Scored :=
  teams.flatMap fun t =>
    candScores msg msgTokens (pyStrip (rawStrField t "entry_name")) 0 t ++
      candScores msg msgTokens (pyStrip (rawStrField t "short_name")) (-1) t

/-- One step of the dict comprehension `{b[3].get("entry_id"): b[3] for b in
best}`: later duplicates update the value in place, keys keep first-insertion
order. -/
def pyDictInsertIdTeam (acc : List (Option Int × Value)) (k : Option Int) (v : Value) :
    List (Option Int × Value) :=
  if acc.any (fun e => e.1 == k) then acc.map (fun e => if e.1 == k then (k, v) else e)
  else acc ++ [(k, v)]

/-- The team dict carried by a scored candidate (`s[3]`). -/
def scTeam (s : Scored) : Value := s.2.2.2

/-- The dedup key of a scored candidate (`s[3].get("entry_id")`). -/
def scId (s : Scored) : Option Int := entryIdOf s.2.2.2

/-- The `scored` local of `_resolve_team`, named so that theorems can refer
to it: every candidate score for the normalized input. -/
def resolveScored (data : Value) (text : String) : List Scored :=
  scoreTeams (teamsOf data) (pyStrip (normalizeText text))
    (pySplit (pyStrip (normalizeText text)))

/-- The post-sort tail of `_resolve_team` (agent.py:819-827): take the top
score of the sorted list, keep the candidates on it, dedup by entry id, and
return either the single resolved team or the distinct candidate names. -/
def resolveFromSorted (sorted : List Scored) :
    Option Int × Option String × Option (List String) :=
  match sorted with
  | [] => (none, none, none)
  | top :: rest =>
    let best := (top :: rest).filter fun s => s.1 == top.1
    let unique :=
      (best.foldl (fun acc s => pyDictInsertIdTeam acc (scId s) (scTeam s)) []).map
        (fun e => e.2)
    match unique with
    | [u] => (entryIdOf u, entryNameOf u, none)
    | us =>
      (none, none,
        some (us.filterMap fun m =>
          match entryNameOf m with
          | some s => if s ≠ "" then some s else none
          | none => none))

/-- `Agent._resolve_team` (agent.py:784-827) applied to the payload the
`league_entries` tool call returned. -/
def resolveTeamData (data : Value) (text : String) :
    Option Int × Option String × Option (List String) :=
  if pyStrip (normalizeText text) == "" then (none, none, none)
  else resolveFromSorted (sortScored (resolveScored data text))

/-- `Agent._resolve_team_exact` (agent.py:829-840) applied to the payload the
`league_entries` tool call returned. -/
def resolveTeamExactData (data : Value) (name : String) : Option Int × Option String :=
  let teams := teamsOf data
  let target := pyStrip (normalizeText name)
  match teams.find? (fun t =>
      let en := pyStrip (normalizeText (rawStrField t "entry_name"))
      let sn := pyStrip (normalizeText (rawStrField t "short_name"))
      target ≠ "" && (en == target || sn == target)) with
  | some t => (entryIdOf t, entryNameOf t)
  | none => (none, none)

/-- `Agent._match_candidate` (agent.py:842-855): 1-based numeral index, then
exact normalized match, then padded substring, in that order. -/
def matchCandidate (text : String) (candidates : List String) : Option String :=
  let msg := pyStrip (normalizeText text)
  let byIndex : Option String :=
    if msg ≠ "" && msg.data.all isDigitChar then
      let idx := digitsToNat msg.data
      if 1 ≤ idx && idx ≤ candidates.length then some (candidates.getD (idx - 1) "")
      else none
    else none
  match byIndex with
  | some c => some c
  | none =>
    match candidates.find? (fun cand => pyStrip (normalizeText cand) == msg) with
    | some c => some c
    | none =>
      candidates.find? fun cand =>
        pyStrip (normalizeText cand) ≠ "" &&
          strIn (" " ++ pyStrip (normalizeText cand) ++ " ") (" " ++ msg ++ " ")

/-- `Agent._format_candidates` (agent.py:765-767). -/
def formatCandidates (candidates : List String) : String :=
  String.intercalate " " (candidates.mapIdx fun i name => toString (i + 1) ++ ") " ++ name)

/-- The pending-disambiguation slot (`_pending_intent`, `_pending_candidates`,
`_pending_league_id`, `_pending_text`): all four fields are set together by
`_set_pending` and cleared together, so they are one optional record. -/
structure Pending where
  intent : String
  league_id : Int
  candidates : List String
  text : String
deriving DecidableEq

/-! ## Lemmas about the dedup fold and the sort of `_resolve_team` -/

theorem keys_pyDictInsert (acc : List (Option Int × Value)) (k : Option Int) (v : Value) :
    (pyDictInsertIdTeam acc k v).map Prod.fst =
      if acc.any (fun e => e.1 == k) then acc.map Prod.fst else acc.map Prod.fst ++ [k] := by
  unfold pyDictInsertIdTeam
  by_cases h : acc.any (fun e => e.1 == k)
  · simp only [h, if_true, List.map_map]
    apply List.map_congr_left
    intro e _
    by_cases hk : e.1 == k
    · simp only [Function.comp, hk, if_true]
      exact (beq_iff_eq.mp hk).symm
    · simp [Function.comp, hk]
  · simp [h]

theorem mem_keys_pyDictInsert_self (acc : List (Option Int × Value)) (k : Option Int) (v : Value) :
    k ∈ (pyDictInsertIdTeam acc k v).map Prod.fst := by
  rw [keys_pyDictInsert]
  by_cases h : acc.any (fun e => e.1 == k)
  · rw [if_pos h]
    obtain ⟨e, he, hk⟩ := List.any_eq_true.mp h
    exact List.mem_map.mpr ⟨e, he, beq_iff_eq.mp hk⟩
  · rw [if_neg h]
    exact List.mem_append.mpr (Or.inr (List.mem_singleton.mpr rfl))

theorem mem_keys_pyDictInsert_mono (acc : List (Option Int × Value)) (k : Option Int)
    (v : Value) (k' : Option Int) (h : k' ∈ acc.map Prod.fst) :
    k' ∈ (pyDictInsertIdTeam acc k v).map Prod.fst := by
  rw [keys_pyDictInsert]
  by_cases ha : acc.any (fun e => e.1 == k)
  · rwa [if_pos ha]
  · rw [if_neg ha]
    exact List.mem_append.mpr (Or.inl h)

theorem keys_dedup_foldl_mono :
    ∀ (l : List Scored) (acc : List (Option Int × Value)) (k : Option Int),
      k ∈ acc.map Prod.fst →
      k ∈ ((l.foldl (fun acc s => pyDictInsertIdTeam acc (scId s) (scTeam s)) acc).map
        Prod.fst) := by
  intro l
  induction l with
  | nil => intro acc k h; simpa using h
  | cons s l ih =>
    intro acc k h
    exact ih _ _ (mem_keys_pyDictInsert_mono _ _ _ _ h)

theorem keys_dedup_foldl_mem :
    ∀ (l : List Scored) (acc : List (Option Int × Value)) (s : Scored), s ∈ l →
      scId s ∈ ((l.foldl (fun acc s => pyDictInsertIdTeam acc (scId s) (scTeam s)) acc).map
        Prod.fst) := by
  intro l
  induction l with
  | nil => intro _ s h; simp at h
  | cons t l ih =>
    intro acc s hs
    rcases List.mem_cons.mp hs with h | h
    · subst h
      exact keys_dedup_foldl_mono l _ _ (mem_keys_pyDictInsert_self _ _ _)
    · exact ih _ _ h

theorem dedup_foldl_const :
    ∀ (l : List Scored) (k : Option Int) (v : Value), (∀ s ∈ l, scId s = k) →
      ∃ w, l.foldl (fun acc s => pyDictInsertIdTeam acc (scId s) (scTeam s)) [(k, v)] =
        [(k, w)] := by
  intro l
  induction l with
  | nil => intro k v _; exact ⟨v, rfl⟩
  | cons t l ih =>
    intro k v hall
    have ht : scId t = k := hall t (List.mem_cons_self _ _)
    have hstep : pyDictInsertIdTeam [(k, v)] (scId t) (scTeam t) = [(k, scTeam t)] := by
      rw [ht]
      simp [pyDictInsertIdTeam]
    rw [List.foldl_cons, hstep]
    exact ih k (scTeam t) fun s hs => hall s (List.mem_cons_of_mem _ hs)

theorem dedup_length_one_iff (l : List Scored) (hne : l ≠ []) :
    ((l.foldl (fun acc s => pyDictInsertIdTeam acc (scId s) (scTeam s)) []).length = 1 ↔
      ∃ k, ∀ s ∈ l, scId s = k) := by
  obtain ⟨t, l', rfl⟩ := List.exists_cons_of_ne_nil hne
  constructor
  · intro h1
    refine ⟨scId t, ?_⟩
    intro s hs
    by_contra hneq
    have h1mem := keys_dedup_foldl_mem (t :: l') [] t (List.mem_cons_self _ _)
    have h2mem := keys_dedup_foldl_mem (t :: l') [] s hs
    have hlen :
        (((t :: l').foldl (fun acc s => pyDictInsertIdTeam acc (scId s) (scTeam s)) []).map
          Prod.fst).length = 1 := by
      simpa using h1
    obtain ⟨x, hx⟩ := List.length_eq_one.mp hlen
    rw [hx] at h1mem h2mem
    exact hneq ((List.mem_singleton.mp h2mem).trans (List.mem_singleton.mp h1mem).symm)
  · rintro ⟨k, hall⟩
    have ht : scId t = k := hall t (List.mem_cons_self _ _)
    have hstep : pyDictInsertIdTeam [] (scId t) (scTeam t) = [(k, scTeam t)] := by
      rw [ht]
      simp [pyDictInsertIdTeam]
    rw [List.foldl_cons, hstep]
    obtain ⟨w, hw⟩ :=
      dedup_foldl_const l' k (scTeam t) fun s hs => hall s (List.mem_cons_of_mem _ hs)
    rw [hw]
    rfl

theorem keyLeB_fst_le {a b : Int × Nat × Nat} (h : keyLeB a b = true) : a.1 ≤ b.1 := by
  rcases a with ⟨a1, a2, a3⟩
  rcases b with ⟨b1, b2, b3⟩
  simp only [keyLeB, Bool.or_eq_true, Bool.and_eq_true, decide_eq_true_eq] at h
  omega

theorem mem_sortScored {l : List Scored} {s : Scored} : s ∈ sortScored l ↔ s ∈ l :=
  (List.perm_insertionSort rScore l).mem_iff

theorem sortScored_nonempty {l : List Scored} (h : l ≠ []) : sortScored l ≠ [] := by
  intro hc
  apply h
  have hlen := (List.perm_insertionSort rScore l).length_eq
  rw [show sortScored l = List.insertionSort rScore l from rfl] at hc
  rw [hc] at hlen
  exact List.eq_nil_of_length_eq_zero hlen.symm

theorem sortScored_head_mem {l : List Scored} {top : Scored} {rest : List Scored}
    (h : sortScored l = top :: rest) : top ∈ l :=
  mem_sortScored.mp (h ▸ List.mem_cons_self top rest)

theorem sortScored_head_ge {l : List Scored} {top : Scored} {rest : List Scored}
    (h : sortScored l = top :: rest) : ∀ s ∈ l, s.1 ≤ top.1 := by
  intro s hs
  have hsort : List.Sorted rScore (top :: rest) := h ▸ List.sorted_insertionSort rScore l
  have hmem : s ∈ top :: rest := h ▸ mem_sortScored.mpr hs
  rcases List.mem_cons.mp hmem with rfl | hmem2
  · exact le_refl _
  · exact keyLeB_fst_le ((List.sorted_cons.mp hsort).1 s hmem2)

/-! ## C2 theorems -/

/-- Concrete league payload refuting the length tie-break: two teams whose
names both occur as padded substrings of the input, with candidate lengths 16
and 5. -/
def c2Data : Value :=
  .vDict [("teams", .vList
    [.vDict [("entry_id", .vInt 100), ("entry_name", .vStr "Alpha Beta Gamma"),
             ("short_name", .vStr "ABG")],
     .vDict [("entry_id", .vInt 200), ("entry_name", .vStr "Delta"),
             ("short_name", .vStr "DL")]])]

/-- C2 counterexample: on `"alpha beta gamma delta recap"` both teams tie on
the top score 2 with candidate lengths 16 and 5; were the tie broken by
candidate length, the longer candidate (entry 100) would win and a single id
would be returned — but `_resolve_team` keeps every distinct team on the top
score and returns the ambiguous name list. -/
theorem c2_length_tiebreak_counterexample :
    (resolveScored c2Data "alpha beta gamma delta recap").map scKey =
        [(2, 3, 16), (2, 1, 5)] ∧
      resolveTeamData c2Data "alpha beta gamma delta recap" =
        (none, none, some ["Alpha Beta Gamma", "Delta"]) := by
  constructor
  · decide
  · decide

/-- C2 (amended): within `_resolve_team`, candidate length never eliminates a
team — it only orders candidates. For a non-empty normalized input with a
non-empty score list, a single team id is returned *iff* every candidate
attaining the top score carries one and the same `entry_id`; otherwise the
result is the ambiguous form carrying the candidate-name list. -/
theorem c2_tie_not_broken_by_length (data : Value) (text : String)
    (hmsg : pyStrip (normalizeText text) ≠ "")
    (hne : resolveScored data text ≠ []) :
    ((∃ i n, resolveTeamData data text = (i, n, none)) ↔
      ∃ k, ∀ s ∈ resolveScored data text,
        (∀ t ∈ resolveScored data text, t.1 ≤ s.1) → scId s = k) ∧
    ((∃ i n, resolveTeamData data text = (i, n, none)) ∨
      ∃ names, resolveTeamData data text = (none, none, some names)) := by
  have hb : (pyStrip (normalizeText text) == "") = false := by
    simpa using hmsg
  have hred : resolveTeamData data text =
      resolveFromSorted (sortScored (resolveScored data text)) := by
    unfold resolveTeamData
    rw [hb]
    rfl
  rcases hsort : sortScored (resolveScored data text) with _ | ⟨top, rest⟩
  · exact absurd hsort (sortScored_nonempty hne)
  rw [hsort] at hred
  have htopmem : top ∈ resolveScored data text := sortScored_head_mem hsort
  have htopge : ∀ s ∈ resolveScored data text, s.1 ≤ top.1 := sortScored_head_ge hsort
  -- the filtered best tier, as `resolveFromSorted` computes it
  have hbest_mem : ∀ s, s ∈ (top :: rest).filter (fun s => s.1 == top.1) ↔
      (s ∈ resolveScored data text ∧ s.1 = top.1) := by
    intro s
    rw [List.mem_filter]
    constructor
    · rintro ⟨h1, h2⟩
      exact ⟨mem_sortScored.mp (hsort ▸ h1), beq_iff_eq.mp h2⟩
    · rintro ⟨h1, h2⟩
      exact ⟨hsort ▸ mem_sortScored.mpr h1, beq_iff_eq.mpr h2⟩
  have hbest_ne : (top :: rest).filter (fun s => s.1 == top.1) ≠ [] := by
    intro hc
    have : top ∈ (top :: rest).filter (fun s => s.1 == top.1) :=
      (hbest_mem top).mpr ⟨htopmem, rfl⟩
    rw [hc] at this
    simp at this
  -- attaining the maximum is the same as scoring `top.1`
  have hattain : ∀ s ∈ resolveScored data text,
      ((∀ t ∈ resolveScored data text, t.1 ≤ s.1) ↔ s.1 = top.1) := by
    intro s hs
    constructor
    · intro h
      exact le_antisymm (htopge s hs) (h top htopmem)
    · intro h t ht
      rw [h]
      exact htopge t ht
  have hfold := dedup_length_one_iff ((top :: rest).filter (fun s => s.1 == top.1)) hbest_ne
  -- case on the deduplicated list to evaluate the final match
  rcases huniq : (((top :: rest).filter (fun s => s.1 == top.1)).foldl
      (fun acc s => pyDictInsertIdTeam acc (scId s) (scTeam s)) []) with _ | ⟨u, us⟩
  · -- impossible: the fold over a non-empty list is non-empty, since the key
    -- of any element is among the keys of the result
    exfalso
    have := keys_dedup_foldl_mem ((top :: rest).filter (fun s => s.1 == top.1)) [] top
      ((hbest_mem top).mpr ⟨htopmem, rfl⟩)
    rw [huniq] at this
    simp at this
  · have hres : resolveFromSorted (top :: rest) =
        (match (u :: us).map (fun e => e.2) with
          | [u] => (entryIdOf u, entryNameOf u, none)
          | us =>
            (none, none,
              some (us.filterMap fun m =>
                match entryNameOf m with
                | some s => if s ≠ "" then some s else none
                | none => none))) := by
      simp only [resolveFromSorted, huniq]
    rcases us with _ | ⟨u2, us2⟩
    · -- single deduplicated team: resolution succeeds
      have hone : (((top :: rest).filter (fun s => s.1 == top.1)).foldl
          (fun acc s => pyDictInsertIdTeam acc (scId s) (scTeam s)) []).length = 1 := by
        rw [huniq]
        rfl
      have hkey := hfold.mp hone
      constructor
      · constructor
        · intro _
          obtain ⟨k, hk⟩ := hkey
          refine ⟨k, ?_⟩
          intro s hs hmax
          exact hk s ((hbest_mem s).mpr ⟨hs, (hattain s hs).mp hmax⟩)
        · intro _
          refine ⟨entryIdOf u.2, entryNameOf u.2, ?_⟩
          rw [hred, hres]
          rfl
      · refine Or.inl ⟨entryIdOf u.2, entryNameOf u.2, ?_⟩
        rw [hred, hres]
        rfl
    · -- at least two deduplicated teams: resolution is ambiguous
      have htwo : ¬ ((((top :: rest).filter (fun s => s.1 == top.1)).foldl
          (fun acc s => pyDictInsertIdTeam acc (scId s) (scTeam s)) []).length = 1) := by
        rw [huniq]
        simp
      constructor
      · constructor
        · rintro ⟨i, n, hresval⟩
          exfalso
          rw [hred, hres] at hresval
          simp at hresval
        · rintro ⟨k, hk⟩
          exfalso
          apply htwo
          apply hfold.mpr
          refine ⟨k, ?_⟩
          intro s hs
          obtain ⟨hs1, hs2⟩ := (hbest_mem s).mp hs
          exact hk s hs1 ((hattain s hs1).mpr hs2)
      · refine Or.inr ⟨((u :: u2 :: us2).map (fun e => e.2)).filterMap (fun m =>
            match entryNameOf m with
            | some s => if s ≠ "" then some s else none
            | none => none), ?_⟩
        rw [hred, hres]
        rfl

/-- C2 witness: a query matching exactly one team goes through the single-id
branch of the amended characterization. -/
theorem c2_tie_not_broken_by_length_witness :
    ∃ i n, resolveTeamData c2Data "waiver recs for delta" = (i, n, none) := by
  have hsck : (resolveScored c2Data "waiver recs for delta").map scKey = [(2, 1, 5)] := by
    decide
  have hnonempty : resolveScored c2Data "waiver recs for delta" ≠ [] := by
    intro hc
    rw [hc] at hsck
    simp at hsck
  have h := c2_tie_not_broken_by_length c2Data "waiver recs for delta"
    (by decide) hnonempty
  exact h.1.mpr ⟨some 200, by decide⟩

/-! ## Conversation history (`_append_history`, agent.py:540-547) -/

/-- `self._history_limit` set in `Agent.__init__` (agent.py:177). -/
def historyLimit : Nat := 6

/-- `Agent._append_history` (agent.py:540-547): skip blank content, push, and
when the length exceeds `2 × history_limit` keep the trailing slice. -/
def appendHistory (hist : List (String × String)) (role content : String) :
    List (String × String) :=
  let text := pyStrip content
  if text == "" then hist
  else
    let hist2 := hist ++ [(role, text)]
    let maxMsgs := historyLimit * 2
    if maxMsgs < hist2.length then hist2.drop (hist2.length - maxMsgs) else hist2

/-- C6: the history is capped at `2 × history_limit = 12` entries: a blank
entry is never appended; appending below the cap preserves it; an append at
the cap evicts exactly the oldest entry, keeping the most recent twelve; any
append sequence starting from the empty history respects the cap. -/
theorem c6_history_cap :
    (∀ (hist : List (String × String)) (role content : String),
        pyStrip content = "" → appendHistory hist role content = hist) ∧
    (∀ (hist : List (String × String)) (role content : String),
        hist.length ≤ historyLimit * 2 →
          (appendHistory hist role content).length ≤ historyLimit * 2) ∧
    (∀ (hist : List (String × String)) (role content : String),
        pyStrip content ≠ "" → hist.length = historyLimit * 2 →
          appendHistory hist role content = (hist ++ [(role, pyStrip content)]).drop 1) ∧
    (∀ msgs : List (String × String),
        (msgs.foldl (fun h rc => appendHistory h rc.1 rc.2) []).length ≤ historyLimit * 2) := by
  have hblank : ∀ (hist : List (String × String)) (role content : String),
      pyStrip content = "" → appendHistory hist role content = hist := by
    intro hist role content h
    unfold appendHistory
    rw [if_pos (by simpa using h)]
  have hcap : ∀ (hist : List (String × String)) (role content : String),
      hist.length ≤ historyLimit * 2 →
        (appendHistory hist role content).length ≤ historyLimit * 2 := by
    intro hist role content h
    unfold appendHistory
    by_cases hb : pyStrip content == ""
    · rw [if_pos hb]
      exact h
    · rw [if_neg hb]
      by_cases hlen : historyLimit * 2 < (hist ++ [(role, pyStrip content)]).length
      · simp only [if_pos hlen, List.length_drop]
        omega
      · simp only [if_neg hlen]
        omega
  refine ⟨hblank, hcap, ?_, ?_⟩
  · intro hist role content hne hlen
    unfold appendHistory
    rw [if_neg (by simpa using hne)]
    have h2 : (hist ++ [(role, pyStrip content)]).length = historyLimit * 2 + 1 := by
      simp [hlen]
    rw [if_pos (by omega)]
    have h3 : (hist ++ [(role, pyStrip content)]).length - historyLimit * 2 = 1 := by
      omega
    rw [h3]
  · intro msgs
    have : ∀ (acc : List (String × String)), acc.length ≤ historyLimit * 2 →
        (msgs.foldl (fun h rc => appendHistory h rc.1 rc.2) acc).length ≤ historyLimit * 2 := by
      induction msgs with
      | nil => intro acc h; simpa using h
      | cons m ms ih =>
        intro acc h
        exact ih _ (hcap _ _ _ h)
    exact this [] (by simp [historyLimit])

/-- C6 witness: a concrete append at the cap drops the oldest entry. -/
theorem c6_history_cap_witness :
    appendHistory
        [("user", "m1"), ("assistant", "m2"), ("user", "m3"), ("assistant", "m4"),
         ("user", "m5"), ("assistant", "m6"), ("user", "m7"), ("assistant", "m8"),
         ("user", "m9"), ("assistant", "m10"), ("user", "m11"), ("assistant", "m12")]
        "user" "m13" =
      [("assistant", "m2"), ("user", "m3"), ("assistant", "m4"),
       ("user", "m5"), ("assistant", "m6"), ("user", "m7"), ("assistant", "m8"),
       ("user", "m9"), ("assistant", "m10"), ("user", "m11"), ("assistant", "m12"),
       ("user", "m13")] := by
  have h := c6_history_cap.2.2.1
    [("user", "m1"), ("assistant", "m2"), ("user", "m3"), ("assistant", "m4"),
     ("user", "m5"), ("assistant", "m6"), ("user", "m7"), ("assistant", "m8"),
     ("user", "m9"), ("assistant", "m10"), ("user", "m11"), ("assistant", "m12")]
    "user" "m13" (by decide) (by decide)
  rw [h]
  rfl

/-! ## C10: session fields under the three update paths -/

/-- Every data field that was set stays set (possibly with a new value). -/
def sessionForward (s t : Session) : Prop :=
  (s.league_id.isSome → t.league_id.isSome) ∧
  (s.entry_id.isSome → t.entry_id.isSome) ∧
  (s.entry_name.isSome → t.entry_name.isSome) ∧
  (s.gw.isSome → t.gw.isSome)

set_option maxHeartbeats 1000000 in
/-- C10 (amended): the caller-context and text-extraction updaters never
clear any session field — a field that holds a value before the update holds
a value after it, unparseable or falsy inputs leave the previous value in
place, and `last_tool` is untouched — and `_note_tool_use` keeps the four
data fields write-only-forward, but its first line stores the given tool name
into `last_tool` *unconditionally*: when the LLM tool envelope carries a JSON
`null` name, `run` passes that `None` through and a previously set
`last_tool` is reset to `None`. -/
theorem c10_session_forward_except_last_tool :
    (∀ (s : Session) (ctx : Dict),
      sessionForward s (updateSessionFromContext ctx s) ∧
      (updateSessionFromContext ctx s).last_tool = s.last_tool) ∧
    (∀ (s : Session) (text : String),
      sessionForward s (updateSessionFromText text s) ∧
      (updateSessionFromText text s).last_tool = s.last_tool) ∧
    (∀ (s : Session) (name : Value) (args : Dict),
      sessionForward s (noteToolUse name args s) ∧
      (noteToolUse name args s).last_tool =
        (match name with | .null => none | v => some v)) := by
  refine ⟨fun s ctx => ⟨?_, ?_⟩, fun s text => ⟨?_, ?_⟩, fun s name args => ⟨?_, ?_⟩⟩
  · unfold updateSessionFromContext sessionForward
    repeat' split
    all_goals simp_all
  · unfold updateSessionFromContext
    repeat' split
    all_goals simp_all
  · unfold updateSessionFromText sessionForward
    repeat' split
    all_goals simp_all
  · unfold updateSessionFromText
    repeat' split
    all_goals simp_all
  · unfold noteToolUse sessionForward
    repeat' split
    all_goals simp_all
  · unfold noteToolUse
    repeat' split
    all_goals simp_all

/-- C10 witness: a fully populated session keeps every data field populated
across all three updaters; a string tool name lands in `last_tool` while a
null name clears it. -/
theorem c10_session_forward_except_last_tool_witness :
    (noteToolUse (.vStr "standings") []
      ⟨some 1, some 2, some "t", some 3, some (.vStr "x")⟩).league_id.isSome ∧
    (noteToolUse .null []
      ⟨some 1, some 2, some "t", some 3, some (.vStr "x")⟩).last_tool = none ∧
    (updateSessionFromText "hello"
      ⟨some 1, some 2, some "t", some 3, some (.vStr "x")⟩).gw.isSome := by
  have h := c10_session_forward_except_last_tool
  refine ⟨(h.2.2 _ (.vStr "standings") []).1.1 (by decide), ?_,
    (h.2.1 _ "hello").1.2.2.2 (by decide)⟩
  exact (h.2.2 _ .null []).2

/-! ## Error sanitizer (`_sanitize_error`, agent.py:687-706)

Three hand-compiled patterns: the detection pattern
`open\s+\S+:\s*no such file or directory`, the capture pattern `/gw/(\d+)/`,
and the removal pattern `(?:open|read|stat)\s+\S+\.json:\s*` of `re.sub`.
The greedy `\S+` with a following literal is realised by trying the longest
split of the non-whitespace run first, exactly the backtracking order of `re`.
-/

/-- The literal tail of the detection pattern. -/
def nsfdLit : List Char := "no such file or directory".data

/-- After `open` and at least one whitespace: `\S+:\s*no such file or
directory`, where the `:` must fall inside the non-whitespace run. -/
def openNsfCont (cs : List Char) : Bool :=
  let run := cs.takeWhile fun c => !pyIsSpace c
  let rest := cs.dropWhile fun c => !pyIsSpace c
  (List.range run.length).any fun j =>
    decide (1 ≤ j) && (run.getD j ' ' == ':') &&
      nsfdLit.isPrefixOf (((run.drop (j + 1)) ++ rest).dropWhile pyIsSpace)

/-- The detection pattern anchored at one position. -/
def openNsfAt (cs : List Char) : Bool :=
  match matchLitCS "open".data cs with
  | none => false
  | some r =>
    match r with
    | c :: rest => pyIsSpace c && openNsfCont (rest.dropWhile pyIsSpace)
    | [] => false

/-- `re.search(r"open\s+\S+:\s*no such file or directory", msg)` truthiness. -/
def hasOpenNsf (msg : String) : Bool := msg.data.tails.any openNsfAt

/-- `/gw/(\d+)/` anchored at one position, returning the captured digits. -/
def gwPathAt (cs : List Char) : Option (List Char) :=
  match matchLitCS "/gw/".data cs with
  | none => none
  | some r =>
    let ds := r.takeWhile isDigitChar
    if !ds.isEmpty && ((r.dropWhile isDigitChar).headD ' ' == '/') then some ds else none

/-- `re.search(r"/gw/(\d+)/", msg)` with its leftmost capture. -/
def gwPathCapture (msg : String) : Option String :=
  (searchPositions gwPathAt msg.data).map fun ds => ⟨ds⟩

/-- One attempt of `(?:open|read|stat)\s+\S+\.json:\s*` anchored at the
current position, returning the remainder after the matched span. -/
def jsonMatchAt (cs : List Char) : Option (List Char) :=
  let tryVerb : List Char → Option (List Char) := fun verb =>
    match matchLitCS verb cs with
    | none => none
    | some r =>
      match r with
      | c :: r2 =>
        if pyIsSpace c then
          let r3 := r2.dropWhile pyIsSpace
          let run := r3.takeWhile fun c => !pyIsSpace c
          let rest := r3.dropWhile fun c => !pyIsSpace c
          match (List.range run.length).reverse.find? (fun k =>
              decide (1 ≤ k) && ".json:".data.isPrefixOf (run.drop k)) with
          | some k => some (((run.drop (k + 6)) ++ rest).dropWhile pyIsSpace)
          | none => none
        else none
      | [] => none
  match tryVerb "open".data with
  | some r => some r
  | none =>
    match tryVerb "read".data with
    | some r => some r
    | none => tryVerb "stat".data

/-- `re.sub(r"(?:open|read|stat)\s+\S+\.json:\s*", "", ·)`: leftmost,
non-overlapping; the fuel is the input length (every match consumes at least
one character, so the fuel never runs out when started at the input length). -/
def subJsonFuel : Nat → List Char → List Char
  | 0, cs => cs
  | _, [] => []
  | fuel + 1, c :: cs =>
    match jsonMatchAt (c :: cs) with
    | some rem => subJsonFuel fuel rem
    | none => c :: subJsonFuel fuel cs

/-- `Agent._sanitize_error` (agent.py:687-706). -/
def sanitizeError (msg : String) : String :=
  if hasOpenNsf msg then
    match gwPathCapture msg with
    | some ds => "No data available for GW" ++ ds ++ ". The data may not have been fetched yet."
    | none => "The requested data file was not found. Try refreshing your data."
  else
    let cleaned := pyStrip ⟨subJsonFuel msg.data.length msg.data⟩
    if cleaned == "" then msg else cleaned

/-! Sanitizer reference checks, mirroring the behaviour of the Python
function on representative inputs. -/

example :
    sanitizeError "open data/raw/gw/27/live.json: no such file or directory" =
      "No data available for GW27. The data may not have been fetched yet." := by decide
example :
    sanitizeError "open x: no such file or directory" =
      "The requested data file was not found. Try refreshing your data." := by decide
example :
    sanitizeError "read data/raw/x.json: permission denied" = "permission denied" := by decide
example : sanitizeError "open a.json:b.json: extra" = "extra" := by decide
example :
    sanitizeError "open data/raw/foo.csv: permission denied" =
      "open data/raw/foo.csv: permission denied" := by decide
example :
    sanitizeError "plain failure with /etc/path inside" =
      "plain failure with /etc/path inside" := by decide

/-! ## Agent state, collaborators and `_call_tool` -/

/-- One entry of the per-turn `tool_events` log. -/
inductive ToolEvent where
  | toolCall (name : String) (args : Dict)
  | toolResult (name : String) (result : Value)
  | toolError (name : String) (error : String)

/-- Whole per-conversation mutable state of `Agent`. -/
structure AgentState where
  session : Session
  pending : Option Pending
  history : List (String × String)

/-- External collaborators (spec §6), parameters of the embedding: the MCP
tool backend, the LLM client, `try_parse_json` of llm.py (`none` models a
parse failure; `json.loads` yielding a non-dict value would raise at
`data.get` in the source and is outside the modelled scope), `json.dumps`,
the two renderers of reports.py, and the RAG index. No claim under proof
depends on their internals. -/
structure Collab where
  callToolFn : String → Dict → Except String Value
  toolList : String
  llmAvailable : Bool
  llmGenerate : String → String → String
  parseJson : String → Option Dict
  dumpsFn : Value → String
  renderLeagueSummary : Value → String
  renderStandings : Value → String
  ragPresent : Bool
  ragSearchFmt : String → String
  sysPrompt : String

/-- `m.get(k)` on a result dict. -/
def vget (m : Value) (k : String) : Option Value :=
  match m with
  | .vDict d => dget d k
  | _ => none

/-- `data.get(k, "")` rendered to a string (a stored non-string value is
passed through raw in Python; its repr is abstracted by `pyStr`). -/
def strOfOpt (o : Option Value) : String :=
  match o with
  | none => ""
  | some v => pyStr v

/-- `f"...{w}..."` formatting of a `.get` result (`str(None) = "None"`). -/
def strForFmt (o : Option Value) : String := pyStr (o.getD .null)

/-- `data.get(k, {})` as an argument dict. -/
def argsOf (o : Option Value) : Dict :=
  match o with
  | some (.vDict d) => d
  | _ => []

/-- `o == "s"` for a `.get` result. -/
def vOptEqStr (o : Option Value) (s : String) : Bool :=
  match o with
  | some (.vStr t) => t == s
  | _ => false

/-- Python falsiness of an optional int (`None` or `0`). -/
def optIntFalsy (o : Option Int) : Bool :=
  match o with
  | some n => n == 0
  | none => true

/-- Python `a or b` on optional ints. -/
def pyOrOptInt (a b : Option Int) : Option Int :=
  match a with
  | some n => if n ≠ 0 then some n else b
  | none => b

/-- `Agent._call_tool` (agent.py:708-726): note the tool use, log the call,
convert a raised error into an `{"error": ...}` dict with a sanitized
message, and sanitize an error field arriving inside a result dict. -/
def callTool (C : Collab) (name : String) (args : Dict) (st : AgentState)
    (ev : List ToolEvent) : Value × AgentState × List ToolEvent :=
  let st1 := { st with session := noteToolUse (.vStr name) args st.session }
  let ev1 := ev ++ [.toolCall name args]
  match C.callToolFn name args with
  | .error exc =>
    let errMsg := sanitizeError exc
    (.vDict [("error", .vStr errMsg)], st1, ev1 ++ [.toolError name errMsg])
  | .ok result =>
    let result2 :=
      match result with
      | .vDict d =>
        if dmem d "error" then
          Value.vDict (dset d "error" (.vStr (sanitizeError (pyStr ((dget d "error").getD .null)))))
        else result
      | _ => result
    (result2, st1, ev1 ++ [.toolResult name result2])

/-- `Agent._set_pending` (agent.py:759-763). -/
def setPending (intent : String) (leagueId : Int) (cands : List String) (text : String)
    (st : AgentState) : AgentState :=
  { st with pending := some ⟨intent, leagueId, cands, text⟩ }

/-! ## Handler calls

The nineteen `_handle_*` methods are separate code paths the routing
dispatches into; except for `_handle_wins_list` (modelled concretely below
for C5) they are parameters of the embedding, tagged by their exact call
sites in `_try_route` and `_maybe_resolve_pending`. -/

/-- A handler invocation as the source spells it. -/
inductive HandlerCall where
  | waiver (text : String) (entryIdOverride : Option Int) (teamNameOverride : Option String)
  | schedule (text : String) (entryIdOverride : Option Int) (teamNameOverride : Option String)
  | streak (text : String) (entryIdOverride : Option Int) (teamNameOverride : Option String)
  | winsList (text : String) (entryIdOverride : Option Int) (teamNameOverride : Option String)
  | currentRoster (text : String) (entryIdOverride : Option Int) (teamNameOverride : Option String)
  | managerSeason (text : String) (entryIdOverride : Option Int) (teamNameOverride : Option String)
  | draftPicks (text : String)
  | playerGwStats (text : String)
  | transactionAnalysis (text : String)
  | headToHead (text : String)
  | leagueSummary (text : String)
  | transactions (text : String)
  | lineupEff (text : String)
  | matchupSummary (text : String)
  | fixtures (text : String)
  | playerForm (text : String)
  | simpleTool (text tool title : String)

/-- Handler family: produces the optional reply and the updated state and
event log, exactly the effect a `_handle_*` call has. -/
abbrev Handlers :=
  HandlerCall → AgentState → List ToolEvent → Option String × AgentState × List ToolEvent

/-- `Agent._maybe_resolve_pending` (agent.py:728-757). -/
def maybeResolvePending (C : Collab) (H : Handlers) (st : AgentState) (text : String)
    (ev : List ToolEvent) : Option String × AgentState × List ToolEvent :=
  match st.pending with
  | none => (none, st, ev)
  | some p =>
    if p.intent == "" || p.candidates.isEmpty || p.league_id == 0 then (none, st, ev)
    else
      match matchCandidate text p.candidates with
      | none =>
        (some ("Which team do you mean? Options: " ++ formatCandidates p.candidates), st, ev)
      | some candidate =>
        let r := callTool C "league_entries" [("league_id", .vInt p.league_id)] st ev
        match resolveTeamExactData r.1 candidate with
        | (none, _) =>
          (some ("I couldn" ++ sq ++ "t find " ++ sq ++ candidate ++ sq ++
            " in the league. Options: " ++ formatCandidates p.candidates), r.2.1, r.2.2)
        | (some eid, ename) =>
          let originalText := if p.text ≠ "" then p.text else text
          let st2 := { r.2.1 with pending := none }
          if p.intent == "waiver" then H (.waiver originalText (some eid) ename) st2 r.2.2
          else if p.intent == "schedule" then
            H (.schedule originalText (some eid) ename) st2 r.2.2
          else if p.intent == "streak" then H (.streak originalText (some eid) ename) st2 r.2.2
          else if p.intent == "wins" then H (.winsList originalText (some eid) ename) st2 r.2.2
          else if p.intent == "roster" then
            H (.currentRoster originalText (some eid) ename) st2 r.2.2
          else if p.intent == "season" then
            H (.managerSeason originalText (some eid) ename) st2 r.2.2
          else (none, st2, r.2.2)

/-- `self._extract_league_id(text) or self._default_league_id()`, the league
resolution step shared by every handler. -/
def handlerLeagueId (cfg : Settings) (s : Session) (text : String) : Int :=
  match extractLeagueId text with
  | some n => if n ≠ 0 then (n : Int) else defaultLeagueId cfg s
  | none => defaultLeagueId cfg s

/-- `entry_label = result.get("entry_name") or team_name or "That team"`. -/
def entryLabelOf (rd : Dict) (teamName : Option String) : String :=
  let fallback :=
    match teamName with
    | some s => if s ≠ "" then s else "That team"
    | none => "That team"
  match dget rd "entry_name" with
  | some v => if pyTruthy v then pyStr v else fallback
  | none => fallback

/-- The post-resolution tail of `_handle_wins_list` (agent.py:1506-1522). -/
def winsListFinish (C : Collab) (leagueId : Int) (entryId : Option Int)
    (teamName : Option String) (st : AgentState) (ev : List ToolEvent) :
    String × AgentState × List ToolEvent :=
  if optIntFalsy entryId then ("Which team do you want win weeks for?", st, ev)
  else
    let args : Dict :=
      [("league_id", .vInt leagueId), ("entry_id", .vInt (entryId.getD 0)),
       ("gw", .vInt 1), ("horizon", .vInt 38)]
    let r := callTool C "manager_schedule" args st ev
    match r.1 with
    | .vDict rd =>
      let wins :=
        (match dget rd "matches" with
          | some (.vList ms) => ms
          | _ => []).filterMap fun m =>
          if optTruthy (vget m "finished") && vOptEqStr (vget m "result") "W" then
            some (vget m "gameweek")
          else none
      let entryLabel := entryLabelOf rd teamName
      if wins.isEmpty then (entryLabel ++ " has no completed wins yet.", r.2.1, r.2.2)
      else
        (entryLabel ++ " won in: " ++
          String.intercalate ", " (wins.map fun w => "GW" ++ strForFmt w) ++ ".", r.2.1, r.2.2)
    | _ => ("Schedule data is unavailable right now.", r.2.1, r.2.2)

/-- `Agent._handle_wins_list` (agent.py:1491-1522), modelled concretely. -/
def handleWinsList (C : Collab) (cfg : Settings) (text : String) (st : AgentState)
    (ev : List ToolEvent) (entryIdOverride : Option Int) (teamNameOverride : Option String) :
    String × AgentState × List ToolEvent :=
  let leagueId := handlerLeagueId cfg st.session text
  let entryId0 :=
    pyOrOptInt entryIdOverride
      (pyOrOptInt ((extractEntryId text).map fun n => (n : Int)) (defaultEntryId st.session))
  let teamName0 :=
    match teamNameOverride with
    | some s => if s ≠ "" then some s else defaultEntryName st.session
    | none => defaultEntryName st.session
  if optIntFalsy entryId0 then
    let r := callTool C "league_entries" [("league_id", .vInt leagueId)] st ev
    match resolveTeamData r.1 text with
    | (_, _, some names) =>
      let st2 := setPending "wins" leagueId names text r.2.1
      ("I found multiple matching teams: " ++ formatCandidates names ++
        " Which one do you mean?", st2, r.2.2)
    | (rid, rname, none) => winsListFinish C leagueId rid rname r.2.1 r.2.2
  else winsListFinish C leagueId entryId0 teamName0 st ev

/-! ## Argument Defaulting Engine (`_apply_defaults`, agent.py:302-442) -/

/-- `str(x or "").strip()` for an optional name fragment. -/
def strOrEmpty (o : Option Value) : String :=
  match o with
  | none => ""
  | some v => if pyTruthy v then pyStr v else ""

/-- `" ".join([p for p in [str(first or "").strip(), str(last or "").strip()] if p])`. -/
def joinNameParts (first last : Option Value) : String :=
  String.intercalate " "
    ([pyStrip (strOrEmpty first), pyStrip (strOrEmpty last)].filter fun p => !(p == ""))

/-- The league-id resolution step of `_apply_defaults` (agent.py:341-346):
`int(out["league_id"])` when present, truthy and convertible, else `0`,
falling back to `self._default_league_id()` on `0`. -/
def resolveLeagueFrom (cfg : Settings) (s : Session) (o : Option Value) : Int :=
  let l0 : Int :=
    match o with
    | none => 0
    | some v => if pyTruthy v then (toIntOpt v).getD 0 else 0
  if l0 == 0 then defaultLeagueId cfg s else l0

/-- Block 1 of `_apply_defaults` (agent.py:323-340): flatten `first`/`last`
name fields for `manager_schedule` and `league_entries`. -/
def adFlatten (name : String) (args : Dict) : Dict :=
  if name == "manager_schedule" || name == "league_entries" then
    let out := args
    let first := dget out "first"
    let last := dget out "last"
    let out :=
      if optTruthy first || optTruthy last then
        let entryName := joinNameParts first last
        let out :=
          if entryName ≠ "" && !optTruthy (dget out "entry_name") then
            dset out "entry_name" (.vStr entryName)
          else out
        dpop (dpop out "first") "last"
      else out
    match dget out "entry_name" with
    | some (.vDict nd) =>
      let entryName := joinNameParts (dget nd "first") (dget nd "last")
      if entryName ≠ "" then dset out "entry_name" (.vStr entryName)
      else dpop out "entry_name"
    | _ => out
  else args

/-- Block 2 of `_apply_defaults` (agent.py:347-352): per-manager tools inject
session entry defaults. -/
def adEntryDefaults (s : Session) (name : String) (args : Dict) : Dict :=
  if ["waiver_recommendations", "manager_schedule", "manager_streak",
      "current_roster", "manager_season", "head_to_head"].contains name then
    let out :=
      if !optTruthy (dget args "entry_id") then
        match defaultEntryId s with
        | some n => dset args "entry_id" (.vInt n)
        | none => args
      else args
    if !optTruthy (dget out "entry_name") then
      match defaultEntryName s with
      | some nm => dset out "entry_name" (.vStr nm)
      | none => out
    else out
  else args

/-- Block 3 of `_apply_defaults` (agent.py:353-366): league-scoped tools take
league_id and gw defaults. -/
def adLeagueScoped (s : Session) (leagueId : Int) (name : String) (args : Dict) : Dict :=
  if ["league_summary", "matchup_breakdown", "standings", "transactions",
      "lineup_efficiency", "strength_of_schedule", "ownership_scarcity",
      "transaction_analysis"].contains name then
    let out := dsetdefault args "league_id" (.vInt leagueId)
    let out :=
      if !dmem out "gw" then
        match defaultGw s with
        | some g => dset out "gw" (.vInt g)
        | none => out
      else out
    dsetdefault out "gw" (.vInt 0)
  else args

/-- Block 4 of `_apply_defaults` (agent.py:367-370): id-scoped tools take the
league_id default. -/
def adIdScoped (leagueId : Int) (name : String) (args : Dict) : Dict :=
  if ["league_entries", "manager_schedule", "manager_streak", "current_roster",
      "draft_picks", "manager_season", "head_to_head",
      "transaction_analysis"].contains name then
    dsetdefault args "league_id" (.vInt leagueId)
  else args

/-- Block 5 of `_apply_defaults` (agent.py:371-378): the fixtures tool. -/
def adFixtures (leagueId : Int) (name : String) (args : Dict) : Dict :=
  if name == "fixtures" then
    let out := dsetdefault args "league_id" (.vInt leagueId)
    let out :=
      if dmem out "gw" && !dmem out "as_of_gw" then
        dset (dpop out "gw") "as_of_gw" ((dget out "gw").getD .null)
      else out
    let out := dsetdefault out "as_of_gw" (.vInt 0)
    let out := dsetdefault out "horizon" (.vInt 1)
    dkeep out ["league_id", "as_of_gw", "horizon"]
  else args

/-- Block 6 of `_apply_defaults` (agent.py:379-392): fixture_difficulty. -/
def adFixtureDifficulty (leagueId : Int) (name : String) (args : Dict) : Dict :=
  if name == "fixture_difficulty" then
    let out := dsetdefault args "league_id" (.vInt leagueId)
    let out :=
      if dmem out "gw" && !dmem out "as_of_gw" then
        dset (dpop out "gw") "as_of_gw" ((dget out "gw").getD .null)
      else out
    let out :=
      if !dmem out "next_gw" && dmem out "target_gw" then
        dset (dpop out "target_gw") "next_gw" ((dget out "target_gw").getD .null)
      else out
    let out :=
      match dget out "include_raw" with
      | some (.vStr sr) =>
        let low := pyLower (pyStrip sr)
        if low == "true" || low == "1" || low == "yes" then
          dset out "include_raw" (.vBool true)
        else if low == "false" || low == "0" || low == "no" then
          dset out "include_raw" (.vBool false)
        else out
      | _ => out
    dkeep out ["league_id", "as_of_gw", "next_gw", "horizon", "limit", "include_raw"]
  else args

/-- Block 7 of `_apply_defaults` (agent.py:393-397): manager_schedule. -/
def adManagerSchedule (leagueId : Int) (name : String) (args : Dict) : Dict :=
  if name == "manager_schedule" then
    let out := dsetdefault args "league_id" (.vInt leagueId)
    let out := dsetdefault out "horizon" (.vInt 1)
    dkeep out ["league_id", "entry_id", "entry_name", "gw", "horizon"]
  else args

/-- Block 8 of `_apply_defaults` (agent.py:398-401): manager_streak. -/
def adManagerStreak (leagueId : Int) (name : String) (args : Dict) : Dict :=
  if name == "manager_streak" then
    let out := dsetdefault args "league_id" (.vInt leagueId)
    dkeep out ["league_id", "entry_id", "entry_name", "start_gw", "end_gw"]
  else args

/-- Block 9 of `_apply_defaults` (agent.py:402-405): league_entries. -/
def adLeagueEntries (leagueId : Int) (name : String) (args : Dict) : Dict :=
  if name == "league_entries" then
    let out := dsetdefault args "league_id" (.vInt leagueId)
    dkeep out ["league_id"]
  else args

/-- Block 10 of `_apply_defaults` (agent.py:406-413): player_form. -/
def adPlayerForm (leagueId : Int) (name : String) (args : Dict) : Dict :=
  if name == "player_form" then
    let out := dsetdefault args "league_id" (.vInt leagueId)
    let out :=
      if dmem out "gw" && !dmem out "as_of_gw" then
        dset (dpop out "gw") "as_of_gw" ((dget out "gw").getD .null)
      else out
    let out := dsetdefault out "horizon" (.vInt 5)
    let out := dsetdefault out "as_of_gw" (.vInt 0)
    dkeep out ["league_id", "as_of_gw", "horizon"]
  else args

/-- Block 11 of `_apply_defaults` (agent.py:414-419): current_roster. -/
def adCurrentRoster (s : Session) (leagueId : Int) (name : String) (args : Dict) : Dict :=
  if name == "current_roster" then
    let out := dsetdefault args "league_id" (.vInt leagueId)
    let out :=
      if !dmem out "gw" then
        match defaultGw s with
        | some g => dset out "gw" (.vInt g)
        | none => out
      else out
    dkeep out ["league_id", "entry_id", "entry_name", "gw"]
  else args

/-- Block 12 of `_apply_defaults` (agent.py:420-423): draft_picks. -/
def adDraftPicks (leagueId : Int) (name : String) (args : Dict) : Dict :=
  if name == "draft_picks" then
    let out := dsetdefault args "league_id" (.vInt leagueId)
    dkeep out ["league_id", "entry_id", "entry_name"]
  else args

/-- Block 13 of `_apply_defaults` (agent.py:424-427): manager_season. -/
def adManagerSeason (leagueId : Int) (name : String) (args : Dict) : Dict :=
  if name == "manager_season" then
    let out := dsetdefault args "league_id" (.vInt leagueId)
    dkeep out ["league_id", "entry_id", "entry_name"]
  else args

/-- Block 14 of `_apply_defaults` (agent.py:428-432): transaction_analysis. -/
def adTransactionAnalysis (leagueId : Int) (name : String) (args : Dict) : Dict :=
  if name == "transaction_analysis" then
    let out := dsetdefault args "league_id" (.vInt leagueId)
    let out := dsetdefault out "gw" (.vInt 0)
    dkeep out ["league_id", "gw"]
  else args

/-- Block 15 of `_apply_defaults` (agent.py:433-437): player_gw_stats. -/
def adPlayerGwStats (name : String) (args : Dict) : Dict :=
  if name == "player_gw_stats" then
    let out :=
      if dmem args "gw" && !dmem args "start_gw" then
        dset (dpop args "gw") "start_gw" ((dget args "gw").getD .null)
      else args
    dkeep out ["element_id", "player_name", "start_gw", "end_gw"]
  else args

/-- Block 16 of `_apply_defaults` (agent.py:438-441): head_to_head. -/
def adHeadToHead (leagueId : Int) (name : String) (args : Dict) : Dict :=
  if name == "head_to_head" then
    let out := dsetdefault args "league_id" (.vInt leagueId)
    dkeep out ["league_id", "entry_id_a", "entry_name_a", "entry_id_b", "entry_name_b"]
  else args

/-- `Agent._apply_defaults` (agent.py:302-442): the sixteen blocks in source
order, with the league-id resolution of lines 341-346 read from the flattened
arguments. -/
def applyDefaults (cfg : Settings) (s : Session) (name : String) (args : Dict) : Dict :=
  let out := adFlatten name args
  let leagueId : Int := resolveLeagueFrom cfg s (dget out "league_id")
  adHeadToHead leagueId name
    (adPlayerGwStats name
      (adTransactionAnalysis leagueId name
        (adManagerSeason leagueId name
          (adDraftPicks leagueId name
            (adCurrentRoster s leagueId name
              (adPlayerForm leagueId name
                (adLeagueEntries leagueId name
                  (adManagerStreak leagueId name
                    (adManagerSchedule leagueId name
                      (adFixtureDifficulty leagueId name
                        (adFixtures leagueId name
                          (adIdScoped leagueId name
                            (adLeagueScoped s leagueId name
                              (adEntryDefaults s name out))))))))))))))

/-! ## Fast-path routing (`_try_route`, agent.py:616-685) and `run` -/

/-- The fixed greeting reply (agent.py:626-631). -/
def greetingReply : String :=
  "Hey! I" ++ sq ++ "m your FPL Draft assistant. " ++
    "Ask me about league standings, waiver picks, matchups, " ++
    "player stats, schedules, and more."

/-- Handler invocation for a matched intent, exactly as the `if` chain of
`_try_route` (agent.py:634-673) spells each call. -/
def dispatchCall (intent text : String) : HandlerCall :=
  match intent with
  | "draft_picks" => .draftPicks text
  | "player_gw_stats" => .playerGwStats text
  | "transaction_analysis" => .transactionAnalysis text
  | "head_to_head" => .headToHead text
  | "manager_season" => .managerSeason text none none
  | "current_roster" => .currentRoster text none none
  | "waiver" => .waiver text none none
  | "streak" => .streak text none none
  | "win_list" => .winsList text none none
  | "schedule" => .schedule text none none
  | "fixtures" => .fixtures text
  | "player_form" => .playerForm text
  | "standings" => .simpleTool text "standings" "Standings"
  | "league_summary" => .leagueSummary text
  | "transactions" => .transactions text
  | "lineup" => .lineupEff text
  | "strength" => .simpleTool text "strength_of_schedule" "Strength of schedule"
  | "ownership" => .simpleTool text "ownership_scarcity" "Ownership scarcity"
  | _ => .matchupSummary text

/-- `Agent._looks_like_team_name_only` (agent.py:877-901); the probe performs
a `league_entries` call through `_resolve_team_exact`. -/
def looksLikeTeamNameOnly (C : Collab) (st : AgentState) (text : String) (leagueId : Int)
    (ev : List ToolEvent) : Bool × AgentState × List ToolEvent :=
  if 6 < (pySplit text).length then (false, st, ev)
  else if ["waiver", "schedule", "fixture", "streak", "standings", "transactions",
      "lineup", "ownership", "trade", "wins", "roster", "squad", "draft", "season",
      "h2h"].any (fun k => strIn k (pyLower text)) then (false, st, ev)
  else
    let r := callTool C "league_entries" [("league_id", .vInt leagueId)] st ev
    ((resolveTeamExactData r.1 text).1.isSome, r.2.1, r.2.2)

/-- `Agent._try_route` (agent.py:616-685). -/
def tryRoute (C : Collab) (H : Handlers) (cfg : Settings) (st : AgentState)
    (userMsg : String) (ev : List ToolEvent) :
    Option String × AgentState × List ToolEvent :=
  let text := pyStrip userMsg
  if text == "" then (none, st, ev)
  else
    match maybeResolvePending C H st text ev with
    | (some reply, st1, ev1) => (some reply, st1, ev1)
    | (none, st1, ev1) =>
      let lower := pyLower text
      if isGreeting lower then (some greetingReply, st1, ev1)
      else
        match classifyIntent lower with
        | some intent => H (dispatchCall intent text) st1 ev1
        | none =>
          if strIn "league entries" lower || strIn "all teams" lower then
            H (.simpleTool text "league_entries" "League teams") st1 ev1
          else
            let leagueId := handlerLeagueId cfg st1.session text
            let r := looksLikeTeamNameOnly C st1 text leagueId ev1
            if r.1 then
              (some ("What would you like to know about " ++ text ++ "? " ++
                "Examples: waivers, schedule, roster, season stats, win streaks, " ++
                "fixtures, head-to-head."), r.2.1, r.2.2)
            else (none, r.2.1, r.2.2)

/-- `Agent._render_session_context` (agent.py:558-572). -/
def renderSessionContext (s : Session) : String :=
  let parts : List String :=
    (match s.league_id with
      | some n => if n ≠ 0 then ["league_id=" ++ toString n] else []
      | none => []) ++
    (match s.entry_id with
      | some n => if n ≠ 0 then ["entry_id=" ++ toString n] else []
      | none => []) ++
    (match s.entry_name with
      | some nm => if nm ≠ "" then ["entry_name=" ++ nm] else []
      | none => []) ++
    (match s.gw with
      | some n => ["gw=" ++ toString n]
      | none => []) ++
    (match s.last_tool with
      | some v => if pyTruthy v then ["last_tool=" ++ pyStr v] else []
      | none => [])
  if parts.isEmpty then "" else "Session defaults: " ++ String.intercalate ", " parts

/-- `Agent._render_history` (agent.py:549-556). -/
def renderHistory (hist : List (String × String)) : String :=
  if hist.isEmpty then ""
  else
    String.intercalate "\n" ("Recent conversation:" ::
      hist.map fun item =>
        (if item.1 == "user" then "User" else "Assistant") ++ ": " ++ item.2)

/-- `Agent._should_use_rag` (agent.py:574-588). -/
def shouldUseRag (text : String) : Bool :=
  let lower := pyLower text
  ["why", "changed", "change", "since", "difference", "compare", "what changed",
   "last week", "previous", "earlier"].any fun t => strIn t lower

/-- `Agent._get_rag_memory` (agent.py:590-594). -/
def getRagMemory (C : Collab) (text : String) : String :=
  if !C.ragPresent || !shouldUseRag text then "" else C.ragSearchFmt text

/-- Result of one `Agent.run` turn: the reply, the tool-event log, the final
conversation state, and how many LLM generations were consumed. -/
structure RunOut where
  content : String
  events : List ToolEvent
  state : AgentState
  llmCalls : Nat

/-- The common epilogue of every terminal path of `run`: append the user
message (when non-empty) and the reply to the history. -/
def finishTurn (userMsg content : String) (st : AgentState) (ev : List ToolEvent)
    (calls : Nat) : RunOut :=
  let st1 :=
    if userMsg ≠ "" then { st with history := appendHistory st.history "user" userMsg }
    else st
  let st2 := { st1 with history := appendHistory st1.history "assistant" content }
  ⟨content, ev, st2, calls⟩

/-- Is the value a dict (`isinstance(result, dict)`)? -/
def isVDict : Value → Bool
  | .vDict _ => true
  | _ => false

/-- `s[:n]`. -/
def takeStr (n : Nat) (s : String) : String := ⟨s.data.take n⟩

/-- The `for _ in range(max_steps)` loop of `Agent.run` (agent.py:238-300),
fuelled by the remaining step budget; `calls` counts LLM generations. -/
def runLoop (C : Collab) (cfg : Settings) (userMsg : String) :
    Nat → List String → AgentState → List ToolEvent → Nat → RunOut
  | 0, _, st, ev, calls => finishTurn userMsg "Max steps reached." st ev calls
  | fuel + 1, messages, st, ev, calls =>
    let prompt := String.intercalate "\n\n" messages
    let raw := C.llmGenerate C.sysPrompt prompt
    let calls1 := calls + 1
    match C.parseJson raw with
    | none => finishTurn userMsg raw st ev calls1
    | some d0 =>
      if vOptEqStr (dget d0 "action") "final" then
        finishTurn userMsg (strOfOpt (dget d0 "content")) st ev calls1
      else
        -- legacy form: the action field is itself the tool name (255-257)
        let d :=
          if optTruthy (dget d0 "action") && !vOptEqStr (dget d0 "action") "tool" &&
              !vOptEqStr (dget d0 "action") "final" then
            [("action", Value.vStr "tool"), ("name", (dget d0 "action").getD .null),
             ("arguments", (dget d0 "arguments").getD (.vDict []))]
          else d0
        if vOptEqStr (dget d "action") "tool" then
          let name := strOfOpt (dget d "name")
          let args := applyDefaults cfg st.session name (argsOf (dget d "arguments"))
          let stN :=
            { st with
              session := noteToolUse ((dget d "name").getD (.vStr "")) args st.session }
          let ev1 := ev ++ [.toolCall name args]
          match C.callToolFn name args with
          | .error exc =>
            finishTurn userMsg ("Tool error: " ++ exc) stN (ev1 ++ [.toolError name exc]) calls1
          | .ok result =>
            let ev2 := ev1 ++ [.toolResult name result]
            if name == "league_summary" && isVDict result then
              finishTurn userMsg (C.renderLeagueSummary result) stN ev2 calls1
            else if name == "standings" && isVDict result then
              finishTurn userMsg (C.renderStandings result) stN ev2 calls1
            else
              runLoop C cfg userMsg fuel
                (messages ++ ["Tool " ++ name ++ " result:\n" ++ takeStr 6000 (C.dumpsFn result)])
                stN ev2 calls1
        else finishTurn userMsg raw st ev calls1

/-- `Agent.run` (agent.py:180-300): session updates, prompt assembly, the
fast path, the LLM-availability guard, then the tool-call loop. -/
def runModel (C : Collab) (H : Handlers) (cfg : Settings) (st0 : AgentState)
    (msg0 : String) (ctx : Dict) (maxSteps : Nat) : RunOut :=
  let userMsg := pyStrip msg0
  let st :=
    { st0 with
      session := updateSessionFromText userMsg (updateSessionFromContext ctx st0.session) }
  let promptParts : List String :=
    ["Available tools:\n" ++ C.toolList ++ "\n", renderSessionContext st.session] ++
    (let hb := renderHistory st.history
     if hb ≠ "" then [hb] else []) ++
    (let mb := getRagMemory C userMsg
     if mb ≠ "" then ["Memory (cached data):\n" ++ mb] else []) ++
    [userMsg]
  let messages := promptParts.filter fun p => !(p == "")
  match tryRoute C H cfg st userMsg [] with
  | (some reply, st1, ev1) => finishTurn userMsg reply st1 ev1 0
  | (none, st1, ev1) =>
    if !C.llmAvailable then
      finishTurn userMsg "OPENAI_API_KEY not set; unable to use LLM. Please set it and retry."
        st1 ev1 0
    else runLoop C cfg userMsg maxSteps messages st1 ev1 0

/-! ## Projection lemmas for `finishTurn` -/

@[simp] theorem finishTurn_content (u c : String) (st : AgentState) (ev : List ToolEvent)
    (k : Nat) : (finishTurn u c st ev k).content = c := rfl

@[simp] theorem finishTurn_events (u c : String) (st : AgentState) (ev : List ToolEvent)
    (k : Nat) : (finishTurn u c st ev k).events = ev := rfl

@[simp] theorem finishTurn_llmCalls (u c : String) (st : AgentState) (ev : List ToolEvent)
    (k : Nat) : (finishTurn u c st ev k).llmCalls = k := rfl

@[simp] theorem finishTurn_session (u c : String) (st : AgentState) (ev : List ToolEvent)
    (k : Nat) : (finishTurn u c st ev k).state.session = st.session := by
  unfold finishTurn
  by_cases h : u ≠ "" <;> simp [h]

@[simp] theorem finishTurn_pending (u c : String) (st : AgentState) (ev : List ToolEvent)
    (k : Nat) : (finishTurn u c st ev k).state.pending = st.pending := by
  unfold finishTurn
  by_cases h : u ≠ "" <;> simp [h]

/-- Stripping is idempotent (the source strips in `run` and again in
`_try_route`). -/
theorem stripData_idem (l : List Char) :
    ((((((l.dropWhile pyIsSpace).reverse.dropWhile pyIsSpace).reverse).dropWhile
        pyIsSpace).reverse.dropWhile pyIsSpace).reverse) =
      ((l.dropWhile pyIsSpace).reverse.dropWhile pyIsSpace).reverse := by
  have hf : ∀ m : List Char,
      ((m.dropWhile pyIsSpace).reverse.dropWhile pyIsSpace).reverse =
        List.rdropWhile pyIsSpace (m.dropWhile pyIsSpace) := by
    intro m
    simp [List.rdropWhile]
  rw [hf, hf]
  have h1 : List.dropWhile pyIsSpace
      (List.rdropWhile pyIsSpace (List.dropWhile pyIsSpace l)) =
      List.rdropWhile pyIsSpace (List.dropWhile pyIsSpace l) := by
    rw [List.dropWhile_eq_self_iff]
    intro hl
    obtain ⟨t, ht⟩ := List.rdropWhile_prefix pyIsSpace (List.dropWhile pyIsSpace l)
    have hlen : 0 < (List.dropWhile pyIsSpace l).length := by
      rw [← ht]
      simp only [List.length_append]
      omega
    have hg2 : (List.rdropWhile pyIsSpace (List.dropWhile pyIsSpace l)).get? 0 =
        (List.dropWhile pyIsSpace l).get? 0 := by
      conv_rhs => rw [← ht]
      exact (List.get?_append hl).symm
    rw [List.get?_eq_get hl, List.get?_eq_get hlen] at hg2
    rw [Option.some.inj hg2]
    exact List.dropWhile_get_zero_not pyIsSpace l hlen
  rw [h1]
  exact List.rdropWhile_idempotent pyIsSpace _

theorem pyStrip_idem (s : String) : pyStrip (pyStrip s) = pyStrip s := by
  unfold pyStrip
  exact congrArg String.mk (stripData_idem s.data)

/-! ## C4 theorems -/

/-- A trivial collaborator bundle for closed evaluations. -/
def stubCollab : Collab where
  callToolFn := fun _ _ => .ok (.vDict [])
  toolList := ""
  llmAvailable := false
  llmGenerate := fun _ _ => ""
  parseJson := fun _ => none
  dumpsFn := fun _ => ""
  renderLeagueSummary := fun _ => ""
  renderStandings := fun _ => ""
  ragPresent := false
  ragSearchFmt := fun _ => ""
  sysPrompt := ""

/-- Handlers that decline every dispatch (used only for closed evaluations on
paths that never reach a handler). -/
def stubHandlers : Handlers := fun _ st ev => (none, st, ev)

/-- The state a fresh conversation starts in. -/
def emptyState : AgentState := ⟨emptySession, none, []⟩

/-- A `league_entries` payload holding two teams whose full names both appear
in the ambiguous utterance used below, so they tie on the top score tier. -/
def winsTeamsData : Value :=
  .vDict [("teams", .vList [
    .vDict [("entry_id", .vInt 100), ("entry_name", .vStr "Alpha Squad"),
            ("short_name", .vStr "AS1")],
    .vDict [("entry_id", .vInt 200), ("entry_name", .vStr "Alpha Team"),
            ("short_name", .vStr "AT1")]])]

/-- A tool backend whose `league_entries` payload is `winsTeamsData`. -/
def winsCollab : Collab :=
  { stubCollab with callToolFn := fun _ _ => .ok winsTeamsData }

/-- The pending slot `_handle_wins_list` leaves behind on the ambiguous
utterance. -/
def winsPending : Pending :=
  ⟨"wins", 14204, ["Alpha Squad", "Alpha Team"], "wins for alpha squad or alpha team"⟩

/-- An agent state awaiting the disambiguation choice. -/
def winsState : AgentState := ⟨emptySession, some winsPending, []⟩

/-- An LLM reply whose well-formed tool envelope carries a JSON `null` name,
as in `{"action": "tool", "name": null}`. -/
def nullNameAction : Dict :=
  [("action", Value.vStr "tool"), ("name", Value.null),
   ("arguments", Value.vDict [])]

/-- A collaborator bundle whose LLM always answers with `nullNameAction` and
whose tool backend returns an empty dict. -/
def nullNameCollab : Collab :=
  { stubCollab with llmAvailable := true, parseJson := fun _ => some nullNameAction }

/-- A state whose session already carries a `last_tool` value. -/
def tooledState : AgentState :=
  ⟨{ emptySession with last_tool := some (.vStr "standings") }, none, []⟩

/-- C10 counterexample: for the envelope `{"action": "tool", "name": null}`,
`run` passes `data.get("name", "")` — which is `None`, not the default — into
`_note_tool_use`, whose first line resets a previously set `last_tool` to
`None`; so session fields are not write-only-forward. -/
theorem c10_null_name_resets_last_tool :
    tooledState.session.last_tool.isSome = true ∧
    (runModel nullNameCollab stubHandlers ⟨0⟩ tooledState
      "zzz" [] 1).state.session.last_tool.isNone = true ∧
    (noteToolUse .null [] { emptySession with last_tool := some (.vStr "standings") }).last_tool =
      none := by
  refine ⟨rfl, by decide, rfl⟩


/-- A greeting never survives stripping to the empty string. -/
theorem isGreeting_ne_empty {m : String} (h : isGreeting (pyLower (pyStrip m)) = true) :
    (pyStrip m == "") = false := by
  by_cases hc : pyStrip m = ""
  · rw [hc] at h
    exact absurd h (by decide)
  · simpa using hc

/-- The greeting branch of `_try_route`: with no pending disambiguation, a
greeting returns the fixed reply and leaves state and events untouched. -/
theorem tryRoute_greeting (C : Collab) (H : Handlers) (cfg : Settings) (st : AgentState)
    (userMsg : String) (ev : List ToolEvent) (hpend : st.pending = none)
    (hgreet : isGreeting (pyLower (pyStrip userMsg)) = true) :
    tryRoute C H cfg st userMsg ev = (some greetingReply, st, ev) := by
  simp only [tryRoute, maybeResolvePending]
  rw [hpend]
  simp [isGreeting_ne_empty hgreet, hgreet]

/-- C4 counterexample: `"hey league 14204"` is recognised as a greeting (three
words, greeting prefix) and the turn returns the fixed reply with no tool
call — but the pre-routing text extraction has already written `league_id =
14204` into the session, so the session is *not* left unmutated. -/
theorem c4_greeting_counterexample :
    (runModel stubCollab stubHandlers ⟨0⟩ emptyState "hey league 14204" [] 6).content =
        greetingReply ∧
      (runModel stubCollab stubHandlers ⟨0⟩ emptyState "hey league 14204" [] 6).events = [] ∧
      (runModel stubCollab stubHandlers ⟨0⟩ emptyState
          "hey league 14204" [] 6).state.session.league_id = some 14204 ∧
      emptyState.session.league_id = none := by
  exact ⟨by decide, rfl, by decide, rfl⟩

/-- C4 (amended): for every utterance the greeting detector recognises, when
no disambiguation is pending the turn returns the fixed friendly reply with
no tool invocation and no LLM call, and the pending slot stays empty; the
session, however, is still updated by the pre-routing context/text extraction
step — and only by it — so a greeting carrying an extractable parameter can
mutate the session (see the counterexample). -/
theorem c4_greeting_short_circuit (C : Collab) (H : Handlers) (cfg : Settings)
    (st0 : AgentState) (msg0 : String) (ctx : Dict) (maxSteps : Nat)
    (hpend : st0.pending = none)
    (hgreet : isGreeting (pyLower (pyStrip msg0)) = true) :
    (runModel C H cfg st0 msg0 ctx maxSteps).content = greetingReply ∧
    (runModel C H cfg st0 msg0 ctx maxSteps).events = [] ∧
    (runModel C H cfg st0 msg0 ctx maxSteps).llmCalls = 0 ∧
    (runModel C H cfg st0 msg0 ctx maxSteps).state.session =
      updateSessionFromText (pyStrip msg0) (updateSessionFromContext ctx st0.session) ∧
    (runModel C H cfg st0 msg0 ctx maxSteps).state.pending = none := by
  have hgreet2 : isGreeting (pyLower (pyStrip (pyStrip msg0))) = true := by
    rw [pyStrip_idem]
    exact hgreet
  have htr := tryRoute_greeting C H cfg
    { st0 with
      session := updateSessionFromText (pyStrip msg0) (updateSessionFromContext ctx st0.session) }
    (pyStrip msg0) [] hpend hgreet2
  simp only [runModel]
  rw [htr]
  simp [hpend]

/-- C4 witness: a plain `"hello"` turn from the fresh state. -/
theorem c4_greeting_short_circuit_witness :
    (runModel stubCollab stubHandlers ⟨0⟩ emptyState "hello" [] 6).content = greetingReply ∧
    (runModel stubCollab stubHandlers ⟨0⟩ emptyState "hello" [] 6).events = [] := by
  have h := c4_greeting_short_circuit stubCollab stubHandlers ⟨0⟩ emptyState "hello" [] 6
    rfl (by decide)
  exact ⟨h.1, h.2.1⟩

/-! ## C8 theorems -/

/-- Each loop pass consumes exactly one LLM generation, so the count is
bounded by the remaining fuel. -/
theorem runLoop_calls_le (C : Collab) (cfg : Settings) (u : String) :
    ∀ (fuel : Nat) (msgs : List String) (st : AgentState) (ev : List ToolEvent) (calls : Nat),
      (runLoop C cfg u fuel msgs st ev calls).llmCalls ≤ calls + fuel := by
  intro fuel
  induction fuel with
  | zero =>
    intro msgs st ev calls
    simp [runLoop]
  | succ fuel ih =>
    intro msgs st ev calls
    simp only [runLoop]
    repeat' split
    all_goals try simp only [finishTurn_llmCalls]
    all_goals try omega
    all_goals exact le_trans (ih _ _ _ _) (by omega)



/-- A value equal to one string literal is not equal to a different one. -/
theorem vOptEqStr_ne {o : Option Value} {a b : String} (h : vOptEqStr o a = true)
    (hne : a ≠ b) : vOptEqStr o b = false := by
  unfold vOptEqStr at h ⊢
  rcases o with _ | v
  · simp at h
  · rcases v with _ | i | t | bb | xs | dd
    · simp at h
    · simp at h
    · have ht : t = a := by simpa using h
      subst ht
      simpa using hne
    · simp at h
    · simp at h
    · simp at h

/-- When every LLM generation parses to the same tool action, whose tool is
not one of the two short-circuiting renderers, and every tool call succeeds,
the loop burns its entire budget and ends in the fixed message. -/
theorem runLoop_exhausts (C : Collab) (cfg : Settings) (d : Dict) (n : String)
    (hparse : ∀ s, C.parseJson (C.llmGenerate C.sysPrompt s) = some d)
    (haction : vOptEqStr (dget d "action") "tool" = true)
    (hname : strOfOpt (dget d "name") = n)
    (hn1 : n ≠ "league_summary") (hn2 : n ≠ "standings")
    (htool : ∀ nm as, ∃ v, C.callToolFn nm as = .ok v) :
    ∀ (fuel : Nat) (u : String) (msgs : List String) (st : AgentState)
      (ev : List ToolEvent) (calls : Nat),
      (runLoop C cfg u fuel msgs st ev calls).content = "Max steps reached." ∧
      (runLoop C cfg u fuel msgs st ev calls).llmCalls = calls + fuel := by
  have hfinal : vOptEqStr (dget d "action") "final" = false :=
    vOptEqStr_ne haction (by decide)
  have hb1 : (n == "league_summary") = false := by simpa using hn1
  have hb2 : (n == "standings") = false := by simpa using hn2
  intro fuel
  induction fuel with
  | zero =>
    intro u msgs st ev calls
    exact ⟨rfl, by simp [runLoop]⟩
  | succ fuel ih =>
    intro u msgs st ev calls
    obtain ⟨v, hv⟩ :=
      htool n (applyDefaults cfg st.session n (argsOf (dget d "arguments")))
    simp only [runLoop, hparse, haction, hfinal, hname, hv, hb1, hb2,
      Bool.not_true, Bool.and_false, Bool.false_and, Bool.false_eq_true, if_false,
      if_true, isVDict, Bool.false_eq_true]
    constructor
    · exact (ih u _ _ _ (calls + 1)).1
    · rw [(ih u _ _ _ (calls + 1)).2]
      omega

/-- C8: a `run` turn never consumes more than `max_steps` LLM generations,
and when every step parses to the same non-short-circuiting tool action with
a succeeding tool — so no final answer ever arrives — the loop uses exactly
its budget and returns the fixed message `"Max steps reached."`. -/
theorem c8_llm_loop_bounded (C : Collab) (H : Handlers) (cfg : Settings) (st0 : AgentState)
    (msg0 : String) (ctx : Dict) (maxSteps : Nat) :
    (runModel C H cfg st0 msg0 ctx maxSteps).llmCalls ≤ maxSteps ∧
    (∀ (d : Dict) (n u : String) (msgs : List String) (st : AgentState)
        (ev : List ToolEvent),
      (∀ s, C.parseJson (C.llmGenerate C.sysPrompt s) = some d) →
      vOptEqStr (dget d "action") "tool" = true →
      strOfOpt (dget d "name") = n → n ≠ "league_summary" → n ≠ "standings" →
      (∀ nm as, ∃ v, C.callToolFn nm as = .ok v) →
      (runLoop C cfg u maxSteps msgs st ev 0).content = "Max steps reached." ∧
      (runLoop C cfg u maxSteps msgs st ev 0).llmCalls = maxSteps) := by
  constructor
  · simp only [runModel]
    split
    · simp
    · split
      · simp
      · exact le_trans (runLoop_calls_le C cfg (pyStrip msg0) maxSteps _ _ _ 0)
          (by omega)
  · intro d n u msgs st ev hp ha hn h1 h2 ht
    have h := runLoop_exhausts C cfg d n hp ha hn h1 h2 ht maxSteps u msgs st ev 0
    refine ⟨h.1, ?_⟩
    rw [h.2]
    omega

/-- The constant tool action used by the C8 witness. -/
def demoAction : Dict :=
  [("action", Value.vStr "tool"), ("name", Value.vStr "fixtures"),
   ("arguments", Value.vDict [])]

/-- A collaborator bundle whose LLM always answers with `demoAction`. -/
def loopCollab : Collab :=
  { stubCollab with llmAvailable := true, parseJson := fun _ => some demoAction }

/-- C8 witness: with a four-step budget and an LLM that always asks for the
`fixtures` tool, the turn ends with the fixed message after four steps. -/
theorem c8_llm_loop_bounded_witness :
    (runLoop loopCollab ⟨0⟩ "zz" 4 [] emptyState [] 0).content = "Max steps reached." ∧
    (runLoop loopCollab ⟨0⟩ "zz" 4 [] emptyState [] 0).llmCalls = 4 :=
  (c8_llm_loop_bounded loopCollab stubHandlers ⟨0⟩ emptyState "zz" [] 4).2 demoAction
    "fixtures" "zz" [] emptyState [] (fun _ => rfl) (by decide) (by decide)
    (by decide) (by decide) (fun _ _ => ⟨.vDict [], rfl⟩)

/-! ## C3 theorems -/

/-- A collaborator bundle whose every tool call raises with a path-bearing
message, and whose LLM always requests a tool. -/
def errCollab : Collab :=
  { stubCollab with
    llmAvailable := true,
    parseJson := fun _ => some demoAction,
    callToolFn := fun _ _ =>
      .error "open data/raw/gw/9/live.json: no such file or directory" }

/-- C3 counterexample: on the LLM-loop path the raised message is surfaced
raw — `run` formats `f"Tool error: {exc}"` without `_sanitize_error` — so the
user-visible text retains the full filesystem path. -/
theorem c3_path_leak_counterexample :
    (runModel errCollab stubHandlers ⟨0⟩ emptyState "zzz" [] 6).content =
        "Tool error: open data/raw/gw/9/live.json: no such file or directory" ∧
      strIn "data/raw/gw/9/live.json"
        (runModel errCollab stubHandlers ⟨0⟩ emptyState "zzz" [] 6).content = true := by
  constructor
  · decide
  · decide

/-- C3 (amended): fast-path tool failures are surfaced through
`_sanitize_error` — the gameweek-scoped missing-file pattern becomes a
data-freshness message naming the gameweek, the `(open|read|stat) …  .json:`
prefix is stripped, and unrecognised messages (which may contain paths) pass
through unchanged; on the LLM-loop path the raw exception text is surfaced
with a `Tool error: ` prefix and no sanitization at all. -/
theorem c3_error_sanitization (C : Collab) (cfg : Settings) (name : String) (args : Dict)
    (st : AgentState) (ev : List ToolEvent) (exc : String)
    (herr : C.callToolFn name args = .error exc) :
    (callTool C name args st ev =
      (.vDict [("error", .vStr (sanitizeError exc))],
        { st with session := noteToolUse (.vStr name) args st.session },
        ev ++ [.toolCall name args, .toolError name (sanitizeError exc)])) ∧
    (∀ (d : Dict) (u : String) (msgs : List String) (st2 : AgentState)
        (ev2 : List ToolEvent) (calls fuel : Nat),
      (∀ s, C.parseJson (C.llmGenerate C.sysPrompt s) = some d) →
      vOptEqStr (dget d "action") "tool" = true →
      (∀ nm as, C.callToolFn nm as = .error exc) →
      (runLoop C cfg u (fuel + 1) msgs st2 ev2 calls).content = "Tool error: " ++ exc) ∧
    sanitizeError "open data/raw/gw/27/live.json: no such file or directory" =
      "No data available for GW27. The data may not have been fetched yet." ∧
    sanitizeError "read data/raw/x.json: permission denied" = "permission denied" ∧
    sanitizeError "open data/raw/foo.csv: permission denied" =
      "open data/raw/foo.csv: permission denied" := by
  refine ⟨?_, ?_, by decide, by decide, by decide⟩
  · unfold callTool
    rw [herr]
    simp
  · intro d u msgs st2 ev2 calls fuel hp ha ht
    have hfinal : vOptEqStr (dget d "action") "final" = false :=
      vOptEqStr_ne ha (by decide)
    simp only [runLoop, hp, ha, hfinal, Bool.not_true, Bool.and_false, Bool.false_and,
      Bool.false_eq_true, if_false, if_true, ht]
    simp

/-- C3 witness: one loop pass against the erroring backend surfaces the raw
message behind the `Tool error: ` prefix. -/
theorem c3_error_sanitization_witness :
    (runLoop errCollab ⟨0⟩ "u" (0 + 1) [] emptyState [] 0).content =
      "Tool error: " ++ "open data/raw/gw/9/live.json: no such file or directory" := by
  have h := c3_error_sanitization errCollab ⟨0⟩ "standings" [] emptyState []
    "open data/raw/gw/9/live.json: no such file or directory" rfl
  exact h.2.1 demoAction "u" [] emptyState [] 0 0 (fun _ => rfl) (by decide) (fun _ _ => rfl)

/-! ## C5 theorems -/

/-- A reply of `"1"` always selects the first candidate of a non-empty
candidate list, regardless of content. -/
theorem matchCandidate_one (a : String) (bs : List String) :
    matchCandidate "1" (a :: bs) = some a := by
  simp only [matchCandidate]
  have h1 : digitsToNat (pyStrip (normalizeText "1")).data = 1 := by decide
  rw [if_pos (by decide), if_pos (by rw [h1]; simp)]
  have h0 : digitsToNat (pyStrip (normalizeText "1")).data - 1 = 0 := by decide
  rw [h0]
  rfl


/-- C5: the disambiguation round-trip. (a) `_match_candidate` tries, in
priority order, a 1-based numeral index (returned regardless of candidate
content), then the first exact normalized match, then the first padded
substring match. (b) In the `AWAITING_CHOICE` state for the `wins` intent, a
follow-up `"1"` selects the first listed candidate, resolves it through a
fresh `league_entries` call, clears the pending slot, and re-invokes the
wins-list handler with the resolved team substituted as the override.
(c) When `_handle_wins_list` falls into fuzzy resolution and it comes back
ambiguous, the pending slot is set to the `wins` intent with exactly the
candidate names, the league and the original utterance, and the choice
prompt listing the candidates is returned. -/
theorem c5_disambiguation_round_trip :
    (∀ (text : String) (cands : List String),
      pyStrip (normalizeText text) ≠ "" →
      (pyStrip (normalizeText text)).data.all isDigitChar = true →
      1 ≤ digitsToNat (pyStrip (normalizeText text)).data →
      digitsToNat (pyStrip (normalizeText text)).data ≤ cands.length →
      matchCandidate text cands =
        some (cands.getD (digitsToNat (pyStrip (normalizeText text)).data - 1) "")) ∧
    (∀ (text : String) (cands : List String) (c : String),
      ¬(pyStrip (normalizeText text) ≠ "" ∧
        (pyStrip (normalizeText text)).data.all isDigitChar = true ∧
        1 ≤ digitsToNat (pyStrip (normalizeText text)).data ∧
        digitsToNat (pyStrip (normalizeText text)).data ≤ cands.length) →
      c ∈ cands → pyStrip (normalizeText c) = pyStrip (normalizeText text) →
      ∃ c2, matchCandidate text cands = some c2 ∧
        pyStrip (normalizeText c2) = pyStrip (normalizeText text)) ∧
    (∀ (text : String) (cands : List String) (c : String),
      ¬(pyStrip (normalizeText text) ≠ "" ∧
        (pyStrip (normalizeText text)).data.all isDigitChar = true ∧
        1 ≤ digitsToNat (pyStrip (normalizeText text)).data ∧
        digitsToNat (pyStrip (normalizeText text)).data ≤ cands.length) →
      (∀ c2 ∈ cands, pyStrip (normalizeText c2) ≠ pyStrip (normalizeText text)) →
      c ∈ cands →
      pyStrip (normalizeText c) ≠ "" →
      strIn (" " ++ pyStrip (normalizeText c) ++ " ")
        (" " ++ pyStrip (normalizeText text) ++ " ") = true →
      ∃ c2, matchCandidate text cands = some c2 ∧ pyStrip (normalizeText c2) ≠ "" ∧
        strIn (" " ++ pyStrip (normalizeText c2) ++ " ")
          (" " ++ pyStrip (normalizeText text) ++ " ") = true) ∧
    (∀ (C : Collab) (H : Handlers) (st : AgentState) (p : Pending) (a : String)
        (bs : List String) (ev : List ToolEvent) (eid : Int) (ename : Option String),
      st.pending = some p → p.intent = "wins" → p.candidates = a :: bs →
      p.league_id ≠ 0 → p.text ≠ "" →
      resolveTeamExactData
        (callTool C "league_entries" [("league_id", .vInt p.league_id)] st ev).1 a =
        (some eid, ename) →
      maybeResolvePending C H st "1" ev =
        H (.winsList p.text (some eid) ename)
          { (callTool C "league_entries" [("league_id", .vInt p.league_id)] st ev).2.1 with
            pending := none }
          (callTool C "league_entries" [("league_id", .vInt p.league_id)] st ev).2.2) ∧
    (∀ (C : Collab) (cfg : Settings) (text : String) (st : AgentState)
        (ev : List ToolEvent) (names : List String),
      extractEntryId text = none → defaultEntryId st.session = none →
      resolveTeamData
        (callTool C "league_entries"
          [("league_id", .vInt (handlerLeagueId cfg st.session text))] st ev).1 text =
        (none, none, some names) →
      handleWinsList C cfg text st ev none none =
        ("I found multiple matching teams: " ++ formatCandidates names ++
          " Which one do you mean?",
          setPending "wins" (handlerLeagueId cfg st.session text) names text
            (callTool C "league_entries"
              [("league_id", .vInt (handlerLeagueId cfg st.session text))] st ev).2.1,
          (callTool C "league_entries"
            [("league_id", .vInt (handlerLeagueId cfg st.session text))] st ev).2.2)) := by
  refine ⟨?_, ?_, ?_, ?_, ?_⟩
  · -- (a-i) numeral index wins outright
    intro text cands h1 h2 h3 h4
    simp only [matchCandidate]
    rw [if_pos (by simp [h1, h2]), if_pos (by simp [h3, h4])]
  · -- (a-ii) exact normalized match
    intro text cands c hnum hc hex
    simp only [matchCandidate]
    have hguard :
        (if (decide (pyStrip (normalizeText text) ≠ "") &&
            (pyStrip (normalizeText text)).data.all isDigitChar) = true then
          if (decide (1 ≤ digitsToNat (pyStrip (normalizeText text)).data) &&
              decide (digitsToNat (pyStrip (normalizeText text)).data ≤ cands.length)) = true
          then some (cands.getD (digitsToNat (pyStrip (normalizeText text)).data - 1) "")
          else none
        else (none : Option String)) = none := by
      by_cases hb1 : (decide (pyStrip (normalizeText text) ≠ "") &&
          (pyStrip (normalizeText text)).data.all isDigitChar) = true
      · rw [if_pos hb1]
        by_cases hb2 : (decide (1 ≤ digitsToNat (pyStrip (normalizeText text)).data) &&
            decide (digitsToNat (pyStrip (normalizeText text)).data ≤ cands.length)) = true
        · exfalso
          apply hnum
          simp only [Bool.and_eq_true, decide_eq_true_eq] at hb1 hb2
          exact ⟨hb1.1, hb1.2, hb2.1, hb2.2⟩
        · rw [if_neg hb2]
      · rw [if_neg hb1]
    rw [hguard]
    have hsome : (cands.find? fun cand =>
        pyStrip (normalizeText cand) == pyStrip (normalizeText text)).isSome := by
      rw [List.find?_isSome]
      exact ⟨c, hc, by simpa using hex⟩
    obtain ⟨c2, hc2⟩ := Option.isSome_iff_exists.mp hsome
    simp only [hc2]
    exact ⟨c2, rfl, by simpa using List.find?_some hc2⟩
  · -- (a-iii) padded substring fallback
    intro text cands c hnum hnoexact hc hcn hpad
    simp only [matchCandidate]
    have hguard :
        (if (decide (pyStrip (normalizeText text) ≠ "") &&
            (pyStrip (normalizeText text)).data.all isDigitChar) = true then
          if (decide (1 ≤ digitsToNat (pyStrip (normalizeText text)).data) &&
              decide (digitsToNat (pyStrip (normalizeText text)).data ≤ cands.length)) = true
          then some (cands.getD (digitsToNat (pyStrip (normalizeText text)).data - 1) "")
          else none
        else (none : Option String)) = none := by
      by_cases hb1 : (decide (pyStrip (normalizeText text) ≠ "") &&
          (pyStrip (normalizeText text)).data.all isDigitChar) = true
      · rw [if_pos hb1]
        by_cases hb2 : (decide (1 ≤ digitsToNat (pyStrip (normalizeText text)).data) &&
            decide (digitsToNat (pyStrip (normalizeText text)).data ≤ cands.length)) = true
        · exfalso
          apply hnum
          simp only [Bool.and_eq_true, decide_eq_true_eq] at hb1 hb2
          exact ⟨hb1.1, hb1.2, hb2.1, hb2.2⟩
        · rw [if_neg hb2]
      · rw [if_neg hb1]
    rw [hguard]
    have hnone : (cands.find? fun cand =>
        pyStrip (normalizeText cand) == pyStrip (normalizeText text)) = none := by
      rw [List.find?_eq_none]
      intro x hx
      simpa using hnoexact x hx
    have hsome : (cands.find? fun cand =>
        pyStrip (normalizeText cand) ≠ "" &&
          strIn (" " ++ pyStrip (normalizeText cand) ++ " ")
            (" " ++ pyStrip (normalizeText text) ++ " ")).isSome := by
      rw [List.find?_isSome]
      refine ⟨c, hc, ?_⟩
      simp [hcn, hpad]
    obtain ⟨c2, hc2⟩ := Option.isSome_iff_exists.mp hsome
    simp only [hnone, hc2]
    have hp2 := List.find?_some hc2
    simp only [Bool.and_eq_true, decide_eq_true_eq] at hp2
    exact ⟨c2, rfl, hp2.1, hp2.2⟩
  · -- (b) "1" re-dispatches the wins handler with the first candidate
    intro C H st p a bs ev eid ename hpend hint hcand hleague htext hres
    have hmatch : matchCandidate "1" p.candidates = some a := by
      rw [hcand]
      exact matchCandidate_one a bs
    simp only [maybeResolvePending, hpend]
    rw [if_neg (by simp [hint, hcand, hleague])]
    simp only [hmatch]
    simp only [hres]
    simp only [hint]
    rw [if_neg (by decide), if_neg (by decide), if_neg (by decide),
      if_pos (by decide), if_pos htext]
  · -- (c) ambiguity sets the pending slot
    intro C cfg text st ev names hext hdef hres
    simp only [handleWinsList, hext, hdef, Option.map_none, pyOrOptInt]
    rw [if_pos (by simp [optIntFalsy])]
    simp only [hres]

/-- C5 witness: at the concrete two-team league, the reply "1" picks the
first candidate, "alpha team" matches exactly, "the Alpha Team please"
matches as a padded substring, the pending wins intent re-dispatches the
wins handler with the first team resolved, and the ambiguous utterance sets
the pending slot with both names. -/
theorem c5_disambiguation_round_trip_witness :
    matchCandidate "1" ["Alpha Squad", "Alpha Team"] = some "Alpha Squad" ∧
    (∃ c2, matchCandidate "alpha team" ["Alpha Squad", "Alpha Team"] = some c2 ∧
      pyStrip (normalizeText c2) = pyStrip (normalizeText "alpha team")) ∧
    (∃ c2, matchCandidate "the Alpha Team please" ["Alpha Squad", "Alpha Team"] = some c2 ∧
      pyStrip (normalizeText c2) ≠ "" ∧
      strIn (" " ++ pyStrip (normalizeText c2) ++ " ")
        (" " ++ pyStrip (normalizeText "the Alpha Team please") ++ " ") = true) ∧
    maybeResolvePending winsCollab stubHandlers winsState "1" [] =
      stubHandlers
        (.winsList "wins for alpha squad or alpha team" (some 100) (some "Alpha Squad"))
        { (callTool winsCollab "league_entries" [("league_id", .vInt 14204)]
            winsState []).2.1 with pending := none }
        (callTool winsCollab "league_entries" [("league_id", .vInt 14204)]
          winsState []).2.2 ∧
    handleWinsList winsCollab ⟨14204⟩ "wins for alpha squad or alpha team"
        emptyState [] none none =
      ("I found multiple matching teams: " ++
        formatCandidates ["Alpha Squad", "Alpha Team"] ++ " Which one do you mean?",
        setPending "wins" 14204 ["Alpha Squad", "Alpha Team"]
          "wins for alpha squad or alpha team"
          (callTool winsCollab "league_entries" [("league_id", .vInt 14204)]
            emptyState []).2.1,
        (callTool winsCollab "league_entries" [("league_id", .vInt 14204)]
          emptyState []).2.2) := by
  refine ⟨?_, ?_, ?_, ?_, ?_⟩
  · exact c5_disambiguation_round_trip.1 "1" ["Alpha Squad", "Alpha Team"]
      (by decide) (by decide) (by decide) (by decide)
  · exact c5_disambiguation_round_trip.2.1 "alpha team" ["Alpha Squad", "Alpha Team"]
      "Alpha Team" (by decide) (by decide) (by decide)
  · exact c5_disambiguation_round_trip.2.2.1 "the Alpha Team please"
      ["Alpha Squad", "Alpha Team"] "Alpha Team" (by decide) (by decide) (by decide)
      (by decide) (by decide)
  · exact c5_disambiguation_round_trip.2.2.2.1 winsCollab stubHandlers winsState
      winsPending "Alpha Squad" ["Alpha Team"] [] 100 (some "Alpha Squad") rfl rfl rfl
      (by decide) (by decide) rfl
  · exact c5_disambiguation_round_trip.2.2.2.2 winsCollab ⟨14204⟩
      "wins for alpha squad or alpha team" emptyState [] ["Alpha Squad", "Alpha Team"]
      rfl rfl rfl

/-! ## Dict-operation lemmas, toward C9 -/

theorem find?_of_dmem {d : Dict} {k : String} (h : dmem d k = true) :
    (d.find? fun e => e.1 == k).isSome = true := by
  unfold dmem at h
  rw [List.any_eq_true] at h
  rw [List.find?_isSome]
  exact h

theorem find?_of_not_dmem {d : Dict} {k : String} (h : dmem d k = false) :
    (d.find? fun e => e.1 == k) = none := by
  rw [List.find?_eq_none]
  intro x hx hc
  have ht : dmem d k = true := by
    unfold dmem
    rw [List.any_eq_true]
    exact ⟨x, hx, hc⟩
  rw [h] at ht
  exact Bool.noConfusion ht

theorem dmem_eq_isSome (d : Dict) (k : String) : dmem d k = (dget d k).isSome := by
  unfold dget
  cases hf : d.find? fun e => e.1 == k with
  | none =>
    rw [List.find?_eq_none] at hf
    unfold dmem
    simp only [Option.map_none', Option.isSome_none]
    rw [List.any_eq_false]
    intro x hx
    simpa using hf x hx
  | some e =>
    have hp := List.find?_some hf
    have hm := List.mem_of_find?_eq_some hf
    unfold dmem
    simp only [Option.map_some', Option.isSome_some]
    rw [List.any_eq_true]
    exact ⟨e, hm, hp⟩

theorem find?_map_set (t : List (String × Value)) (k : String) (v : Value) (k2 : String) :
    ((t.map fun e => if e.1 == k then (k, v) else e).find? fun e => e.1 == k2) =
      if k2 == k then ((t.find? fun e => e.1 == k).map fun _ => (k, v))
      else t.find? fun e => e.1 == k2 := by
  induction t with
  | nil => simp
  | cons e t ih =>
    rw [List.map_cons]
    by_cases he : e.1 = k
    · rw [if_pos (by simp [he])]
      by_cases hk : k2 = k
      · rw [@List.find?_cons_of_pos _ (fun e => e.1 == k2) (k, v) _ (by simp [hk]),
          if_pos (by simp [hk]),
          @List.find?_cons_of_pos _ (fun e => e.1 == k) e _ (by simp [he])]
        rfl
      · rw [@List.find?_cons_of_neg _ (fun e => e.1 == k2) (k, v) _
            (by simp; exact fun h => hk h.symm),
          @List.find?_cons_of_neg _ (fun e => e.1 == k2) e _
            (by simp [he]; exact fun h => hk h.symm),
          ih, if_neg (by simpa using hk), if_neg (by simpa using hk)]
    · rw [if_neg (by simp [he])]
      by_cases hk : k2 = k
      · rw [@List.find?_cons_of_neg _ (fun e => e.1 == k2) e _ (by simp [hk, he]),
          ih, if_pos (by simp [hk]), if_pos (by simp [hk]),
          @List.find?_cons_of_neg _ (fun e => e.1 == k) e _ (by simp [he])]
      · by_cases he2 : e.1 = k2
        · rw [@List.find?_cons_of_pos _ (fun e => e.1 == k2) e _ (by simp [he2]),
            if_neg (by simpa using hk),
            @List.find?_cons_of_pos _ (fun e => e.1 == k2) e _ (by simp [he2])]
        · rw [@List.find?_cons_of_neg _ (fun e => e.1 == k2) e _ (by simp [he2]),
            ih, if_neg (by simpa using hk), if_neg (by simpa using hk),
            @List.find?_cons_of_neg _ (fun e => e.1 == k2) e _ (by simp [he2])]

theorem dget_dset (d : Dict) (k : String) (v : Value) (k2 : String) :
    dget (dset d k v) k2 = if k2 == k then some v else dget d k2 := by
  unfold dset
  split
  · rename_i h
    unfold dget
    rw [find?_map_set]
    by_cases hk : k2 = k
    · subst hk
      obtain ⟨x, hx⟩ := Option.isSome_iff_exists.mp (find?_of_dmem h)
      simp [hx]
    · have hk2 : (k2 == k) = false := by simpa using hk
      simp [hk2]
  · rename_i h
    have hm : dmem d k = false := by simpa using h
    unfold dget
    rw [List.find?_append]
    by_cases hk : k2 = k
    · subst hk
      rw [find?_of_not_dmem hm]
      simp
    · have hk2 : (k2 == k) = false := by simpa using hk
      have hkk : (k == k2) = false := by simpa using (Ne.symm hk)
      cases hfd : d.find? fun e => e.1 == k2 <;>
        simp [hk2, hkk, List.find?_cons, hfd, Option.orElse]

theorem dget_dsetdefault (d : Dict) (k : String) (v : Value) (k2 : String) :
    dget (dsetdefault d k v) k2 =
      if k2 == k then some ((dget d k).getD v) else dget d k2 := by
  unfold dsetdefault
  split
  · rename_i h
    by_cases hk : k2 = k
    · subst hk
      obtain ⟨x, hx⟩ := Option.isSome_iff_exists.mp (by rw [← dmem_eq_isSome]; exact h)
      simp [hx]
    · have hk2 : (k2 == k) = false := by simpa using hk
      simp [hk2]
  · rename_i h
    have hm : dmem d k = false := by simpa using h
    have hdg : dget d k = none := by
      have := dmem_eq_isSome d k
      rw [hm] at this
      exact Option.not_isSome_iff_eq_none.mp (by rw [← this]; exact Bool.false_ne_true)
    unfold dget
    rw [List.find?_append]
    by_cases hk : k2 = k
    · subst hk
      unfold dget at hdg
      have hfd : (d.find? fun e => e.1 == k2) = none := by
        cases hfd : d.find? fun e => e.1 == k2 with
        | none => rfl
        | some e => rw [hfd] at hdg; exact Option.noConfusion hdg
      rw [hfd]
      simp [hdg]
    · have hk2 : (k2 == k) = false := by simpa using hk
      have hkk : (k == k2) = false := by simpa using (Ne.symm hk)
      cases hfd : d.find? fun e => e.1 == k2 <;>
        simp [hk2, hkk, List.find?_cons, hfd, Option.orElse]

theorem dsetdefault_of_mem {d : Dict} {k : String} (v : Value) (h : dmem d k = true) :
    dsetdefault d k v = d := by
  unfold dsetdefault
  rw [if_pos h]

theorem dget_dpop (d : Dict) (k : String) (k2 : String) :
    dget (dpop d k) k2 = if k2 == k then none else dget d k2 := by
  unfold dpop dget
  induction d with
  | nil => simp
  | cons e t ih =>
    by_cases he : e.1 = k <;> by_cases hk : k2 = k <;> by_cases he2 : e.1 = k2 <;>
      simp_all [List.filter_cons, List.find?_cons]

theorem dget_dkeep (d : Dict) (al : List String) (k2 : String) :
    dget (dkeep d al) k2 = if al.contains k2 then dget d k2 else none := by
  unfold dkeep dget
  induction d with
  | nil => simp
  | cons e t ih =>
    by_cases he : al.contains e.1 <;> by_cases he2 : e.1 = k2 <;>
      simp_all [List.filter_cons, List.find?_cons]

theorem dmem_dset (d : Dict) (k : String) (v : Value) (k2 : String) :
    dmem (dset d k v) k2 = (k2 == k || dmem d k2) := by
  rw [dmem_eq_isSome, dget_dset, dmem_eq_isSome]
  by_cases hk : k2 = k <;> simp [hk]

theorem dmem_dsetdefault (d : Dict) (k : String) (v : Value) (k2 : String) :
    dmem (dsetdefault d k v) k2 = (k2 == k || dmem d k2) := by
  rw [dmem_eq_isSome, dget_dsetdefault, dmem_eq_isSome]
  by_cases hk : k2 = k <;> simp [hk]

theorem dmem_dpop (d : Dict) (k : String) (k2 : String) :
    dmem (dpop d k) k2 = if k2 == k then false else dmem d k2 := by
  rw [dmem_eq_isSome, dget_dpop, dmem_eq_isSome]
  by_cases hk : k2 = k <;> simp [hk]

theorem dmem_dkeep (d : Dict) (al : List String) (k2 : String) :
    dmem (dkeep d al) k2 = (al.contains k2 && dmem d k2) := by
  rw [dmem_eq_isSome, dget_dkeep, dmem_eq_isSome]
  by_cases hc : k2 ∈ al <;> simp [hc]

theorem dkeep_dkeep (d : Dict) (al : List String) : dkeep (dkeep d al) al = dkeep d al := by
  unfold dkeep
  rw [List.filter_filter]
  simp

theorem filter_keep_map_set (t : List (String × Value)) (k : String) (v : Value)
    {al : List String} (h : al.contains k = false) :
    ((t.map fun e => if e.1 == k then (k, v) else e).filter fun e => al.contains e.1) =
      t.filter fun e => al.contains e.1 := by
  induction t with
  | nil => rfl
  | cons e t ih =>
    by_cases he : e.1 = k
    · rw [List.map_cons, if_pos (by simp [he]), List.filter_cons, List.filter_cons,
        if_neg (by simp [show k ∉ al from by simpa using h]),
        if_neg (by simp [he, show k ∉ al from by simpa using h])]
      exact ih
    · rw [List.map_cons, if_neg (by simp [he]), List.filter_cons, List.filter_cons, ih]

theorem dkeep_dset_not {al : List String} {k : String} (d : Dict) (v : Value)
    (h : al.contains k = false) : dkeep (dset d k v) al = dkeep d al := by
  unfold dset
  split
  · unfold dkeep
    exact filter_keep_map_set d k v h
  · unfold dkeep
    rw [List.filter_append]
    simp [List.filter_cons, show k ∉ al from by simpa using h]

theorem resolveLeagueFrom_fix (cfg : Settings) (s : Session) (o : Option Value) :
    resolveLeagueFrom cfg s (some (.vInt (resolveLeagueFrom cfg s o))) =
      resolveLeagueFrom cfg s o := by
  by_cases hL : resolveLeagueFrom cfg s o = 0
  · have hD : defaultLeagueId cfg s = 0 := by
      unfold resolveLeagueFrom at hL
      cases o with
      | none => simpa using hL
      | some v =>
        have hL2 : (if ((if pyTruthy v then (toIntOpt v).getD 0 else (0 : Int)) == 0) = true
            then defaultLeagueId cfg s
            else if pyTruthy v then (toIntOpt v).getD 0 else (0 : Int)) = 0 := hL
        by_cases ht : pyTruthy v = true
        · rw [if_pos ht] at hL2
          by_cases hz : ((toIntOpt v).getD 0 == (0 : Int)) = true
          · rw [if_pos hz] at hL2
            exact hL2
          · rw [if_neg hz] at hL2
            exact absurd (beq_iff_eq.mpr hL2) hz
        · rw [if_neg ht] at hL2
          simpa using hL2
    rw [hL]
    simp [resolveLeagueFrom, pyTruthy, hD]
  · rw [show resolveLeagueFrom cfg s (some (.vInt (resolveLeagueFrom cfg s o))) =
        (if ((if pyTruthy (.vInt (resolveLeagueFrom cfg s o)) then
          (toIntOpt (.vInt (resolveLeagueFrom cfg s o))).getD 0 else 0) == 0) then
          defaultLeagueId cfg s
        else (if pyTruthy (.vInt (resolveLeagueFrom cfg s o)) then
          (toIntOpt (.vInt (resolveLeagueFrom cfg s o))).getD 0 else 0)) from rfl]
    have ht : pyTruthy (.vInt (resolveLeagueFrom cfg s o)) = true := by
      simp [pyTruthy, hL]
    rw [ht]
    simp [toIntOpt, hL]

theorem defaultEntryId_truthy {s : Session} {n : Int} (h : defaultEntryId s = some n) :
    (n == 0) = false := by
  unfold defaultEntryId at h
  split at h
  · rename_i m hm
    split at h
    · rename_i hne
      cases h
      simpa using hne
    · exact Option.noConfusion h
  · exact Option.noConfusion h

theorem defaultEntryName_truthy {s : Session} {nm : String} (h : defaultEntryName s = some nm) :
    (nm == "") = false := by
  unfold defaultEntryName at h
  split at h
  · rename_i m hm
    split at h
    · rename_i hne
      cases h
      simpa using hne
    · exact Option.noConfusion h
  · exact Option.noConfusion h



/-! ## Block lemmas for the Argument Defaulting Engine (toward C9) -/

theorem adFlatten_skip {name : String} (d : Dict)
    (h : (name == "manager_schedule" || name == "league_entries") = false) :
    adFlatten name d = d := by
  unfold adFlatten
  rw [if_neg (by rw [h] ; exact Bool.false_ne_true)]

theorem adEntryDefaults_skip (s : Session) {name : String} (d : Dict)
    (h : (["waiver_recommendations", "manager_schedule", "manager_streak",
      "current_roster", "manager_season", "head_to_head"].contains name) = false) :
    adEntryDefaults s name d = d := by
  unfold adEntryDefaults
  rw [if_neg (by rw [h] ; exact Bool.false_ne_true)]

theorem adLeagueScoped_skip (s : Session) (L : Int) {name : String} (d : Dict)
    (h : (["league_summary", "matchup_breakdown", "standings", "transactions",
      "lineup_efficiency", "strength_of_schedule", "ownership_scarcity",
      "transaction_analysis"].contains name) = false) :
    adLeagueScoped s L name d = d := by
  unfold adLeagueScoped
  rw [if_neg (by rw [h] ; exact Bool.false_ne_true)]

theorem adIdScoped_skip (L : Int) {name : String} (d : Dict)
    (h : (["league_entries", "manager_schedule", "manager_streak", "current_roster",
      "draft_picks", "manager_season", "head_to_head",
      "transaction_analysis"].contains name) = false) :
    adIdScoped L name d = d := by
  unfold adIdScoped
  rw [if_neg (by rw [h] ; exact Bool.false_ne_true)]

theorem adFixtures_skip (L : Int) {name : String} (d : Dict)
    (h : (name == "fixtures") = false) : adFixtures L name d = d := by
  unfold adFixtures
  rw [if_neg (by rw [h] ; exact Bool.false_ne_true)]

theorem adFixtureDifficulty_skip (L : Int) {name : String} (d : Dict)
    (h : (name == "fixture_difficulty") = false) : adFixtureDifficulty L name d = d := by
  unfold adFixtureDifficulty
  rw [if_neg (by rw [h] ; exact Bool.false_ne_true)]

theorem adManagerSchedule_skip (L : Int) {name : String} (d : Dict)
    (h : (name == "manager_schedule") = false) : adManagerSchedule L name d = d := by
  unfold adManagerSchedule
  rw [if_neg (by rw [h] ; exact Bool.false_ne_true)]

theorem adManagerStreak_skip (L : Int) {name : String} (d : Dict)
    (h : (name == "manager_streak") = false) : adManagerStreak L name d = d := by
  unfold adManagerStreak
  rw [if_neg (by rw [h] ; exact Bool.false_ne_true)]

theorem adLeagueEntries_skip (L : Int) {name : String} (d : Dict)
    (h : (name == "league_entries") = false) : adLeagueEntries L name d = d := by
  unfold adLeagueEntries
  rw [if_neg (by rw [h] ; exact Bool.false_ne_true)]

theorem adPlayerForm_skip (L : Int) {name : String} (d : Dict)
    (h : (name == "player_form") = false) : adPlayerForm L name d = d := by
  unfold adPlayerForm
  rw [if_neg (by rw [h] ; exact Bool.false_ne_true)]

theorem adCurrentRoster_skip (s : Session) (L : Int) {name : String} (d : Dict)
    (h : (name == "current_roster") = false) : adCurrentRoster s L name d = d := by
  unfold adCurrentRoster
  rw [if_neg (by rw [h] ; exact Bool.false_ne_true)]

theorem adDraftPicks_skip (L : Int) {name : String} (d : Dict)
    (h : (name == "draft_picks") = false) : adDraftPicks L name d = d := by
  unfold adDraftPicks
  rw [if_neg (by rw [h] ; exact Bool.false_ne_true)]

theorem adManagerSeason_skip (L : Int) {name : String} (d : Dict)
    (h : (name == "manager_season") = false) : adManagerSeason L name d = d := by
  unfold adManagerSeason
  rw [if_neg (by rw [h] ; exact Bool.false_ne_true)]

theorem adTransactionAnalysis_skip (L : Int) {name : String} (d : Dict)
    (h : (name == "transaction_analysis") = false) : adTransactionAnalysis L name d = d := by
  unfold adTransactionAnalysis
  rw [if_neg (by rw [h] ; exact Bool.false_ne_true)]

theorem adPlayerGwStats_skip {name : String} (d : Dict)
    (h : (name == "player_gw_stats") = false) : adPlayerGwStats name d = d := by
  unfold adPlayerGwStats
  rw [if_neg (by rw [h] ; exact Bool.false_ne_true)]

theorem adHeadToHead_skip (L : Int) {name : String} (d : Dict)
    (h : (name == "head_to_head") = false) : adHeadToHead L name d = d := by
  unfold adHeadToHead
  rw [if_neg (by rw [h] ; exact Bool.false_ne_true)]

theorem resolveLeagueFrom_getD_fix (cfg : Settings) (s : Session) (o : Option Value) :
    resolveLeagueFrom cfg s (some (o.getD (.vInt (resolveLeagueFrom cfg s o)))) =
      resolveLeagueFrom cfg s o := by
  cases o with
  | some x => rfl
  | none => exact resolveLeagueFrom_fix cfg s none

theorem adFlatten_not_dict {name : String} (d : Dict)
    (h : (name == "manager_schedule" || name == "league_entries") = true) :
    ∀ nd, dget (adFlatten name d) "entry_name" ≠ some (.vDict nd) := by
  intro nd hc
  unfold adFlatten at hc
  rw [if_pos h] at hc
  repeat' split at hc
  all_goals try simp_all [dget_dset, dget_dpop]
  all_goals repeat' split at hc
  all_goals simp_all [dget_dset, dget_dpop]

theorem adFlatten_stable (name : String) {d : Dict}
    (h1 : dget d "first" = none) (h2 : dget d "last" = none)
    (h3 : ∀ nd, dget d "entry_name" ≠ some (.vDict nd)) :
    adFlatten name d = d := by
  unfold adFlatten
  split
  · simp only [h1, h2]
    rw [if_neg (by simp [optTruthy])]
    split
    · rename_i nd heq
      exact absurd heq (h3 _)
    · rfl
  · rfl

theorem adEntryDefaults_dget_ne (s : Session) (name : String) (d : Dict) {k : String}
    (h1 : (k == "entry_id") = false) (h2 : (k == "entry_name") = false) :
    dget (adEntryDefaults s name d) k = dget d k := by
  unfold adEntryDefaults
  repeat' split
  all_goals try simp [dget_dset, h1, h2]
  all_goals repeat' split
  all_goals simp [dget_dset, h1, h2]

theorem adEntryDefaults_not_dict (s : Session) (name : String) (d : Dict)
    (h : ∀ nd, dget d "entry_name" ≠ some (.vDict nd)) :
    ∀ nd, dget (adEntryDefaults s name d) "entry_name" ≠ some (.vDict nd) := by
  intro nd hc
  unfold adEntryDefaults at hc
  repeat' split at hc
  all_goals try simp_all [dget_dset]
  all_goals repeat' split at hc
  all_goals simp_all [dget_dset]

theorem defaultEntryId_opt_truthy {s : Session} {n : Int}
    (h : defaultEntryId s = some n) : optTruthy (some (.vInt n)) = true := by
  have h0 := defaultEntryId_truthy h
  simp only [optTruthy, pyTruthy]
  simp [beq_eq_false_iff_ne.mp h0]

theorem defaultEntryName_opt_truthy {s : Session} {nm : String}
    (h : defaultEntryName s = some nm) : optTruthy (some (.vStr nm)) = true := by
  have h0 := defaultEntryName_truthy h
  simp only [optTruthy, pyTruthy]
  simp [beq_eq_false_iff_ne.mp h0]

theorem not_dmem_all {d : Dict} {k : String} (h : dmem d k = false) :
    ∀ e ∈ d, (e.1 == k) = false := by
  intro e he
  cases hc : e.1 == k
  · rfl
  · exfalso
    have ht : dmem d k = true := by
      unfold dmem
      rw [List.any_eq_true]
      exact ⟨e, he, hc⟩
    rw [h] at ht
    exact Bool.noConfusion ht

theorem map_set_set (t : List (String × Value)) (k : String) (v w : Value) :
    ((t.map fun e => if e.1 == k then (k, v) else e).map
        fun e => if e.1 == k then (k, w) else e) =
      t.map fun e => if e.1 == k then (k, w) else e := by
  induction t with
  | nil => rfl
  | cons e t ih =>
    by_cases he : e.1 = k
    all_goals simp [he, ih]
    all_goals try intro a b hab
    all_goals try by_cases hak : a = k
    all_goals simp [hak]

theorem dset_of_mem {d : Dict} {k : String} (v : Value) (h : dmem d k = true) :
    dset d k v = d.map fun e => if e.1 == k then (k, v) else e := by
  unfold dset
  rw [if_pos h]

theorem dset_of_not_mem {d : Dict} {k : String} (v : Value) (h : dmem d k = false) :
    dset d k v = d ++ [(k, v)] := by
  unfold dset
  rw [if_neg (by rw [h] ; exact Bool.false_ne_true)]

theorem dset_dset_self (d : Dict) (k : String) (v w : Value) :
    dset (dset d k v) k w = dset d k w := by
  have hm : dmem (dset d k v) k = true := by
    rw [dmem_dset]
    simp
  by_cases h : dmem d k = true
  · rw [dset_of_mem w hm, dset_of_mem v h, dset_of_mem w h, map_set_set]
  · have hf : dmem d k = false := by simpa using h
    rw [dset_of_mem w hm, dset_of_not_mem v hf, dset_of_not_mem w hf, List.map_append]
    congr 1
    · have hall := not_dmem_all hf
      calc (d.map fun e => if e.1 == k then (k, w) else e) = d.map id := by
            apply List.map_congr_left
            intro a ha
            simp [hall a ha]
        _ = d := List.map_id d
    · simp

theorem dset_comm_of_mem {d : Dict} {k1 k2 : String} (hne : (k1 == k2) = false)
    (h1 : dmem d k1 = true) (v1 v2 : Value) :
    dset (dset d k1 v1) k2 v2 = dset (dset d k2 v2) k1 v1 := by
  have hne12 : ¬k1 = k2 := by simpa using hne
  have hne21p : ¬k2 = k1 := fun h => hne12 h.symm
  by_cases h2 : dmem d k2 = true
  · have hm1 : dmem (dset d k1 v1) k2 = true := by
      rw [dmem_dset]
      simp [h2]
    have hm2 : dmem (dset d k2 v2) k1 = true := by
      rw [dmem_dset]
      simp [h1]
    rw [dset_of_mem v2 hm1, dset_of_mem v1 h1, dset_of_mem v1 hm2, dset_of_mem v2 h2,
      List.map_map, List.map_map]
    apply List.map_congr_left
    intro a ha
    by_cases ha1 : a.1 = k1
    · simp [ha1, hne12, hne21p]
    · by_cases ha2 : a.1 = k2 <;> simp [ha1, ha2, hne12, hne21p]
  · have h2f : dmem d k2 = false := by simpa using h2
    have hm1 : dmem (dset d k1 v1) k2 = false := by
      rw [dmem_dset]
      simp [h2f, hne21p]
    have hm2 : dmem (dset d k2 v2) k1 = true := by
      rw [dmem_dset]
      simp [h1]
    rw [dset_of_mem v1 hm2, dset_of_not_mem v2 hm1, dset_of_mem v1 h1,
      dset_of_not_mem v2 h2f, List.map_append]
    congr 1
    simp [hne21p]

theorem dset_reset (d : Dict) (k1 k2 : String) (hne : (k1 == k2) = false)
    (v1 v2 w : Value) :
    dset (dset (dset d k1 v1) k2 v2) k1 w = dset (dset d k1 w) k2 v2 := by
  have hm : dmem (dset d k1 v1) k1 = true := by
    rw [dmem_dset]
    simp
  rw [← dset_comm_of_mem hne hm w v2, dset_dset_self]


theorem adEntryDefaults_eid_truthy (s : Session) (name : String) (d : Dict) {n : Int}
    (hn : defaultEntryId s = some n)
    (hl : (["waiver_recommendations", "manager_schedule", "manager_streak",
      "current_roster", "manager_season", "head_to_head"].contains name) = true) :
    optTruthy (dget (adEntryDefaults s name d) "entry_id") = true := by
  have ht := defaultEntryId_opt_truthy hn
  unfold adEntryDefaults
  rw [if_pos hl]
  repeat' split
  all_goals try simp_all [dget_dset]
  all_goals repeat' split
  all_goals simp_all [dget_dset]

theorem adEntryDefaults_ena_truthy (s : Session) (name : String) (d : Dict) {nm : String}
    (hn : defaultEntryName s = some nm)
    (hl : (["waiver_recommendations", "manager_schedule", "manager_streak",
      "current_roster", "manager_season", "head_to_head"].contains name) = true) :
    optTruthy (dget (adEntryDefaults s name d) "entry_name") = true := by
  have ht := defaultEntryName_opt_truthy hn
  unfold adEntryDefaults
  rw [if_pos hl]
  repeat' split
  all_goals try simp_all [dget_dset]
  all_goals repeat' split
  all_goals simp_all [dget_dset]

theorem adEntryDefaults_stable (s : Session) (name : String) (d d2 : Dict)
    (heid : dget d2 "entry_id" = dget (adEntryDefaults s name d) "entry_id")
    (hena : dget d2 "entry_name" = dget (adEntryDefaults s name d) "entry_name") :
    adEntryDefaults s name d2 = d2 := by
  by_cases hl : (["waiver_recommendations", "manager_schedule", "manager_streak",
      "current_roster", "manager_season", "head_to_head"].contains name) = true
  · have h1 : optTruthy (dget d2 "entry_id") = true ∨ defaultEntryId s = none := by
      cases hdi : defaultEntryId s with
      | none => exact Or.inr rfl
      | some n =>
        left
        rw [heid]
        exact adEntryDefaults_eid_truthy s name d hdi hl
    have h2 : optTruthy (dget d2 "entry_name") = true ∨ defaultEntryName s = none := by
      cases hdn : defaultEntryName s with
      | none => exact Or.inr rfl
      | some nm =>
        left
        rw [hena]
        exact adEntryDefaults_ena_truthy s name d hdn hl
    unfold adEntryDefaults
    rw [if_pos hl]
    have hs1 : (if (!optTruthy (dget d2 "entry_id")) = true then
        match defaultEntryId s with
        | some n => dset d2 "entry_id" (.vInt n)
        | none => d2
      else d2) = d2 := by
      rcases h1 with h | h
      · rw [if_neg (by rw [h] ; simp)]
      · simp [h]
    rw [hs1]
    rcases h2 with h | h
    · rw [if_neg (by rw [h] ; simp)]
    · simp [h]
  · unfold adEntryDefaults
    rw [if_neg hl]

theorem adEntryDefaults_dmem_ne (s : Session) (name : String) (d : Dict) {k : String}
    (h1 : (k == "entry_id") = false) (h2 : (k == "entry_name") = false) :
    dmem (adEntryDefaults s name d) k = dmem d k := by
  rw [dmem_eq_isSome, dmem_eq_isSome, adEntryDefaults_dget_ne s name d h1 h2]

theorem adFlatten_dget_ne (name : String) (d : Dict) {k : String}
    (hf : (k == "first") = false) (hl : (k == "last") = false)
    (he : (k == "entry_name") = false) :
    dget (adFlatten name d) k = dget d k := by
  unfold adFlatten
  repeat' split
  all_goals try simp [dget_dset, dget_dpop, hf, hl, he]
  all_goals repeat' split
  all_goals simp [dget_dset, dget_dpop, hf, hl, he]


/-! ## Idempotence of the Argument Defaulting Engine (C9) -/

set_option maxRecDepth 8000 in
set_option maxHeartbeats 1000000 in
theorem applyDefaults_idem_ls (cfg : Settings) (s : Session) (args : Dict) :
    applyDefaults cfg s "league_summary" (applyDefaults cfg s "league_summary" args) =
      applyDefaults cfg s "league_summary" args := by
  simp [applyDefaults, adFlatten, adEntryDefaults, adLeagueScoped, adIdScoped,
    adFixtures, adFixtureDifficulty, adManagerSchedule, adManagerStreak,
    adLeagueEntries, adPlayerForm, adCurrentRoster, adDraftPicks, adManagerSeason,
    adTransactionAnalysis, adPlayerGwStats, adHeadToHead,
    dget_dset, dget_dsetdefault, dget_dpop, dget_dkeep, dmem_dset,
    dmem_dsetdefault, dmem_dpop, dmem_dkeep, dsetdefault_of_mem, dkeep_dkeep,
    dkeep_dset_not, resolveLeagueFrom_fix]
  repeat' split
  all_goals simp_all [dget_dset, dget_dsetdefault, dget_dpop, dget_dkeep, dmem_dset,
    dmem_dsetdefault, dmem_dpop, dmem_dkeep, dsetdefault_of_mem, dkeep_dkeep,
    dkeep_dset_not, resolveLeagueFrom_fix, defaultEntryId_opt_truthy,
    defaultEntryName_opt_truthy, dset_dset_self, dset_reset]

set_option maxRecDepth 8000 in
set_option maxHeartbeats 1000000 in
theorem applyDefaults_idem_mb (cfg : Settings) (s : Session) (args : Dict) :
    applyDefaults cfg s "matchup_breakdown" (applyDefaults cfg s "matchup_breakdown" args) =
      applyDefaults cfg s "matchup_breakdown" args := by
  simp [applyDefaults, adFlatten, adEntryDefaults, adLeagueScoped, adIdScoped,
    adFixtures, adFixtureDifficulty, adManagerSchedule, adManagerStreak,
    adLeagueEntries, adPlayerForm, adCurrentRoster, adDraftPicks, adManagerSeason,
    adTransactionAnalysis, adPlayerGwStats, adHeadToHead,
    dget_dset, dget_dsetdefault, dget_dpop, dget_dkeep, dmem_dset,
    dmem_dsetdefault, dmem_dpop, dmem_dkeep, dsetdefault_of_mem, dkeep_dkeep,
    dkeep_dset_not, resolveLeagueFrom_fix]
  repeat' split
  all_goals simp_all [dget_dset, dget_dsetdefault, dget_dpop, dget_dkeep, dmem_dset,
    dmem_dsetdefault, dmem_dpop, dmem_dkeep, dsetdefault_of_mem, dkeep_dkeep,
    dkeep_dset_not, resolveLeagueFrom_fix, defaultEntryId_opt_truthy,
    defaultEntryName_opt_truthy, dset_dset_self, dset_reset]

set_option maxRecDepth 8000 in
set_option maxHeartbeats 1000000 in
theorem applyDefaults_idem_std (cfg : Settings) (s : Session) (args : Dict) :
    applyDefaults cfg s "standings" (applyDefaults cfg s "standings" args) =
      applyDefaults cfg s "standings" args := by
  simp [applyDefaults, adFlatten, adEntryDefaults, adLeagueScoped, adIdScoped,
    adFixtures, adFixtureDifficulty, adManagerSchedule, adManagerStreak,
    adLeagueEntries, adPlayerForm, adCurrentRoster, adDraftPicks, adManagerSeason,
    adTransactionAnalysis, adPlayerGwStats, adHeadToHead,
    dget_dset, dget_dsetdefault, dget_dpop, dget_dkeep, dmem_dset,
    dmem_dsetdefault, dmem_dpop, dmem_dkeep, dsetdefault_of_mem, dkeep_dkeep,
    dkeep_dset_not, resolveLeagueFrom_fix]
  repeat' split
  all_goals simp_all [dget_dset, dget_dsetdefault, dget_dpop, dget_dkeep, dmem_dset,
    dmem_dsetdefault, dmem_dpop, dmem_dkeep, dsetdefault_of_mem, dkeep_dkeep,
    dkeep_dset_not, resolveLeagueFrom_fix, defaultEntryId_opt_truthy,
    defaultEntryName_opt_truthy, dset_dset_self, dset_reset]

set_option maxRecDepth 8000 in
set_option maxHeartbeats 1000000 in
theorem applyDefaults_idem_trx (cfg : Settings) (s : Session) (args : Dict) :
    applyDefaults cfg s "transactions" (applyDefaults cfg s "transactions" args) =
      applyDefaults cfg s "transactions" args := by
  simp [applyDefaults, adFlatten, adEntryDefaults, adLeagueScoped, adIdScoped,
    adFixtures, adFixtureDifficulty, adManagerSchedule, adManagerStreak,
    adLeagueEntries, adPlayerForm, adCurrentRoster, adDraftPicks, adManagerSeason,
    adTransactionAnalysis, adPlayerGwStats, adHeadToHead,
    dget_dset, dget_dsetdefault, dget_dpop, dget_dkeep, dmem_dset,
    dmem_dsetdefault, dmem_dpop, dmem_dkeep, dsetdefault_of_mem, dkeep_dkeep,
    dkeep_dset_not, resolveLeagueFrom_fix]
  repeat' split
  all_goals simp_all [dget_dset, dget_dsetdefault, dget_dpop, dget_dkeep, dmem_dset,
    dmem_dsetdefault, dmem_dpop, dmem_dkeep, dsetdefault_of_mem, dkeep_dkeep,
    dkeep_dset_not, resolveLeagueFrom_fix, defaultEntryId_opt_truthy,
    defaultEntryName_opt_truthy, dset_dset_self, dset_reset]

set_option maxRecDepth 8000 in
set_option maxHeartbeats 1000000 in
theorem applyDefaults_idem_lef (cfg : Settings) (s : Session) (args : Dict) :
    applyDefaults cfg s "lineup_efficiency" (applyDefaults cfg s "lineup_efficiency" args) =
      applyDefaults cfg s "lineup_efficiency" args := by
  simp [applyDefaults, adFlatten, adEntryDefaults, adLeagueScoped, adIdScoped,
    adFixtures, adFixtureDifficulty, adManagerSchedule, adManagerStreak,
    adLeagueEntries, adPlayerForm, adCurrentRoster, adDraftPicks, adManagerSeason,
    adTransactionAnalysis, adPlayerGwStats, adHeadToHead,
    dget_dset, dget_dsetdefault, dget_dpop, dget_dkeep, dmem_dset,
    dmem_dsetdefault, dmem_dpop, dmem_dkeep, dsetdefault_of_mem, dkeep_dkeep,
    dkeep_dset_not, resolveLeagueFrom_fix]
  repeat' split
  all_goals simp_all [dget_dset, dget_dsetdefault, dget_dpop, dget_dkeep, dmem_dset,
    dmem_dsetdefault, dmem_dpop, dmem_dkeep, dsetdefault_of_mem, dkeep_dkeep,
    dkeep_dset_not, resolveLeagueFrom_fix, defaultEntryId_opt_truthy,
    defaultEntryName_opt_truthy, dset_dset_self, dset_reset]

set_option maxRecDepth 8000 in
set_option maxHeartbeats 1000000 in
theorem applyDefaults_idem_sos (cfg : Settings) (s : Session) (args : Dict) :
    applyDefaults cfg s "strength_of_schedule" (applyDefaults cfg s "strength_of_schedule" args) =
      applyDefaults cfg s "strength_of_schedule" args := by
  simp [applyDefaults, adFlatten, adEntryDefaults, adLeagueScoped, adIdScoped,
    adFixtures, adFixtureDifficulty, adManagerSchedule, adManagerStreak,
    adLeagueEntries, adPlayerForm, adCurrentRoster, adDraftPicks, adManagerSeason,
    adTransactionAnalysis, adPlayerGwStats, adHeadToHead,
    dget_dset, dget_dsetdefault, dget_dpop, dget_dkeep, dmem_dset,
    dmem_dsetdefault, dmem_dpop, dmem_dkeep, dsetdefault_of_mem, dkeep_dkeep,
    dkeep_dset_not, resolveLeagueFrom_fix]
  repeat' split
  all_goals simp_all [dget_dset, dget_dsetdefault, dget_dpop, dget_dkeep, dmem_dset,
    dmem_dsetdefault, dmem_dpop, dmem_dkeep, dsetdefault_of_mem, dkeep_dkeep,
    dkeep_dset_not, resolveLeagueFrom_fix, defaultEntryId_opt_truthy,
    defaultEntryName_opt_truthy, dset_dset_self, dset_reset]

set_option maxRecDepth 8000 in
set_option maxHeartbeats 1000000 in
theorem applyDefaults_idem_osc (cfg : Settings) (s : Session) (args : Dict) :
    applyDefaults cfg s "ownership_scarcity" (applyDefaults cfg s "ownership_scarcity" args) =
      applyDefaults cfg s "ownership_scarcity" args := by
  simp [applyDefaults, adFlatten, adEntryDefaults, adLeagueScoped, adIdScoped,
    adFixtures, adFixtureDifficulty, adManagerSchedule, adManagerStreak,
    adLeagueEntries, adPlayerForm, adCurrentRoster, adDraftPicks, adManagerSeason,
    adTransactionAnalysis, adPlayerGwStats, adHeadToHead,
    dget_dset, dget_dsetdefault, dget_dpop, dget_dkeep, dmem_dset,
    dmem_dsetdefault, dmem_dpop, dmem_dkeep, dsetdefault_of_mem, dkeep_dkeep,
    dkeep_dset_not, resolveLeagueFrom_fix]
  repeat' split
  all_goals simp_all [dget_dset, dget_dsetdefault, dget_dpop, dget_dkeep, dmem_dset,
    dmem_dsetdefault, dmem_dpop, dmem_dkeep, dsetdefault_of_mem, dkeep_dkeep,
    dkeep_dset_not, resolveLeagueFrom_fix, defaultEntryId_opt_truthy,
    defaultEntryName_opt_truthy, dset_dset_self, dset_reset]

set_option maxRecDepth 8000 in
set_option maxHeartbeats 1000000 in
theorem applyDefaults_idem_ta (cfg : Settings) (s : Session) (args : Dict) :
    applyDefaults cfg s "transaction_analysis" (applyDefaults cfg s "transaction_analysis" args) =
      applyDefaults cfg s "transaction_analysis" args := by
  simp [applyDefaults, adFlatten, adEntryDefaults, adLeagueScoped, adIdScoped,
    adFixtures, adFixtureDifficulty, adManagerSchedule, adManagerStreak,
    adLeagueEntries, adPlayerForm, adCurrentRoster, adDraftPicks, adManagerSeason,
    adTransactionAnalysis, adPlayerGwStats, adHeadToHead,
    dget_dset, dget_dsetdefault, dget_dpop, dget_dkeep, dmem_dset,
    dmem_dsetdefault, dmem_dpop, dmem_dkeep, dsetdefault_of_mem, dkeep_dkeep,
    dkeep_dset_not, resolveLeagueFrom_fix]
  repeat' split
  all_goals simp_all [dget_dset, dget_dsetdefault, dget_dpop, dget_dkeep, dmem_dset,
    dmem_dsetdefault, dmem_dpop, dmem_dkeep, dsetdefault_of_mem, dkeep_dkeep,
    dkeep_dset_not, resolveLeagueFrom_fix, defaultEntryId_opt_truthy,
    defaultEntryName_opt_truthy, dset_dset_self, dset_reset]

set_option maxRecDepth 8000 in
set_option maxHeartbeats 1000000 in
theorem applyDefaults_idem_fx (cfg : Settings) (s : Session) (args : Dict) :
    applyDefaults cfg s "fixtures" (applyDefaults cfg s "fixtures" args) =
      applyDefaults cfg s "fixtures" args := by
  simp [applyDefaults, adFlatten, adEntryDefaults, adLeagueScoped, adIdScoped,
    adFixtures, adFixtureDifficulty, adManagerSchedule, adManagerStreak,
    adLeagueEntries, adPlayerForm, adCurrentRoster, adDraftPicks, adManagerSeason,
    adTransactionAnalysis, adPlayerGwStats, adHeadToHead,
    dget_dset, dget_dsetdefault, dget_dpop, dget_dkeep, dmem_dset,
    dmem_dsetdefault, dmem_dpop, dmem_dkeep, dsetdefault_of_mem, dkeep_dkeep,
    dkeep_dset_not, resolveLeagueFrom_fix]
  repeat' split
  all_goals simp_all [dget_dset, dget_dsetdefault, dget_dpop, dget_dkeep, dmem_dset,
    dmem_dsetdefault, dmem_dpop, dmem_dkeep, dsetdefault_of_mem, dkeep_dkeep,
    dkeep_dset_not, resolveLeagueFrom_fix, defaultEntryId_opt_truthy,
    defaultEntryName_opt_truthy, dset_dset_self, dset_reset]

set_option maxRecDepth 8000 in
set_option maxHeartbeats 1000000 in
theorem applyDefaults_idem_fd (cfg : Settings) (s : Session) (args : Dict) :
    applyDefaults cfg s "fixture_difficulty" (applyDefaults cfg s "fixture_difficulty" args) =
      applyDefaults cfg s "fixture_difficulty" args := by
  simp [applyDefaults, adFlatten, adEntryDefaults, adLeagueScoped, adIdScoped,
    adFixtures, adFixtureDifficulty, adManagerSchedule, adManagerStreak,
    adLeagueEntries, adPlayerForm, adCurrentRoster, adDraftPicks, adManagerSeason,
    adTransactionAnalysis, adPlayerGwStats, adHeadToHead,
    dget_dset, dget_dsetdefault, dget_dpop, dget_dkeep, dmem_dset,
    dmem_dsetdefault, dmem_dpop, dmem_dkeep, dsetdefault_of_mem, dkeep_dkeep,
    dkeep_dset_not, resolveLeagueFrom_fix]
  repeat' split
  all_goals simp_all [dget_dset, dget_dsetdefault, dget_dpop, dget_dkeep, dmem_dset,
    dmem_dsetdefault, dmem_dpop, dmem_dkeep, dsetdefault_of_mem, dkeep_dkeep,
    dkeep_dset_not, resolveLeagueFrom_fix, defaultEntryId_opt_truthy,
    defaultEntryName_opt_truthy, dset_dset_self, dset_reset]

set_option maxRecDepth 8000 in
set_option maxHeartbeats 1000000 in
theorem applyDefaults_idem_pf (cfg : Settings) (s : Session) (args : Dict) :
    applyDefaults cfg s "player_form" (applyDefaults cfg s "player_form" args) =
      applyDefaults cfg s "player_form" args := by
  simp [applyDefaults, adFlatten, adEntryDefaults, adLeagueScoped, adIdScoped,
    adFixtures, adFixtureDifficulty, adManagerSchedule, adManagerStreak,
    adLeagueEntries, adPlayerForm, adCurrentRoster, adDraftPicks, adManagerSeason,
    adTransactionAnalysis, adPlayerGwStats, adHeadToHead,
    dget_dset, dget_dsetdefault, dget_dpop, dget_dkeep, dmem_dset,
    dmem_dsetdefault, dmem_dpop, dmem_dkeep, dsetdefault_of_mem, dkeep_dkeep,
    dkeep_dset_not, resolveLeagueFrom_fix]
  repeat' split
  all_goals simp_all [dget_dset, dget_dsetdefault, dget_dpop, dget_dkeep, dmem_dset,
    dmem_dsetdefault, dmem_dpop, dmem_dkeep, dsetdefault_of_mem, dkeep_dkeep,
    dkeep_dset_not, resolveLeagueFrom_fix, defaultEntryId_opt_truthy,
    defaultEntryName_opt_truthy, dset_dset_self, dset_reset]

set_option maxRecDepth 8000 in
set_option maxHeartbeats 1000000 in
theorem applyDefaults_idem_dp (cfg : Settings) (s : Session) (args : Dict) :
    applyDefaults cfg s "draft_picks" (applyDefaults cfg s "draft_picks" args) =
      applyDefaults cfg s "draft_picks" args := by
  simp [applyDefaults, adFlatten, adEntryDefaults, adLeagueScoped, adIdScoped,
    adFixtures, adFixtureDifficulty, adManagerSchedule, adManagerStreak,
    adLeagueEntries, adPlayerForm, adCurrentRoster, adDraftPicks, adManagerSeason,
    adTransactionAnalysis, adPlayerGwStats, adHeadToHead,
    dget_dset, dget_dsetdefault, dget_dpop, dget_dkeep, dmem_dset,
    dmem_dsetdefault, dmem_dpop, dmem_dkeep, dsetdefault_of_mem, dkeep_dkeep,
    dkeep_dset_not, resolveLeagueFrom_fix]
  repeat' split
  all_goals simp_all [dget_dset, dget_dsetdefault, dget_dpop, dget_dkeep, dmem_dset,
    dmem_dsetdefault, dmem_dpop, dmem_dkeep, dsetdefault_of_mem, dkeep_dkeep,
    dkeep_dset_not, resolveLeagueFrom_fix, defaultEntryId_opt_truthy,
    defaultEntryName_opt_truthy, dset_dset_self, dset_reset]

set_option maxRecDepth 8000 in
set_option maxHeartbeats 1000000 in
theorem applyDefaults_idem_pgs (cfg : Settings) (s : Session) (args : Dict) :
    applyDefaults cfg s "player_gw_stats" (applyDefaults cfg s "player_gw_stats" args) =
      applyDefaults cfg s "player_gw_stats" args := by
  simp [applyDefaults, adFlatten, adEntryDefaults, adLeagueScoped, adIdScoped,
    adFixtures, adFixtureDifficulty, adManagerSchedule, adManagerStreak,
    adLeagueEntries, adPlayerForm, adCurrentRoster, adDraftPicks, adManagerSeason,
    adTransactionAnalysis, adPlayerGwStats, adHeadToHead,
    dget_dset, dget_dsetdefault, dget_dpop, dget_dkeep, dmem_dset,
    dmem_dsetdefault, dmem_dpop, dmem_dkeep, dsetdefault_of_mem, dkeep_dkeep,
    dkeep_dset_not, resolveLeagueFrom_fix]
  repeat' split
  all_goals simp_all [dget_dset, dget_dsetdefault, dget_dpop, dget_dkeep, dmem_dset,
    dmem_dsetdefault, dmem_dpop, dmem_dkeep, dsetdefault_of_mem, dkeep_dkeep,
    dkeep_dset_not, resolveLeagueFrom_fix, defaultEntryId_opt_truthy,
    defaultEntryName_opt_truthy, dset_dset_self, dset_reset]

set_option maxRecDepth 8000 in
set_option maxHeartbeats 1000000 in
theorem applyDefaults_idem_wr (cfg : Settings) (s : Session) (args : Dict) :
    applyDefaults cfg s "waiver_recommendations" (applyDefaults cfg s "waiver_recommendations" args) =
      applyDefaults cfg s "waiver_recommendations" args := by
  simp [applyDefaults, adFlatten, adEntryDefaults, adLeagueScoped, adIdScoped,
    adFixtures, adFixtureDifficulty, adManagerSchedule, adManagerStreak,
    adLeagueEntries, adPlayerForm, adCurrentRoster, adDraftPicks, adManagerSeason,
    adTransactionAnalysis, adPlayerGwStats, adHeadToHead,
    dget_dset, dget_dsetdefault, dget_dpop, dget_dkeep, dmem_dset,
    dmem_dsetdefault, dmem_dpop, dmem_dkeep, dsetdefault_of_mem, dkeep_dkeep,
    dkeep_dset_not, resolveLeagueFrom_fix]
  repeat' split
  all_goals simp_all [dget_dset, dget_dsetdefault, dget_dpop, dget_dkeep, dmem_dset,
    dmem_dsetdefault, dmem_dpop, dmem_dkeep, dsetdefault_of_mem, dkeep_dkeep,
    dkeep_dset_not, resolveLeagueFrom_fix, defaultEntryId_opt_truthy,
    defaultEntryName_opt_truthy, dset_dset_self, dset_reset]

set_option maxRecDepth 8000 in
set_option maxHeartbeats 1000000 in
theorem applyDefaults_idem_h2h (cfg : Settings) (s : Session) (args : Dict) :
    applyDefaults cfg s "head_to_head" (applyDefaults cfg s "head_to_head" args) =
      applyDefaults cfg s "head_to_head" args := by
  simp [applyDefaults, adFlatten, adEntryDefaults, adLeagueScoped, adIdScoped,
    adFixtures, adFixtureDifficulty, adManagerSchedule, adManagerStreak,
    adLeagueEntries, adPlayerForm, adCurrentRoster, adDraftPicks, adManagerSeason,
    adTransactionAnalysis, adPlayerGwStats, adHeadToHead,
    dget_dset, dget_dsetdefault, dget_dpop, dget_dkeep, dmem_dset,
    dmem_dsetdefault, dmem_dpop, dmem_dkeep, dsetdefault_of_mem, dkeep_dkeep,
    dkeep_dset_not, resolveLeagueFrom_fix]
  repeat' split
  all_goals simp_all [dget_dset, dget_dsetdefault, dget_dpop, dget_dkeep, dmem_dset,
    dmem_dsetdefault, dmem_dpop, dmem_dkeep, dsetdefault_of_mem, dkeep_dkeep,
    dkeep_dset_not, resolveLeagueFrom_fix, defaultEntryId_opt_truthy,
    defaultEntryName_opt_truthy, dset_dset_self, dset_reset]

set_option maxRecDepth 8000 in
theorem applyDefaults_idem_mstk (cfg : Settings) (s : Session) (args : Dict) :
    applyDefaults cfg s "manager_streak" (applyDefaults cfg s "manager_streak" args) =
      applyDefaults cfg s "manager_streak" args := by
  have hred : ∀ d : Dict, applyDefaults cfg s "manager_streak" d =
      dkeep (dsetdefault (adEntryDefaults s "manager_streak" d) "league_id"
        (.vInt (resolveLeagueFrom cfg s (dget d "league_id"))))
        ["league_id", "entry_id", "entry_name", "start_gw", "end_gw"] := by
    intro d
    simp [applyDefaults, adFlatten_skip, adLeagueScoped_skip, adFixtures_skip,
      adFixtureDifficulty_skip, adManagerSchedule_skip, adLeagueEntries_skip,
      adPlayerForm_skip, adCurrentRoster_skip, adDraftPicks_skip, adManagerSeason_skip,
      adTransactionAnalysis_skip, adPlayerGwStats_skip, adHeadToHead_skip,
      adIdScoped, adManagerStreak, dsetdefault_of_mem, dmem_dsetdefault]
  rw [hred args, hred]
  set E := adEntryDefaults s "manager_streak" args with hE
  set L := resolveLeagueFrom cfg s (dget args "league_id") with hL
  set out1 := dkeep (dsetdefault E "league_id" (.vInt L))
    ["league_id", "entry_id", "entry_name", "start_gw", "end_gw"] with hout
  have hlidE : dget E "league_id" = dget args "league_id" := by
    rw [hE]
    exact adEntryDefaults_dget_ne s _ args (by decide) (by decide)
  have hlid : dget out1 "league_id" = some ((dget args "league_id").getD (.vInt L)) := by
    rw [hout, dget_dkeep, if_pos (by simp), dget_dsetdefault, if_pos (by simp), hlidE]
  have hL2 : resolveLeagueFrom cfg s (dget out1 "league_id") = L := by
    rw [hlid, hL]
    exact resolveLeagueFrom_getD_fix cfg s (dget args "league_id")
  have hstable : adEntryDefaults s "manager_streak" out1 = out1 := by
    apply adEntryDefaults_stable s _ args
    · rw [hout, dget_dkeep, if_pos (by simp), dget_dsetdefault, if_neg (by simp), hE]
    · rw [hout, dget_dkeep, if_pos (by simp), dget_dsetdefault, if_neg (by simp), hE]
  rw [hL2, hstable]
  rw [dsetdefault_of_mem _ (by rw [hout, dmem_dkeep, dmem_dsetdefault] ; simp)]
  rw [hout, dkeep_dkeep]
set_option maxRecDepth 8000 in
theorem applyDefaults_idem_msea (cfg : Settings) (s : Session) (args : Dict) :
    applyDefaults cfg s "manager_season" (applyDefaults cfg s "manager_season" args) =
      applyDefaults cfg s "manager_season" args := by
  have hred : ∀ d : Dict, applyDefaults cfg s "manager_season" d =
      dkeep (dsetdefault (adEntryDefaults s "manager_season" d) "league_id"
        (.vInt (resolveLeagueFrom cfg s (dget d "league_id"))))
        ["league_id", "entry_id", "entry_name"] := by
    intro d
    simp [applyDefaults, adFlatten_skip, adLeagueScoped_skip, adFixtures_skip,
      adFixtureDifficulty_skip, adManagerSchedule_skip, adLeagueEntries_skip,
      adPlayerForm_skip, adCurrentRoster_skip, adDraftPicks_skip, adManagerStreak_skip,
      adTransactionAnalysis_skip, adPlayerGwStats_skip, adHeadToHead_skip,
      adIdScoped, adManagerSeason, dsetdefault_of_mem, dmem_dsetdefault]
  rw [hred args, hred]
  set E := adEntryDefaults s "manager_season" args with hE
  set L := resolveLeagueFrom cfg s (dget args "league_id") with hL
  set out1 := dkeep (dsetdefault E "league_id" (.vInt L))
    ["league_id", "entry_id", "entry_name"] with hout
  have hlidE : dget E "league_id" = dget args "league_id" := by
    rw [hE]
    exact adEntryDefaults_dget_ne s _ args (by decide) (by decide)
  have hlid : dget out1 "league_id" = some ((dget args "league_id").getD (.vInt L)) := by
    rw [hout, dget_dkeep, if_pos (by simp), dget_dsetdefault, if_pos (by simp), hlidE]
  have hL2 : resolveLeagueFrom cfg s (dget out1 "league_id") = L := by
    rw [hlid, hL]
    exact resolveLeagueFrom_getD_fix cfg s (dget args "league_id")
  have hstable : adEntryDefaults s "manager_season" out1 = out1 := by
    apply adEntryDefaults_stable s _ args
    · rw [hout, dget_dkeep, if_pos (by simp), dget_dsetdefault, if_neg (by simp), hE]
    · rw [hout, dget_dkeep, if_pos (by simp), dget_dsetdefault, if_neg (by simp), hE]
  rw [hL2, hstable]
  rw [dsetdefault_of_mem _ (by rw [hout, dmem_dkeep, dmem_dsetdefault] ; simp)]
  rw [hout, dkeep_dkeep]

set_option maxRecDepth 8000 in
theorem applyDefaults_idem_le (cfg : Settings) (s : Session) (args : Dict) :
    applyDefaults cfg s "league_entries" (applyDefaults cfg s "league_entries" args) =
      applyDefaults cfg s "league_entries" args := by
  have hred : ∀ d : Dict, applyDefaults cfg s "league_entries" d =
      dkeep (dsetdefault (adFlatten "league_entries" d) "league_id"
        (.vInt (resolveLeagueFrom cfg s (dget (adFlatten "league_entries" d) "league_id"))))
        ["league_id"] := by
    intro d
    simp [applyDefaults, adEntryDefaults_skip, adLeagueScoped_skip, adFixtures_skip,
      adFixtureDifficulty_skip, adManagerSchedule_skip, adManagerSeason_skip,
      adPlayerForm_skip, adCurrentRoster_skip, adDraftPicks_skip, adManagerStreak_skip,
      adTransactionAnalysis_skip, adPlayerGwStats_skip, adHeadToHead_skip,
      adIdScoped, adLeagueEntries, dsetdefault_of_mem, dmem_dsetdefault]
  rw [hred args, hred]
  set F := adFlatten "league_entries" args with hF
  set L := resolveLeagueFrom cfg s (dget F "league_id") with hL
  set out1 := dkeep (dsetdefault F "league_id" (.vInt L)) ["league_id"] with hout
  have hflat : adFlatten "league_entries" out1 = out1 := by
    apply adFlatten_stable
    · rw [hout, dget_dkeep, if_neg (by simp)]
    · rw [hout, dget_dkeep, if_neg (by simp)]
    · intro nd
      rw [hout, dget_dkeep, if_neg (by simp)]
      exact Option.noConfusion
  rw [hflat]
  have hlid : dget out1 "league_id" = some ((dget F "league_id").getD (.vInt L)) := by
    rw [hout, dget_dkeep, if_pos (by simp), dget_dsetdefault, if_pos (by simp)]
  have hL2 : resolveLeagueFrom cfg s (dget out1 "league_id") = L := by
    rw [hlid, hL]
    exact resolveLeagueFrom_getD_fix cfg s (dget F "league_id")
  rw [hL2]
  rw [dsetdefault_of_mem _ (by rw [hout, dmem_dkeep, dmem_dsetdefault] ; simp)]
  rw [hout, dkeep_dkeep]

set_option maxRecDepth 8000 in
theorem applyDefaults_idem_ms (cfg : Settings) (s : Session) (args : Dict) :
    applyDefaults cfg s "manager_schedule" (applyDefaults cfg s "manager_schedule" args) =
      applyDefaults cfg s "manager_schedule" args := by
  have hred : ∀ d : Dict, applyDefaults cfg s "manager_schedule" d =
      dkeep (dsetdefault (dsetdefault (adEntryDefaults s "manager_schedule"
          (adFlatten "manager_schedule" d)) "league_id"
          (.vInt (resolveLeagueFrom cfg s (dget (adFlatten "manager_schedule" d) "league_id"))))
        "horizon" (.vInt 1))
        ["league_id", "entry_id", "entry_name", "gw", "horizon"] := by
    intro d
    simp [applyDefaults, adLeagueScoped_skip, adFixtures_skip,
      adFixtureDifficulty_skip, adLeagueEntries_skip, adManagerSeason_skip,
      adPlayerForm_skip, adCurrentRoster_skip, adDraftPicks_skip, adManagerStreak_skip,
      adTransactionAnalysis_skip, adPlayerGwStats_skip, adHeadToHead_skip,
      adIdScoped, adManagerSchedule, dsetdefault_of_mem, dmem_dsetdefault]
  rw [hred args, hred]
  set F := adFlatten "manager_schedule" args with hF
  set E := adEntryDefaults s "manager_schedule" F with hE
  set L := resolveLeagueFrom cfg s (dget F "league_id") with hL
  set out1 := dkeep (dsetdefault (dsetdefault E "league_id" (.vInt L)) "horizon" (.vInt 1))
    ["league_id", "entry_id", "entry_name", "gw", "horizon"] with hout
  have hflat : adFlatten "manager_schedule" out1 = out1 := by
    apply adFlatten_stable
    · rw [hout, dget_dkeep, if_neg (by simp)]
    · rw [hout, dget_dkeep, if_neg (by simp)]
    · intro nd
      rw [hout, dget_dkeep, if_pos (by simp), dget_dsetdefault, if_neg (by simp),
        dget_dsetdefault, if_neg (by simp), hE]
      exact adEntryDefaults_not_dict s _ F (adFlatten_not_dict args (by decide)) nd
  rw [hflat]
  have hlidE : dget E "league_id" = dget F "league_id" := by
    rw [hE]
    exact adEntryDefaults_dget_ne s _ F (by decide) (by decide)
  have hlid : dget out1 "league_id" = some ((dget F "league_id").getD (.vInt L)) := by
    rw [hout, dget_dkeep, if_pos (by simp), dget_dsetdefault, if_neg (by simp),
      dget_dsetdefault, if_pos (by simp), hlidE]
  have hL2 : resolveLeagueFrom cfg s (dget out1 "league_id") = L := by
    rw [hlid, hL]
    exact resolveLeagueFrom_getD_fix cfg s (dget F "league_id")
  have hstable : adEntryDefaults s "manager_schedule" out1 = out1 := by
    apply adEntryDefaults_stable s _ F
    · rw [hout, dget_dkeep, if_pos (by simp), dget_dsetdefault, if_neg (by simp),
        dget_dsetdefault, if_neg (by simp), hE]
    · rw [hout, dget_dkeep, if_pos (by simp), dget_dsetdefault, if_neg (by simp),
        dget_dsetdefault, if_neg (by simp), hE]
  rw [hL2, hstable]
  rw [dsetdefault_of_mem _ (by
    rw [hout]
    simp [dmem_dsetdefault, dmem_dkeep])]
  rw [dsetdefault_of_mem _ (by
    rw [hout]
    simp [dmem_dsetdefault, dmem_dkeep])]
  rw [hout, dkeep_dkeep]

set_option maxRecDepth 8000 in
theorem applyDefaults_idem_cr (cfg : Settings) (s : Session) (args : Dict) :
    applyDefaults cfg s "current_roster" (applyDefaults cfg s "current_roster" args) =
      applyDefaults cfg s "current_roster" args := by
  by_cases hdg : defaultGw s = none
  · have hred : ∀ d : Dict, applyDefaults cfg s "current_roster" d =
        dkeep (dsetdefault (adEntryDefaults s "current_roster" d) "league_id"
          (.vInt (resolveLeagueFrom cfg s (dget d "league_id"))))
          ["league_id", "entry_id", "entry_name", "gw"] := by
      intro d
      simp [applyDefaults, adFlatten_skip, adLeagueScoped_skip, adFixtures_skip,
        adFixtureDifficulty_skip, adManagerSchedule_skip, adLeagueEntries_skip,
        adPlayerForm_skip, adManagerSeason_skip, adDraftPicks_skip, adManagerStreak_skip,
        adTransactionAnalysis_skip, adPlayerGwStats_skip, adHeadToHead_skip,
        adIdScoped, adCurrentRoster, dsetdefault_of_mem, dmem_dsetdefault, hdg]
    rw [hred args, hred]
    set E := adEntryDefaults s "current_roster" args with hE
    set L := resolveLeagueFrom cfg s (dget args "league_id") with hL
    set out1 := dkeep (dsetdefault E "league_id" (.vInt L))
      ["league_id", "entry_id", "entry_name", "gw"] with hout
    have hlidE : dget E "league_id" = dget args "league_id" := by
      rw [hE]
      exact adEntryDefaults_dget_ne s _ args (by decide) (by decide)
    have hlid : dget out1 "league_id" = some ((dget args "league_id").getD (.vInt L)) := by
      rw [hout, dget_dkeep, if_pos (by simp), dget_dsetdefault, if_pos (by simp), hlidE]
    have hL2 : resolveLeagueFrom cfg s (dget out1 "league_id") = L := by
      rw [hlid, hL]
      exact resolveLeagueFrom_getD_fix cfg s (dget args "league_id")
    have hstable : adEntryDefaults s "current_roster" out1 = out1 := by
      apply adEntryDefaults_stable s _ args
      · rw [hout, dget_dkeep, if_pos (by simp), dget_dsetdefault, if_neg (by simp), hE]
      · rw [hout, dget_dkeep, if_pos (by simp), dget_dsetdefault, if_neg (by simp), hE]
    rw [hL2, hstable]
    rw [dsetdefault_of_mem _ (by
      rw [hout]
      simp [dmem_dsetdefault, dmem_dkeep])]
    rw [hout, dkeep_dkeep]
  · obtain ⟨g, hg⟩ : ∃ g, defaultGw s = some g := by
      cases hdgv : defaultGw s with
      | none => exact absurd hdgv hdg
      | some g => exact ⟨g, rfl⟩
    by_cases hgw : dmem args "gw" = true
    · have hred1 : applyDefaults cfg s "current_roster" args =
          dkeep (dsetdefault (adEntryDefaults s "current_roster" args) "league_id"
            (.vInt (resolveLeagueFrom cfg s (dget args "league_id"))))
            ["league_id", "entry_id", "entry_name", "gw"] := by
        simp [applyDefaults, adFlatten_skip, adLeagueScoped_skip, adFixtures_skip,
          adFixtureDifficulty_skip, adManagerSchedule_skip, adLeagueEntries_skip,
          adPlayerForm_skip, adManagerSeason_skip, adDraftPicks_skip, adManagerStreak_skip,
          adTransactionAnalysis_skip, adPlayerGwStats_skip, adHeadToHead_skip,
          adIdScoped, adCurrentRoster, dsetdefault_of_mem, dmem_dsetdefault,
          adEntryDefaults_dmem_ne, hgw]
      rw [hred1]
      set E := adEntryDefaults s "current_roster" args with hE
      set L := resolveLeagueFrom cfg s (dget args "league_id") with hL
      set out1 := dkeep (dsetdefault E "league_id" (.vInt L))
        ["league_id", "entry_id", "entry_name", "gw"] with hout
      have hgw1 : dmem out1 "gw" = true := by
        rw [hout]
        simp [dmem_dkeep, dmem_dsetdefault, hE, adEntryDefaults_dmem_ne, hgw]
      have hred2 : applyDefaults cfg s "current_roster" out1 =
          dkeep (dsetdefault (adEntryDefaults s "current_roster" out1) "league_id"
            (.vInt (resolveLeagueFrom cfg s (dget out1 "league_id"))))
            ["league_id", "entry_id", "entry_name", "gw"] := by
        simp [applyDefaults, adFlatten_skip, adLeagueScoped_skip, adFixtures_skip,
          adFixtureDifficulty_skip, adManagerSchedule_skip, adLeagueEntries_skip,
          adPlayerForm_skip, adManagerSeason_skip, adDraftPicks_skip, adManagerStreak_skip,
          adTransactionAnalysis_skip, adPlayerGwStats_skip, adHeadToHead_skip,
          adIdScoped, adCurrentRoster, dsetdefault_of_mem, dmem_dsetdefault,
          adEntryDefaults_dmem_ne, hgw1]
      rw [hred2]
      have hlidE : dget E "league_id" = dget args "league_id" := by
        rw [hE]
        exact adEntryDefaults_dget_ne s _ args (by decide) (by decide)
      have hlid : dget out1 "league_id" = some ((dget args "league_id").getD (.vInt L)) := by
        rw [hout, dget_dkeep, if_pos (by simp), dget_dsetdefault, if_pos (by simp), hlidE]
      have hL2 : resolveLeagueFrom cfg s (dget out1 "league_id") = L := by
        rw [hlid, hL]
        exact resolveLeagueFrom_getD_fix cfg s (dget args "league_id")
      have hstable : adEntryDefaults s "current_roster" out1 = out1 := by
        apply adEntryDefaults_stable s _ args
        · rw [hout, dget_dkeep, if_pos (by simp), dget_dsetdefault, if_neg (by simp), hE]
        · rw [hout, dget_dkeep, if_pos (by simp), dget_dsetdefault, if_neg (by simp), hE]
      rw [hL2, hstable]
      rw [dsetdefault_of_mem _ (by
        rw [hout]
        simp [dmem_dsetdefault, dmem_dkeep])]
      rw [hout, dkeep_dkeep]
    · have hgwf : dmem args "gw" = false := by simpa using hgw
      have hred1 : applyDefaults cfg s "current_roster" args =
          dkeep (dset (dsetdefault (adEntryDefaults s "current_roster" args) "league_id"
              (.vInt (resolveLeagueFrom cfg s (dget args "league_id")))) "gw" (.vInt g))
            ["league_id", "entry_id", "entry_name", "gw"] := by
        simp [applyDefaults, adFlatten_skip, adLeagueScoped_skip, adFixtures_skip,
          adFixtureDifficulty_skip, adManagerSchedule_skip, adLeagueEntries_skip,
          adPlayerForm_skip, adManagerSeason_skip, adDraftPicks_skip, adManagerStreak_skip,
          adTransactionAnalysis_skip, adPlayerGwStats_skip, adHeadToHead_skip,
          adIdScoped, adCurrentRoster, dsetdefault_of_mem, dmem_dsetdefault,
          adEntryDefaults_dmem_ne, hgwf, hg]
      rw [hred1]
      set E := adEntryDefaults s "current_roster" args with hE
      set L := resolveLeagueFrom cfg s (dget args "league_id") with hL
      set out1 := dkeep (dset (dsetdefault E "league_id" (.vInt L)) "gw" (.vInt g))
        ["league_id", "entry_id", "entry_name", "gw"] with hout
      have hgw1 : dmem out1 "gw" = true := by
        rw [hout]
        simp [dmem_dkeep, dmem_dset]
      have hred2 : applyDefaults cfg s "current_roster" out1 =
          dkeep (dsetdefault (adEntryDefaults s "current_roster" out1) "league_id"
            (.vInt (resolveLeagueFrom cfg s (dget out1 "league_id"))))
            ["league_id", "entry_id", "entry_name", "gw"] := by
        simp [applyDefaults, adFlatten_skip, adLeagueScoped_skip, adFixtures_skip,
          adFixtureDifficulty_skip, adManagerSchedule_skip, adLeagueEntries_skip,
          adPlayerForm_skip, adManagerSeason_skip, adDraftPicks_skip, adManagerStreak_skip,
          adTransactionAnalysis_skip, adPlayerGwStats_skip, adHeadToHead_skip,
          adIdScoped, adCurrentRoster, dsetdefault_of_mem, dmem_dsetdefault,
          adEntryDefaults_dmem_ne, hgw1]
      rw [hred2]
      have hlidE : dget E "league_id" = dget args "league_id" := by
        rw [hE]
        exact adEntryDefaults_dget_ne s _ args (by decide) (by decide)
      have hlid : dget out1 "league_id" = some ((dget args "league_id").getD (.vInt L)) := by
        rw [hout, dget_dkeep, if_pos (by simp), dget_dset, if_neg (by simp),
          dget_dsetdefault, if_pos (by simp), hlidE]
      have hL2 : resolveLeagueFrom cfg s (dget out1 "league_id") = L := by
        rw [hlid, hL]
        exact resolveLeagueFrom_getD_fix cfg s (dget args "league_id")
      have hstable : adEntryDefaults s "current_roster" out1 = out1 := by
        apply adEntryDefaults_stable s _ args
        · rw [hout, dget_dkeep, if_pos (by simp), dget_dset, if_neg (by simp),
            dget_dsetdefault, if_neg (by simp), hE]
        · rw [hout, dget_dkeep, if_pos (by simp), dget_dset, if_neg (by simp),
            dget_dsetdefault, if_neg (by simp), hE]
      rw [hL2, hstable]
      rw [dsetdefault_of_mem _ (by
        rw [hout]
        simp [dmem_dsetdefault, dmem_dset, dmem_dkeep])]
      rw [hout, dkeep_dkeep]

theorem applyDefaults_generic (cfg : Settings) (s : Session) {name : String} (d : Dict)
    (hms : ¬name = "manager_schedule") (hle : ¬name = "league_entries")
    (hwr : ¬name = "waiver_recommendations") (hmstk : ¬name = "manager_streak")
    (hcr : ¬name = "current_roster") (hmsea : ¬name = "manager_season")
    (hh2h : ¬name = "head_to_head") (hls : ¬name = "league_summary")
    (hmb : ¬name = "matchup_breakdown") (hstd : ¬name = "standings")
    (htrx : ¬name = "transactions") (hlef : ¬name = "lineup_efficiency")
    (hsos : ¬name = "strength_of_schedule") (hosc : ¬name = "ownership_scarcity")
    (hta : ¬name = "transaction_analysis") (hfx : ¬name = "fixtures")
    (hfd : ¬name = "fixture_difficulty") (hpf : ¬name = "player_form")
    (hdp : ¬name = "draft_picks") (hpgs : ¬name = "player_gw_stats") :
    applyDefaults cfg s name d = d := by
  simp only [applyDefaults]
  rw [adFlatten_skip d (by simp [hms, hle])]
  rw [adEntryDefaults_skip s d (by simp [hwr, hms, hmstk, hcr, hmsea, hh2h])]
  rw [adLeagueScoped_skip s _ d
    (by simp [hls, hmb, hstd, htrx, hlef, hsos, hosc, hta])]
  rw [adIdScoped_skip _ d
    (by simp [hle, hms, hmstk, hcr, hdp, hmsea, hh2h, hta])]
  rw [adFixtures_skip _ d (by simp [hfx])]
  rw [adFixtureDifficulty_skip _ d (by simp [hfd])]
  rw [adManagerSchedule_skip _ d (by simp [hms])]
  rw [adManagerStreak_skip _ d (by simp [hmstk])]
  rw [adLeagueEntries_skip _ d (by simp [hle])]
  rw [adPlayerForm_skip _ d (by simp [hpf])]
  rw [adCurrentRoster_skip s _ d (by simp [hcr])]
  rw [adDraftPicks_skip _ d (by simp [hdp])]
  rw [adManagerSeason_skip _ d (by simp [hmsea])]
  rw [adTransactionAnalysis_skip _ d (by simp [hta])]
  rw [adPlayerGwStats_skip d (by simp [hpgs])]
  rw [adHeadToHead_skip _ d (by simp [hh2h])]

theorem applyDefaults_idem (cfg : Settings) (s : Session) (name : String) (args : Dict) :
    applyDefaults cfg s name (applyDefaults cfg s name args) =
      applyDefaults cfg s name args := by
  by_cases hms : name = "manager_schedule"
  · subst hms
    exact applyDefaults_idem_ms cfg s args
  by_cases hle : name = "league_entries"
  · subst hle
    exact applyDefaults_idem_le cfg s args
  by_cases hwr : name = "waiver_recommendations"
  · subst hwr
    exact applyDefaults_idem_wr cfg s args
  by_cases hmstk : name = "manager_streak"
  · subst hmstk
    exact applyDefaults_idem_mstk cfg s args
  by_cases hcr : name = "current_roster"
  · subst hcr
    exact applyDefaults_idem_cr cfg s args
  by_cases hmsea : name = "manager_season"
  · subst hmsea
    exact applyDefaults_idem_msea cfg s args
  by_cases hh2h : name = "head_to_head"
  · subst hh2h
    exact applyDefaults_idem_h2h cfg s args
  by_cases hls : name = "league_summary"
  · subst hls
    exact applyDefaults_idem_ls cfg s args
  by_cases hmb : name = "matchup_breakdown"
  · subst hmb
    exact applyDefaults_idem_mb cfg s args
  by_cases hstd : name = "standings"
  · subst hstd
    exact applyDefaults_idem_std cfg s args
  by_cases htrx : name = "transactions"
  · subst htrx
    exact applyDefaults_idem_trx cfg s args
  by_cases hlef : name = "lineup_efficiency"
  · subst hlef
    exact applyDefaults_idem_lef cfg s args
  by_cases hsos : name = "strength_of_schedule"
  · subst hsos
    exact applyDefaults_idem_sos cfg s args
  by_cases hosc : name = "ownership_scarcity"
  · subst hosc
    exact applyDefaults_idem_osc cfg s args
  by_cases hta : name = "transaction_analysis"
  · subst hta
    exact applyDefaults_idem_ta cfg s args
  by_cases hfx : name = "fixtures"
  · subst hfx
    exact applyDefaults_idem_fx cfg s args
  by_cases hfd : name = "fixture_difficulty"
  · subst hfd
    exact applyDefaults_idem_fd cfg s args
  by_cases hpf : name = "player_form"
  · subst hpf
    exact applyDefaults_idem_pf cfg s args
  by_cases hdp : name = "draft_picks"
  · subst hdp
    exact applyDefaults_idem_dp cfg s args
  by_cases hpgs : name = "player_gw_stats"
  · subst hpgs
    exact applyDefaults_idem_pgs cfg s args
  rw [applyDefaults_generic cfg s args hms hle hwr hmstk hcr hmsea hh2h hls hmb hstd
    htrx hlef hsos hosc hta hfx hfd hpf hdp hpgs]
  exact applyDefaults_generic cfg s args hms hle hwr hmstk hcr hmsea hh2h hls hmb hstd
    htrx hlef hsos hosc hta hfx hfd hpf hdp hpgs


/-! ## league_id preservation in the Argument Defaulting Engine (C9) -/

set_option maxRecDepth 8000 in
set_option maxHeartbeats 1000000 in
theorem applyDefaults_lid_ms (cfg : Settings) (s : Session) (args : Dict) (v : Value)
    (hv : dget args "league_id" = some v) :
    dget (applyDefaults cfg s "manager_schedule" args) "league_id" = some v := by
  have hm : dmem args "league_id" = true := by
    rw [dmem_eq_isSome, hv]
    rfl
  simp [applyDefaults, adLeagueScoped, adIdScoped, adFixtures, adFixtureDifficulty,
    adManagerSchedule, adManagerStreak, adLeagueEntries, adPlayerForm, adCurrentRoster,
    adDraftPicks, adManagerSeason, adTransactionAnalysis, adPlayerGwStats, adHeadToHead,
    adFlatten_skip, adFlatten_dget_ne, adEntryDefaults_skip, adEntryDefaults_dget_ne,
    dget_dset, dget_dsetdefault, dget_dpop, dget_dkeep, dmem_dset,
    dmem_dsetdefault, dmem_dpop, dmem_dkeep, dsetdefault_of_mem, dkeep_dkeep, hv, hm]
  repeat' split
  all_goals simp_all [adFlatten_skip, adFlatten_dget_ne, adEntryDefaults_skip,
    adEntryDefaults_dget_ne, dget_dset, dget_dsetdefault, dget_dpop, dget_dkeep,
    dmem_dset, dmem_dsetdefault, dmem_dpop, dmem_dkeep, dsetdefault_of_mem,
    dkeep_dkeep, hv, hm]

set_option maxRecDepth 8000 in
set_option maxHeartbeats 1000000 in
theorem applyDefaults_lid_le (cfg : Settings) (s : Session) (args : Dict) (v : Value)
    (hv : dget args "league_id" = some v) :
    dget (applyDefaults cfg s "league_entries" args) "league_id" = some v := by
  have hm : dmem args "league_id" = true := by
    rw [dmem_eq_isSome, hv]
    rfl
  simp [applyDefaults, adLeagueScoped, adIdScoped, adFixtures, adFixtureDifficulty,
    adManagerSchedule, adManagerStreak, adLeagueEntries, adPlayerForm, adCurrentRoster,
    adDraftPicks, adManagerSeason, adTransactionAnalysis, adPlayerGwStats, adHeadToHead,
    adFlatten_skip, adFlatten_dget_ne, adEntryDefaults_skip, adEntryDefaults_dget_ne,
    dget_dset, dget_dsetdefault, dget_dpop, dget_dkeep, dmem_dset,
    dmem_dsetdefault, dmem_dpop, dmem_dkeep, dsetdefault_of_mem, dkeep_dkeep, hv, hm]
  repeat' split
  all_goals simp_all [adFlatten_skip, adFlatten_dget_ne, adEntryDefaults_skip,
    adEntryDefaults_dget_ne, dget_dset, dget_dsetdefault, dget_dpop, dget_dkeep,
    dmem_dset, dmem_dsetdefault, dmem_dpop, dmem_dkeep, dsetdefault_of_mem,
    dkeep_dkeep, hv, hm]

set_option maxRecDepth 8000 in
set_option maxHeartbeats 1000000 in
theorem applyDefaults_lid_wr (cfg : Settings) (s : Session) (args : Dict) (v : Value)
    (hv : dget args "league_id" = some v) :
    dget (applyDefaults cfg s "waiver_recommendations" args) "league_id" = some v := by
  have hm : dmem args "league_id" = true := by
    rw [dmem_eq_isSome, hv]
    rfl
  simp [applyDefaults, adLeagueScoped, adIdScoped, adFixtures, adFixtureDifficulty,
    adManagerSchedule, adManagerStreak, adLeagueEntries, adPlayerForm, adCurrentRoster,
    adDraftPicks, adManagerSeason, adTransactionAnalysis, adPlayerGwStats, adHeadToHead,
    adFlatten_skip, adFlatten_dget_ne, adEntryDefaults_skip, adEntryDefaults_dget_ne,
    dget_dset, dget_dsetdefault, dget_dpop, dget_dkeep, dmem_dset,
    dmem_dsetdefault, dmem_dpop, dmem_dkeep, dsetdefault_of_mem, dkeep_dkeep, hv, hm]
  repeat' split
  all_goals simp_all [adFlatten_skip, adFlatten_dget_ne, adEntryDefaults_skip,
    adEntryDefaults_dget_ne, dget_dset, dget_dsetdefault, dget_dpop, dget_dkeep,
    dmem_dset, dmem_dsetdefault, dmem_dpop, dmem_dkeep, dsetdefault_of_mem,
    dkeep_dkeep, hv, hm]

set_option maxRecDepth 8000 in
set_option maxHeartbeats 1000000 in
theorem applyDefaults_lid_mstk (cfg : Settings) (s : Session) (args : Dict) (v : Value)
    (hv : dget args "league_id" = some v) :
    dget (applyDefaults cfg s "manager_streak" args) "league_id" = some v := by
  have hm : dmem args "league_id" = true := by
    rw [dmem_eq_isSome, hv]
    rfl
  simp [applyDefaults, adLeagueScoped, adIdScoped, adFixtures, adFixtureDifficulty,
    adManagerSchedule, adManagerStreak, adLeagueEntries, adPlayerForm, adCurrentRoster,
    adDraftPicks, adManagerSeason, adTransactionAnalysis, adPlayerGwStats, adHeadToHead,
    adFlatten_skip, adFlatten_dget_ne, adEntryDefaults_skip, adEntryDefaults_dget_ne,
    dget_dset, dget_dsetdefault, dget_dpop, dget_dkeep, dmem_dset,
    dmem_dsetdefault, dmem_dpop, dmem_dkeep, dsetdefault_of_mem, dkeep_dkeep, hv, hm]
  repeat' split
  all_goals simp_all [adFlatten_skip, adFlatten_dget_ne, adEntryDefaults_skip,
    adEntryDefaults_dget_ne, dget_dset, dget_dsetdefault, dget_dpop, dget_dkeep,
    dmem_dset, dmem_dsetdefault, dmem_dpop, dmem_dkeep, dsetdefault_of_mem,
    dkeep_dkeep, hv, hm]

set_option maxRecDepth 8000 in
set_option maxHeartbeats 1000000 in
theorem applyDefaults_lid_cr (cfg : Settings) (s : Session) (args : Dict) (v : Value)
    (hv : dget args "league_id" = some v) :
    dget (applyDefaults cfg s "current_roster" args) "league_id" = some v := by
  have hm : dmem args "league_id" = true := by
    rw [dmem_eq_isSome, hv]
    rfl
  simp [applyDefaults, adLeagueScoped, adIdScoped, adFixtures, adFixtureDifficulty,
    adManagerSchedule, adManagerStreak, adLeagueEntries, adPlayerForm, adCurrentRoster,
    adDraftPicks, adManagerSeason, adTransactionAnalysis, adPlayerGwStats, adHeadToHead,
    adFlatten_skip, adFlatten_dget_ne, adEntryDefaults_skip, adEntryDefaults_dget_ne,
    dget_dset, dget_dsetdefault, dget_dpop, dget_dkeep, dmem_dset,
    dmem_dsetdefault, dmem_dpop, dmem_dkeep, dsetdefault_of_mem, dkeep_dkeep, hv, hm]
  repeat' split
  all_goals simp_all [adFlatten_skip, adFlatten_dget_ne, adEntryDefaults_skip,
    adEntryDefaults_dget_ne, dget_dset, dget_dsetdefault, dget_dpop, dget_dkeep,
    dmem_dset, dmem_dsetdefault, dmem_dpop, dmem_dkeep, dsetdefault_of_mem,
    dkeep_dkeep, hv, hm]

set_option maxRecDepth 8000 in
set_option maxHeartbeats 1000000 in
theorem applyDefaults_lid_msea (cfg : Settings) (s : Session) (args : Dict) (v : Value)
    (hv : dget args "league_id" = some v) :
    dget (applyDefaults cfg s "manager_season" args) "league_id" = some v := by
  have hm : dmem args "league_id" = true := by
    rw [dmem_eq_isSome, hv]
    rfl
  simp [applyDefaults, adLeagueScoped, adIdScoped, adFixtures, adFixtureDifficulty,
    adManagerSchedule, adManagerStreak, adLeagueEntries, adPlayerForm, adCurrentRoster,
    adDraftPicks, adManagerSeason, adTransactionAnalysis, adPlayerGwStats, adHeadToHead,
    adFlatten_skip, adFlatten_dget_ne, adEntryDefaults_skip, adEntryDefaults_dget_ne,
    dget_dset, dget_dsetdefault, dget_dpop, dget_dkeep, dmem_dset,
    dmem_dsetdefault, dmem_dpop, dmem_dkeep, dsetdefault_of_mem, dkeep_dkeep, hv, hm]
  repeat' split
  all_goals simp_all [adFlatten_skip, adFlatten_dget_ne, adEntryDefaults_skip,
    adEntryDefaults_dget_ne, dget_dset, dget_dsetdefault, dget_dpop, dget_dkeep,
    dmem_dset, dmem_dsetdefault, dmem_dpop, dmem_dkeep, dsetdefault_of_mem,
    dkeep_dkeep, hv, hm]

set_option maxRecDepth 8000 in
set_option maxHeartbeats 1000000 in
theorem applyDefaults_lid_h2h (cfg : Settings) (s : Session) (args : Dict) (v : Value)
    (hv : dget args "league_id" = some v) :
    dget (applyDefaults cfg s "head_to_head" args) "league_id" = some v := by
  have hm : dmem args "league_id" = true := by
    rw [dmem_eq_isSome, hv]
    rfl
  simp [applyDefaults, adLeagueScoped, adIdScoped, adFixtures, adFixtureDifficulty,
    adManagerSchedule, adManagerStreak, adLeagueEntries, adPlayerForm, adCurrentRoster,
    adDraftPicks, adManagerSeason, adTransactionAnalysis, adPlayerGwStats, adHeadToHead,
    adFlatten_skip, adFlatten_dget_ne, adEntryDefaults_skip, adEntryDefaults_dget_ne,
    dget_dset, dget_dsetdefault, dget_dpop, dget_dkeep, dmem_dset,
    dmem_dsetdefault, dmem_dpop, dmem_dkeep, dsetdefault_of_mem, dkeep_dkeep, hv, hm]
  repeat' split
  all_goals simp_all [adFlatten_skip, adFlatten_dget_ne, adEntryDefaults_skip,
    adEntryDefaults_dget_ne, dget_dset, dget_dsetdefault, dget_dpop, dget_dkeep,
    dmem_dset, dmem_dsetdefault, dmem_dpop, dmem_dkeep, dsetdefault_of_mem,
    dkeep_dkeep, hv, hm]

set_option maxRecDepth 8000 in
set_option maxHeartbeats 1000000 in
theorem applyDefaults_lid_ls (cfg : Settings) (s : Session) (args : Dict) (v : Value)
    (hv : dget args "league_id" = some v) :
    dget (applyDefaults cfg s "league_summary" args) "league_id" = some v := by
  have hm : dmem args "league_id" = true := by
    rw [dmem_eq_isSome, hv]
    rfl
  simp [applyDefaults, adLeagueScoped, adIdScoped, adFixtures, adFixtureDifficulty,
    adManagerSchedule, adManagerStreak, adLeagueEntries, adPlayerForm, adCurrentRoster,
    adDraftPicks, adManagerSeason, adTransactionAnalysis, adPlayerGwStats, adHeadToHead,
    adFlatten_skip, adFlatten_dget_ne, adEntryDefaults_skip, adEntryDefaults_dget_ne,
    dget_dset, dget_dsetdefault, dget_dpop, dget_dkeep, dmem_dset,
    dmem_dsetdefault, dmem_dpop, dmem_dkeep, dsetdefault_of_mem, dkeep_dkeep, hv, hm]
  repeat' split
  all_goals simp_all [adFlatten_skip, adFlatten_dget_ne, adEntryDefaults_skip,
    adEntryDefaults_dget_ne, dget_dset, dget_dsetdefault, dget_dpop, dget_dkeep,
    dmem_dset, dmem_dsetdefault, dmem_dpop, dmem_dkeep, dsetdefault_of_mem,
    dkeep_dkeep, hv, hm]

set_option maxRecDepth 8000 in
set_option maxHeartbeats 1000000 in
theorem applyDefaults_lid_mb (cfg : Settings) (s : Session) (args : Dict) (v : Value)
    (hv : dget args "league_id" = some v) :
    dget (applyDefaults cfg s "matchup_breakdown" args) "league_id" = some v := by
  have hm : dmem args "league_id" = true := by
    rw [dmem_eq_isSome, hv]
    rfl
  simp [applyDefaults, adLeagueScoped, adIdScoped, adFixtures, adFixtureDifficulty,
    adManagerSchedule, adManagerStreak, adLeagueEntries, adPlayerForm, adCurrentRoster,
    adDraftPicks, adManagerSeason, adTransactionAnalysis, adPlayerGwStats, adHeadToHead,
    adFlatten_skip, adFlatten_dget_ne, adEntryDefaults_skip, adEntryDefaults_dget_ne,
    dget_dset, dget_dsetdefault, dget_dpop, dget_dkeep, dmem_dset,
    dmem_dsetdefault, dmem_dpop, dmem_dkeep, dsetdefault_of_mem, dkeep_dkeep, hv, hm]
  repeat' split
  all_goals simp_all [adFlatten_skip, adFlatten_dget_ne, adEntryDefaults_skip,
    adEntryDefaults_dget_ne, dget_dset, dget_dsetdefault, dget_dpop, dget_dkeep,
    dmem_dset, dmem_dsetdefault, dmem_dpop, dmem_dkeep, dsetdefault_of_mem,
    dkeep_dkeep, hv, hm]

set_option maxRecDepth 8000 in
set_option maxHeartbeats 1000000 in
theorem applyDefaults_lid_std (cfg : Settings) (s : Session) (args : Dict) (v : Value)
    (hv : dget args "league_id" = some v) :
    dget (applyDefaults cfg s "standings" args) "league_id" = some v := by
  have hm : dmem args "league_id" = true := by
    rw [dmem_eq_isSome, hv]
    rfl
  simp [applyDefaults, adLeagueScoped, adIdScoped, adFixtures, adFixtureDifficulty,
    adManagerSchedule, adManagerStreak, adLeagueEntries, adPlayerForm, adCurrentRoster,
    adDraftPicks, adManagerSeason, adTransactionAnalysis, adPlayerGwStats, adHeadToHead,
    adFlatten_skip, adFlatten_dget_ne, adEntryDefaults_skip, adEntryDefaults_dget_ne,
    dget_dset, dget_dsetdefault, dget_dpop, dget_dkeep, dmem_dset,
    dmem_dsetdefault, dmem_dpop, dmem_dkeep, dsetdefault_of_mem, dkeep_dkeep, hv, hm]
  repeat' split
  all_goals simp_all [adFlatten_skip, adFlatten_dget_ne, adEntryDefaults_skip,
    adEntryDefaults_dget_ne, dget_dset, dget_dsetdefault, dget_dpop, dget_dkeep,
    dmem_dset, dmem_dsetdefault, dmem_dpop, dmem_dkeep, dsetdefault_of_mem,
    dkeep_dkeep, hv, hm]

set_option maxRecDepth 8000 in
set_option maxHeartbeats 1000000 in
theorem applyDefaults_lid_trx (cfg : Settings) (s : Session) (args : Dict) (v : Value)
    (hv : dget args "league_id" = some v) :
    dget (applyDefaults cfg s "transactions" args) "league_id" = some v := by
  have hm : dmem args "league_id" = true := by
    rw [dmem_eq_isSome, hv]
    rfl
  simp [applyDefaults, adLeagueScoped, adIdScoped, adFixtures, adFixtureDifficulty,
    adManagerSchedule, adManagerStreak, adLeagueEntries, adPlayerForm, adCurrentRoster,
    adDraftPicks, adManagerSeason, adTransactionAnalysis, adPlayerGwStats, adHeadToHead,
    adFlatten_skip, adFlatten_dget_ne, adEntryDefaults_skip, adEntryDefaults_dget_ne,
    dget_dset, dget_dsetdefault, dget_dpop, dget_dkeep, dmem_dset,
    dmem_dsetdefault, dmem_dpop, dmem_dkeep, dsetdefault_of_mem, dkeep_dkeep, hv, hm]
  repeat' split
  all_goals simp_all [adFlatten_skip, adFlatten_dget_ne, adEntryDefaults_skip,
    adEntryDefaults_dget_ne, dget_dset, dget_dsetdefault, dget_dpop, dget_dkeep,
    dmem_dset, dmem_dsetdefault, dmem_dpop, dmem_dkeep, dsetdefault_of_mem,
    dkeep_dkeep, hv, hm]

set_option maxRecDepth 8000 in
set_option maxHeartbeats 1000000 in
theorem applyDefaults_lid_lef (cfg : Settings) (s : Session) (args : Dict) (v : Value)
    (hv : dget args "league_id" = some v) :
    dget (applyDefaults cfg s "lineup_efficiency" args) "league_id" = some v := by
  have hm : dmem args "league_id" = true := by
    rw [dmem_eq_isSome, hv]
    rfl
  simp [applyDefaults, adLeagueScoped, adIdScoped, adFixtures, adFixtureDifficulty,
    adManagerSchedule, adManagerStreak, adLeagueEntries, adPlayerForm, adCurrentRoster,
    adDraftPicks, adManagerSeason, adTransactionAnalysis, adPlayerGwStats, adHeadToHead,
    adFlatten_skip, adFlatten_dget_ne, adEntryDefaults_skip, adEntryDefaults_dget_ne,
    dget_dset, dget_dsetdefault, dget_dpop, dget_dkeep, dmem_dset,
    dmem_dsetdefault, dmem_dpop, dmem_dkeep, dsetdefault_of_mem, dkeep_dkeep, hv, hm]
  repeat' split
  all_goals simp_all [adFlatten_skip, adFlatten_dget_ne, adEntryDefaults_skip,
    adEntryDefaults_dget_ne, dget_dset, dget_dsetdefault, dget_dpop, dget_dkeep,
    dmem_dset, dmem_dsetdefault, dmem_dpop, dmem_dkeep, dsetdefault_of_mem,
    dkeep_dkeep, hv, hm]

set_option maxRecDepth 8000 in
set_option maxHeartbeats 1000000 in
theorem applyDefaults_lid_sos (cfg : Settings) (s : Session) (args : Dict) (v : Value)
    (hv : dget args "league_id" = some v) :
    dget (applyDefaults cfg s "strength_of_schedule" args) "league_id" = some v := by
  have hm : dmem args "league_id" = true := by
    rw [dmem_eq_isSome, hv]
    rfl
  simp [applyDefaults, adLeagueScoped, adIdScoped, adFixtures, adFixtureDifficulty,
    adManagerSchedule, adManagerStreak, adLeagueEntries, adPlayerForm, adCurrentRoster,
    adDraftPicks, adManagerSeason, adTransactionAnalysis, adPlayerGwStats, adHeadToHead,
    adFlatten_skip, adFlatten_dget_ne, adEntryDefaults_skip, adEntryDefaults_dget_ne,
    dget_dset, dget_dsetdefault, dget_dpop, dget_dkeep, dmem_dset,
    dmem_dsetdefault, dmem_dpop, dmem_dkeep, dsetdefault_of_mem, dkeep_dkeep, hv, hm]
  repeat' split
  all_goals simp_all [adFlatten_skip, adFlatten_dget_ne, adEntryDefaults_skip,
    adEntryDefaults_dget_ne, dget_dset, dget_dsetdefault, dget_dpop, dget_dkeep,
    dmem_dset, dmem_dsetdefault, dmem_dpop, dmem_dkeep, dsetdefault_of_mem,
    dkeep_dkeep, hv, hm]

set_option maxRecDepth 8000 in
set_option maxHeartbeats 1000000 in
theorem applyDefaults_lid_osc (cfg : Settings) (s : Session) (args : Dict) (v : Value)
    (hv : dget args "league_id" = some v) :
    dget (applyDefaults cfg s "ownership_scarcity" args) "league_id" = some v := by
  have hm : dmem args "league_id" = true := by
    rw [dmem_eq_isSome, hv]
    rfl
  simp [applyDefaults, adLeagueScoped, adIdScoped, adFixtures, adFixtureDifficulty,
    adManagerSchedule, adManagerStreak, adLeagueEntries, adPlayerForm, adCurrentRoster,
    adDraftPicks, adManagerSeason, adTransactionAnalysis, adPlayerGwStats, adHeadToHead,
    adFlatten_skip, adFlatten_dget_ne, adEntryDefaults_skip, adEntryDefaults_dget_ne,
    dget_dset, dget_dsetdefault, dget_dpop, dget_dkeep, dmem_dset,
    dmem_dsetdefault, dmem_dpop, dmem_dkeep, dsetdefault_of_mem, dkeep_dkeep, hv, hm]
  repeat' split
  all_goals simp_all [adFlatten_skip, adFlatten_dget_ne, adEntryDefaults_skip,
    adEntryDefaults_dget_ne, dget_dset, dget_dsetdefault, dget_dpop, dget_dkeep,
    dmem_dset, dmem_dsetdefault, dmem_dpop, dmem_dkeep, dsetdefault_of_mem,
    dkeep_dkeep, hv, hm]

set_option maxRecDepth 8000 in
set_option maxHeartbeats 1000000 in
theorem applyDefaults_lid_ta (cfg : Settings) (s : Session) (args : Dict) (v : Value)
    (hv : dget args "league_id" = some v) :
    dget (applyDefaults cfg s "transaction_analysis" args) "league_id" = some v := by
  have hm : dmem args "league_id" = true := by
    rw [dmem_eq_isSome, hv]
    rfl
  simp [applyDefaults, adLeagueScoped, adIdScoped, adFixtures, adFixtureDifficulty,
    adManagerSchedule, adManagerStreak, adLeagueEntries, adPlayerForm, adCurrentRoster,
    adDraftPicks, adManagerSeason, adTransactionAnalysis, adPlayerGwStats, adHeadToHead,
    adFlatten_skip, adFlatten_dget_ne, adEntryDefaults_skip, adEntryDefaults_dget_ne,
    dget_dset, dget_dsetdefault, dget_dpop, dget_dkeep, dmem_dset,
    dmem_dsetdefault, dmem_dpop, dmem_dkeep, dsetdefault_of_mem, dkeep_dkeep, hv, hm]
  repeat' split
  all_goals simp_all [adFlatten_skip, adFlatten_dget_ne, adEntryDefaults_skip,
    adEntryDefaults_dget_ne, dget_dset, dget_dsetdefault, dget_dpop, dget_dkeep,
    dmem_dset, dmem_dsetdefault, dmem_dpop, dmem_dkeep, dsetdefault_of_mem,
    dkeep_dkeep, hv, hm]

set_option maxRecDepth 8000 in
set_option maxHeartbeats 1000000 in
theorem applyDefaults_lid_fx (cfg : Settings) (s : Session) (args : Dict) (v : Value)
    (hv : dget args "league_id" = some v) :
    dget (applyDefaults cfg s "fixtures" args) "league_id" = some v := by
  have hm : dmem args "league_id" = true := by
    rw [dmem_eq_isSome, hv]
    rfl
  simp [applyDefaults, adLeagueScoped, adIdScoped, adFixtures, adFixtureDifficulty,
    adManagerSchedule, adManagerStreak, adLeagueEntries, adPlayerForm, adCurrentRoster,
    adDraftPicks, adManagerSeason, adTransactionAnalysis, adPlayerGwStats, adHeadToHead,
    adFlatten_skip, adFlatten_dget_ne, adEntryDefaults_skip, adEntryDefaults_dget_ne,
    dget_dset, dget_dsetdefault, dget_dpop, dget_dkeep, dmem_dset,
    dmem_dsetdefault, dmem_dpop, dmem_dkeep, dsetdefault_of_mem, dkeep_dkeep, hv, hm]
  repeat' split
  all_goals simp_all [adFlatten_skip, adFlatten_dget_ne, adEntryDefaults_skip,
    adEntryDefaults_dget_ne, dget_dset, dget_dsetdefault, dget_dpop, dget_dkeep,
    dmem_dset, dmem_dsetdefault, dmem_dpop, dmem_dkeep, dsetdefault_of_mem,
    dkeep_dkeep, hv, hm]

set_option maxRecDepth 8000 in
set_option maxHeartbeats 1000000 in
theorem applyDefaults_lid_fd (cfg : Settings) (s : Session) (args : Dict) (v : Value)
    (hv : dget args "league_id" = some v) :
    dget (applyDefaults cfg s "fixture_difficulty" args) "league_id" = some v := by
  have hm : dmem args "league_id" = true := by
    rw [dmem_eq_isSome, hv]
    rfl
  simp [applyDefaults, adLeagueScoped, adIdScoped, adFixtures, adFixtureDifficulty,
    adManagerSchedule, adManagerStreak, adLeagueEntries, adPlayerForm, adCurrentRoster,
    adDraftPicks, adManagerSeason, adTransactionAnalysis, adPlayerGwStats, adHeadToHead,
    adFlatten_skip, adFlatten_dget_ne, adEntryDefaults_skip, adEntryDefaults_dget_ne,
    dget_dset, dget_dsetdefault, dget_dpop, dget_dkeep, dmem_dset,
    dmem_dsetdefault, dmem_dpop, dmem_dkeep, dsetdefault_of_mem, dkeep_dkeep, hv, hm]
  repeat' split
  all_goals simp_all [adFlatten_skip, adFlatten_dget_ne, adEntryDefaults_skip,
    adEntryDefaults_dget_ne, dget_dset, dget_dsetdefault, dget_dpop, dget_dkeep,
    dmem_dset, dmem_dsetdefault, dmem_dpop, dmem_dkeep, dsetdefault_of_mem,
    dkeep_dkeep, hv, hm]

set_option maxRecDepth 8000 in
set_option maxHeartbeats 1000000 in
theorem applyDefaults_lid_pf (cfg : Settings) (s : Session) (args : Dict) (v : Value)
    (hv : dget args "league_id" = some v) :
    dget (applyDefaults cfg s "player_form" args) "league_id" = some v := by
  have hm : dmem args "league_id" = true := by
    rw [dmem_eq_isSome, hv]
    rfl
  simp [applyDefaults, adLeagueScoped, adIdScoped, adFixtures, adFixtureDifficulty,
    adManagerSchedule, adManagerStreak, adLeagueEntries, adPlayerForm, adCurrentRoster,
    adDraftPicks, adManagerSeason, adTransactionAnalysis, adPlayerGwStats, adHeadToHead,
    adFlatten_skip, adFlatten_dget_ne, adEntryDefaults_skip, adEntryDefaults_dget_ne,
    dget_dset, dget_dsetdefault, dget_dpop, dget_dkeep, dmem_dset,
    dmem_dsetdefault, dmem_dpop, dmem_dkeep, dsetdefault_of_mem, dkeep_dkeep, hv, hm]
  repeat' split
  all_goals simp_all [adFlatten_skip, adFlatten_dget_ne, adEntryDefaults_skip,
    adEntryDefaults_dget_ne, dget_dset, dget_dsetdefault, dget_dpop, dget_dkeep,
    dmem_dset, dmem_dsetdefault, dmem_dpop, dmem_dkeep, dsetdefault_of_mem,
    dkeep_dkeep, hv, hm]

set_option maxRecDepth 8000 in
set_option maxHeartbeats 1000000 in
theorem applyDefaults_lid_dp (cfg : Settings) (s : Session) (args : Dict) (v : Value)
    (hv : dget args "league_id" = some v) :
    dget (applyDefaults cfg s "draft_picks" args) "league_id" = some v := by
  have hm : dmem args "league_id" = true := by
    rw [dmem_eq_isSome, hv]
    rfl
  simp [applyDefaults, adLeagueScoped, adIdScoped, adFixtures, adFixtureDifficulty,
    adManagerSchedule, adManagerStreak, adLeagueEntries, adPlayerForm, adCurrentRoster,
    adDraftPicks, adManagerSeason, adTransactionAnalysis, adPlayerGwStats, adHeadToHead,
    adFlatten_skip, adFlatten_dget_ne, adEntryDefaults_skip, adEntryDefaults_dget_ne,
    dget_dset, dget_dsetdefault, dget_dpop, dget_dkeep, dmem_dset,
    dmem_dsetdefault, dmem_dpop, dmem_dkeep, dsetdefault_of_mem, dkeep_dkeep, hv, hm]
  repeat' split
  all_goals simp_all [adFlatten_skip, adFlatten_dget_ne, adEntryDefaults_skip,
    adEntryDefaults_dget_ne, dget_dset, dget_dsetdefault, dget_dpop, dget_dkeep,
    dmem_dset, dmem_dsetdefault, dmem_dpop, dmem_dkeep, dsetdefault_of_mem,
    dkeep_dkeep, hv, hm]

set_option maxRecDepth 8000 in
set_option maxHeartbeats 1000000 in
theorem applyDefaults_pgs_drops_league_id (cfg : Settings) (s : Session) (args : Dict) :
    dmem (applyDefaults cfg s "player_gw_stats" args) "league_id" = false := by
  simp [applyDefaults, adLeagueScoped_skip, adFixtures_skip, adFlatten_skip,
    adFixtureDifficulty_skip, adLeagueEntries_skip, adManagerSeason_skip,
    adPlayerForm_skip, adManagerSchedule_skip, adDraftPicks_skip, adManagerStreak_skip,
    adTransactionAnalysis_skip, adCurrentRoster_skip, adHeadToHead_skip,
    adEntryDefaults_skip, adIdScoped_skip, adPlayerGwStats,
    dmem_dset, dmem_dsetdefault, dmem_dpop, dmem_dkeep]
  repeat' split
  all_goals simp_all [dmem_dset, dmem_dsetdefault, dmem_dpop, dmem_dkeep]

theorem applyDefaults_keeps_league_id (cfg : Settings) (s : Session) (name : String)
    (args : Dict) (v : Value) (hpgs : ¬name = "player_gw_stats")
    (hv : dget args "league_id" = some v) :
    dget (applyDefaults cfg s name args) "league_id" = some v := by
  by_cases hms : name = "manager_schedule"
  · subst hms
    exact applyDefaults_lid_ms cfg s args v hv
  by_cases hle : name = "league_entries"
  · subst hle
    exact applyDefaults_lid_le cfg s args v hv
  by_cases hwr : name = "waiver_recommendations"
  · subst hwr
    exact applyDefaults_lid_wr cfg s args v hv
  by_cases hmstk : name = "manager_streak"
  · subst hmstk
    exact applyDefaults_lid_mstk cfg s args v hv
  by_cases hcr : name = "current_roster"
  · subst hcr
    exact applyDefaults_lid_cr cfg s args v hv
  by_cases hmsea : name = "manager_season"
  · subst hmsea
    exact applyDefaults_lid_msea cfg s args v hv
  by_cases hh2h : name = "head_to_head"
  · subst hh2h
    exact applyDefaults_lid_h2h cfg s args v hv
  by_cases hls : name = "league_summary"
  · subst hls
    exact applyDefaults_lid_ls cfg s args v hv
  by_cases hmb : name = "matchup_breakdown"
  · subst hmb
    exact applyDefaults_lid_mb cfg s args v hv
  by_cases hstd : name = "standings"
  · subst hstd
    exact applyDefaults_lid_std cfg s args v hv
  by_cases htrx : name = "transactions"
  · subst htrx
    exact applyDefaults_lid_trx cfg s args v hv
  by_cases hlef : name = "lineup_efficiency"
  · subst hlef
    exact applyDefaults_lid_lef cfg s args v hv
  by_cases hsos : name = "strength_of_schedule"
  · subst hsos
    exact applyDefaults_lid_sos cfg s args v hv
  by_cases hosc : name = "ownership_scarcity"
  · subst hosc
    exact applyDefaults_lid_osc cfg s args v hv
  by_cases hta : name = "transaction_analysis"
  · subst hta
    exact applyDefaults_lid_ta cfg s args v hv
  by_cases hfx : name = "fixtures"
  · subst hfx
    exact applyDefaults_lid_fx cfg s args v hv
  by_cases hfd : name = "fixture_difficulty"
  · subst hfd
    exact applyDefaults_lid_fd cfg s args v hv
  by_cases hpf : name = "player_form"
  · subst hpf
    exact applyDefaults_lid_pf cfg s args v hv
  by_cases hdp : name = "draft_picks"
  · subst hdp
    exact applyDefaults_lid_dp cfg s args v hv
  rw [applyDefaults_generic cfg s args hms hle hwr hmstk hcr hmsea hh2h hls hmb hstd
    htrx hlef hsos hosc hta hfx hfd hpf hdp hpgs]
  exact hv


/-- C9: the Argument Defaulting Engine is idempotent — applying
`_apply_defaults` twice gives the same dict as applying it once, for every
tool name and argument dict — and non-destructive on `league_id`: the only
write to that key is a `setdefault`, so any `league_id` in the output equals
the caller-supplied value, and for every tool except `player_gw_stats`
(whose closing filter keeps only player-scoped keys and so deletes the key)
an explicit `league_id`, an explicit `0` included, survives verbatim. -/
theorem c9_apply_defaults_idempotent_nondestructive :
    (∀ (cfg : Settings) (s : Session) (name : String) (args : Dict),
      applyDefaults cfg s name (applyDefaults cfg s name args) =
        applyDefaults cfg s name args) ∧
    (∀ (cfg : Settings) (s : Session) (name : String) (args : Dict) (v w : Value),
      dget args "league_id" = some v →
      dget (applyDefaults cfg s name args) "league_id" = some w → w = v) ∧
    (∀ (cfg : Settings) (s : Session) (name : String) (args : Dict) (v : Value),
      ¬name = "player_gw_stats" → dget args "league_id" = some v →
      dget (applyDefaults cfg s name args) "league_id" = some v) := by
  refine ⟨applyDefaults_idem, ?_, fun cfg s name args v h hv =>
    applyDefaults_keeps_league_id cfg s name args v h hv⟩
  intro cfg s name args v w hv hw
  by_cases hp : name = "player_gw_stats"
  · subst hp
    have hd := applyDefaults_pgs_drops_league_id cfg s args
    rw [dmem_eq_isSome, hw] at hd
    simp at hd
  · have h2 := applyDefaults_keeps_league_id cfg s name args v hp hv
    rw [h2] at hw
    exact (Option.some.inj hw).symm

/-- C9 counterexample: for `player_gw_stats` an explicitly supplied
`league_id` of `0` is not preserved — the closing argument filter deletes
the key outright. -/
theorem c9_counterexample :
    dget [("league_id", Value.vInt 0)] "league_id" = some (.vInt 0) ∧
    dmem (applyDefaults ⟨14204⟩ emptySession "player_gw_stats"
      [("league_id", Value.vInt 0)]) "league_id" = false :=
  ⟨rfl, rfl⟩

/-- C9 witness: idempotence and the survival of an explicit `league_id = 0`
at the concrete tool `league_summary`. -/
theorem c9_apply_defaults_witness :
    applyDefaults ⟨14204⟩ emptySession "league_summary"
        (applyDefaults ⟨14204⟩ emptySession "league_summary"
          [("league_id", Value.vInt 0)]) =
      applyDefaults ⟨14204⟩ emptySession "league_summary"
        [("league_id", Value.vInt 0)] ∧
    dget (applyDefaults ⟨14204⟩ emptySession "league_summary"
        [("league_id", Value.vInt 0)]) "league_id" = some (.vInt 0) :=
  ⟨c9_apply_defaults_idempotent_nondestructive.1 ⟨14204⟩ emptySession "league_summary"
      [("league_id", Value.vInt 0)],
    c9_apply_defaults_idempotent_nondestructive.2.2 ⟨14204⟩ emptySession "league_summary"
      [("league_id", Value.vInt 0)] (.vInt 0) (by decide) rfl⟩

end FPLAgent
